import Mathlib

/-!
# SSCore: vector algebra, star model and CSV codec

A shallow embedding of `SSVector.cpp` and `SSCode/SSStar.cpp`.

Conventions of the embedding.

* A C++ `double` (and `float`) is a value of `Double`: a real number, or one of `+inf`,
  `-inf`, `NaN`.  The result of an addition, multiplication, division, sine or cosine is
  stored through `Double.ofReal`: it overflows to an infinity from `2^1024` on and
  underflows to zero below `2^(-1075)`, and is exact in between.  The rounding of the
  significand and the sign of zero are not modelled; `sqrt`, `asin`, `atan2` and `log10`
  return the exact real value.  `HUGE_VAL` is `+inf`.
* A C++ `std::string` is a `List Char` (type `string`); a `vector<T>` is a `List T`.
* Methods that only read `this` take the receiver by value; methods that assign members
  return the updated object.
* Functions, constants and types that the sources use but do not define live in `Env`
  (parameters) or are definitions whose doc comment starts with `Modelled from the spec:`.
-/

-- The `sizeOf` functions of the types below are never used: no definition recurses on them.
set_option genSizeOf false
set_option genSizeOfSpec false

noncomputable section

open Classical

/-! ## IEEE-style numbers -/

/-- A C++ `double`: a finite real, plus or minus infinity, or not-a-number. -/
inductive Double where
  | fin (r : ℝ)
  | pinf
  | ninf
  | nan

-- Only the injectivity of `Double.fin` is used; the later types do without these lemmas.
set_option genInjectivity false

namespace Double

/-- The macro `HUGE_VAL` of `<math.h>`: positive infinity. -/
def HUGE_VAL : Double := pinf

/-- The function `isinf` of `<math.h>`: true for both infinities. -/
def isinf : Double → Bool
  | pinf => true
  | ninf => true
  | _ => false

/-- The function `isnan` of `<math.h>`. -/
def isnan : Double → Bool
  | nan => true
  | _ => false

/-- The range of a `double`: a real result of magnitude `2^1024` or more is stored as the
infinity of its sign, one of magnitude below `2^(-1075)` as zero, and every other result
as itself. -/
def ofReal (r : ℝ) : Double :=
  if (2 : ℝ) ^ 1024 ≤ r then pinf
  else if r ≤ -(2 : ℝ) ^ 1024 then ninf
  else if |r| < 1 / (2 : ℝ) ^ 1075 then fin 0
  else fin r

/-- A real number that a `double` operation stores unchanged: its magnitude is below
`2^1024`, and it is zero or of magnitude `2^(-1075)` at least. -/
def InRange (r : ℝ) : Prop :=
  |r| < (2 : ℝ) ^ 1024 ∧ (r = 0 ∨ 1 / (2 : ℝ) ^ 1075 ≤ |r|)

/-- A real number of moderate size: zero, or of magnitude between `2^(-k)` and `2^k`. -/
def Mid (k : ℕ) (r : ℝ) : Prop :=
  r = 0 ∨ (1 / (2 : ℝ) ^ k ≤ |r| ∧ |r| ≤ (2 : ℝ) ^ k)

/-- Unary minus. -/
def neg : Double → Double
  | fin a => fin (-a)
  | pinf => ninf
  | ninf => pinf
  | nan => nan

/-- Addition; opposite infinities give NaN. -/
def add : Double → Double → Double
  | fin a, fin b => ofReal (a + b)
  | nan, _ => nan
  | _, nan => nan
  | pinf, ninf => nan
  | ninf, pinf => nan
  | pinf, _ => pinf
  | _, pinf => pinf
  | ninf, _ => ninf
  | _, ninf => ninf

/-- An infinity carrying the sign of the finite real `s`; NaN when `s` is zero. -/
def signedInf (s : ℝ) : Double :=
  if 0 < s then pinf else if s < 0 then ninf else nan

/-- Multiplication; zero times infinity gives NaN. -/
def mul : Double → Double → Double
  | fin a, fin b => ofReal (a * b)
  | nan, _ => nan
  | _, nan => nan
  | fin a, pinf => signedInf a
  | fin a, ninf => signedInf (-a)
  | pinf, fin b => signedInf b
  | ninf, fin b => signedInf (-b)
  | pinf, pinf => pinf
  | ninf, ninf => pinf
  | pinf, ninf => ninf
  | ninf, pinf => ninf

/-- Division; a non-zero finite value over zero is an infinity, a finite value over an
infinity is zero, `0/0` and `inf/inf` are NaN. -/
def div : Double → Double → Double
  | fin a, fin b => if b = 0 then signedInf a else ofReal (a / b)
  | nan, _ => nan
  | _, nan => nan
  | fin _, pinf => fin 0
  | fin _, ninf => fin 0
  | pinf, fin b => if 0 ≤ b then pinf else ninf
  | ninf, fin b => if 0 ≤ b then ninf else pinf
  | pinf, pinf => nan
  | pinf, ninf => nan
  | ninf, pinf => nan
  | ninf, ninf => nan

instance : Neg Double := ⟨neg⟩
instance : Add Double := ⟨add⟩
instance : Sub Double := ⟨fun a b => add a (neg b)⟩
instance : Mul Double := ⟨mul⟩
instance : Div Double := ⟨div⟩

/-- The comparison `a < b`; false whenever an operand is NaN. -/
def lt : Double → Double → Prop
  | fin a, fin b => a < b
  | fin _, pinf => True
  | ninf, fin _ => True
  | ninf, pinf => True
  | _, _ => False

/-- The comparison `a == b`; false whenever an operand is NaN. -/
def eq : Double → Double → Prop
  | fin a, fin b => a = b
  | pinf, pinf => True
  | ninf, ninf => True
  | _, _ => False

/-- The comparison `a <= b`. -/
def le (a b : Double) : Prop := lt a b ∨ eq a b

/-- The comparison `a > b`. -/
def gt (a b : Double) : Prop := lt b a

/-- Conversion to `bool`: every value except zero is true. -/
def toBool (a : Double) : Prop := ¬ eq a (fin 0)

/-- The function `sqrt` of `<math.h>`. -/
def sqrt : Double → Double
  | fin a => if a < 0 then nan else fin (Real.sqrt a)
  | pinf => pinf
  | _ => nan

/-- The function `sin` of `<math.h>`. -/
def sin : Double → Double
  | fin a => ofReal (Real.sin a)
  | _ => nan

/-- The function `cos` of `<math.h>`. -/
def cos : Double → Double
  | fin a => ofReal (Real.cos a)
  | _ => nan

/-- The function `asin` of `<math.h>`: NaN outside `[-1, 1]`. -/
def asin : Double → Double
  | fin a => if -1 ≤ a ∧ a ≤ 1 then fin (Real.arcsin a) else nan
  | _ => nan

/-- The function `atan2` of `<math.h>`: the argument of the point `(x, y)`. -/
def atan2 : Double → Double → Double
  | fin y, fin x => fin (Complex.arg ⟨x, y⟩)
  | nan, _ => nan
  | _, nan => nan
  | fin _, pinf => fin 0
  | fin y, ninf => if 0 ≤ y then fin Real.pi else fin (-Real.pi)
  | pinf, fin _ => fin (Real.pi / 2)
  | ninf, fin _ => fin (-(Real.pi / 2))
  | pinf, pinf => fin (Real.pi / 4)
  | ninf, pinf => fin (-(Real.pi / 4))
  | pinf, ninf => fin (3 * Real.pi / 4)
  | ninf, ninf => fin (-(3 * Real.pi / 4))

/-- Modelled from the spec: `mod2pi` is declared in `SSUtilities.hpp` (and used through
`SSAngle::mod2Pi`) but its body is not among the sources; the spec says the longitude is
"normalized to [0, 2π)".  The angle is reduced modulo `2π` into that interval. -/
def mod2Pi : Double → Double
  | fin a => fin (a - 2 * Real.pi * ⌊a / (2 * Real.pi)⌋)
  | _ => nan

/-- Modelled from the spec: `atan2pi` is declared in `SSUtilities.hpp` (and used through
`SSAngle::atan2Pi`) but its body is not among the sources: `atan2` reduced to `[0, 2π)`. -/
def atan2Pi (y x : Double) : Double := mod2Pi (atan2 y x)

/-- The function `log10` of `<math.h>`: minus infinity at zero, NaN below zero. -/
def log10 : Double → Double
  | fin a => if 0 < a then fin (Real.logb 10 a) else if a = 0 then ninf else nan
  | pinf => pinf
  | _ => nan

end Double

/-! ## `SSVector.cpp` -/

/-- A point in spherical coordinates; `SSAngle` is a `double` holding radians. -/
structure SSSpherical where
  lon : Double
  lat : Double
  rad : Double

/-- A point in rectangular coordinates. -/
structure SSVector where
  x : Double
  y : Double
  z : Double

namespace SSVector

/-- Source function `SSVector::SSVector ( void )`: the origin. -/
def zero : SSVector := ⟨.fin 0, .fin 0, .fin 0⟩

/-- Source function `SSVector::SSVector ( SSSpherical sph )`. -/
def ofSpherical (sph : SSSpherical) : SSVector :=
  { x := sph.rad * Double.cos sph.lat * Double.cos sph.lon
    y := sph.rad * Double.cos sph.lat * Double.sin sph.lon
    z := sph.rad * Double.sin sph.lat }

/-- Source function `SSVector::magnitude`. -/
def magnitude (v : SSVector) : Double :=
  Double.sqrt (v.x * v.x + v.y * v.y + v.z * v.z)

/-- Source function `SSVector::add`. -/
def add (v other : SSVector) : SSVector :=
  ⟨v.x + other.x, v.y + other.y, v.z + other.z⟩

/-- Source function `SSVector::subtract`. -/
def subtract (v other : SSVector) : SSVector :=
  ⟨v.x - other.x, v.y - other.y, v.z - other.z⟩

/-- Source function `SSVector::multiplyBy`. -/
def multiplyBy (v : SSVector) (s : Double) : SSVector :=
  ⟨v.x * s, v.y * s, v.z * s⟩

/-- Source function `SSVector::divideBy`. -/
def divideBy (v : SSVector) (s : Double) : SSVector :=
  ⟨v.x / s, v.y / s, v.z / s⟩

/-- Source function `SSVector::normalize ( double &mag )`: the returned vector paired with the value
written to `mag`.  The method assigns no member of `this`. -/
def normalizeMag (v : SSVector) : SSVector × Double :=
  let mag := v.magnitude
  if Double.gt mag (.fin 0) then (v.divideBy mag, mag)
  else (⟨.fin 0, .fin 0, .fin 0⟩, mag)

/-- Source function `SSVector::normalize ( void )`. -/
def normalize (v : SSVector) : SSVector := v.normalizeMag.1

/-- Source function `SSVector::dotProduct`. -/
def dotProduct (v other : SSVector) : Double :=
  v.x * other.x + v.y * other.y + v.z * other.z

/-- Source function `SSVector::crossProduct`. -/
def crossProduct (v other : SSVector) : SSVector :=
  let u := v.y * other.z - v.z * other.y
  let w1 := v.z * other.x - v.x * other.z
  let w := v.x * other.y - v.y * other.x
  ⟨u, w1, w⟩

/-- Source function `SSVector::angularSeparation`. -/
def angularSeparation (v other : SSVector) : Double :=
  Double.asin (v.dotProduct other)

/-- Source function `SSVector::distance`. -/
def distance (v other : SSVector) : Double :=
  (v.subtract other).magnitude

end SSVector

namespace SSSpherical

/-- Source function `SSSpherical::SSSpherical ( SSAngle lon, SSAngle lat )`: unit radius. -/
def ofLonLat (lon lat : Double) : SSSpherical := ⟨lon, lat, .fin 1⟩

/-- Source function `SSSpherical::SSSpherical ( SSVector vec )`. -/
def ofVector (vec : SSVector) : SSSpherical :=
  let rad := vec.magnitude
  { rad := rad
    lat := Double.asin (vec.z / rad)
    lon := Double.mod2Pi (Double.atan2 vec.y vec.x) }

/-- Source function `SSSpherical::angularSeparation`. -/
def angularSeparation (s other : SSSpherical) : Double :=
  (SSVector.ofSpherical s).angularSeparation (SSVector.ofSpherical other)

end SSSpherical

/-- Source function `SSVectorToSphericalMotion`: the values left in the two reference
parameters `posSph` and `velSph` (every field of both is assigned on either branch, so
their incoming values do not matter).  The product `posVec * velVec` of two vectors is
their dot product. -/
def SSVectorToSphericalMotion (posVec velVec : SSVector) : SSSpherical × SSSpherical :=
  let rad := posVec.magnitude
  if Double.toBool rad ∨ (Double.eq posVec.x (.fin 0) ∧ Double.eq posVec.y (.fin 0)) then
    (⟨.fin 0, .fin 0, rad⟩, ⟨.fin 0, .fin 0, .fin 0⟩)
  else
    let lon := Double.asin (posVec.z / rad)
    let lat := Double.atan2Pi posVec.y posVec.x
    let cosb := Double.cos lat
    let vrad := posVec.dotProduct velVec / rad
    let vlat := (rad * velVec.z - posVec.z * rad) / (cosb * rad * rad)
    let vlon := (posVec.x * velVec.y - posVec.y * velVec.x)
      / (posVec.x * posVec.x + posVec.y * posVec.y)
    (⟨lon, lat, rad⟩, ⟨vlon, vlat, vrad⟩)

/-- Source function `SSSphericalToVectorMotion`: the value left in the reference parameter
`posVec`, paired with the final value of the local copy `velVec` (that parameter is passed
by value, so the caller does not see it). -/
def SSSphericalToVectorMotion (posSph velSph : SSSpherical) : SSVector × SSVector :=
  let cosl := Double.cos posSph.lon
  let sinl := Double.sin posSph.lon
  let cosb := Double.cos posSph.lat
  let sinb := Double.sin posSph.lat
  let vlon := velSph.lon
  let vlat := velSph.lat
  let vrad := velSph.rad
  (⟨posSph.rad * cosl * cosb, posSph.rad * sinl * cosb, posSph.rad * sinb⟩,
   ⟨posSph.rad * (-cosb * sinl * vlon - cosl * sinb * vlat) + cosl * cosb * vrad,
    posSph.rad * (cosl * cosb * vlon - sinl * sinb * vlat) + cosb * sinl * vrad,
    posSph.rad * cosb * vrad + sinb * vrad⟩)

/-! ## Strings and the primitives of `SSUtilities.hpp` -/

/-- A C++ `std::string`: its sequence of characters. -/
abbrev string := List Char

/-- Modelled from the spec: `split` is declared in `SSUtilities.hpp` but its body is not
among the sources; the spec says "split the line on commas".  The string is cut at every
occurrence of the delimiter, which is the one-character string `","` at its only call in
`SSStar.cpp`; with any other delimiter the string is returned whole. -/
def split (str delim : string) : List string :=
  match delim with
  | [c] => str.splitOn c
  | _ => [str]

/-- Modelled from the spec: `trim` is declared in `SSUtilities.hpp` but its body is not
among the sources; the spec says "trim whitespace from every field".  Leading and trailing
white-space characters are removed. -/
def trim (str : string) : string :=
  ((str.dropWhile Char.isWhitespace).reverse.dropWhile Char.isWhitespace).reverse

/-- The enumeration `SSObjectType` (declared in `SSObject.hpp`, which is not among the
sources): the integer value of the enumerator. -/
abbrev SSObjectType := Int

/-- The class `SSIdentifier` (declared in `SSIdentifier.hpp`, which is not among the
sources): a 64-bit integer; `SSStar.cpp` documents the null identifier as zero, and an
identifier converts to `true` when it is not null. -/
structure SSIdentifier where
  id : Int
deriving DecidableEq

/-- The conversion of an identifier to `bool` used by `if ( ident )`. -/
def SSIdentifier.toBool (ident : SSIdentifier) : Bool := decide (ident.id ≠ 0)

/-- Everything `SSStar.cpp` uses that the sources declare elsewhere and do not define:
enumerators of `SSObjectType`, the type-code registry, the identifier codec, number
parsing and formatting, the sexagesimal angle classes and the unit constants. -/
structure Env where
  /-- Enumerator `kTypeStar`. -/
  kTypeStar : SSObjectType
  /-- Enumerator `kTypeDoubleStar`. -/
  kTypeDoubleStar : SSObjectType
  /-- Enumerator `kTypeVariableStar`. -/
  kTypeVariableStar : SSObjectType
  /-- Enumerator `kTypeDoubleVariableStar`. -/
  kTypeDoubleVariableStar : SSObjectType
  /-- Enumerator `kTypeGalaxy`. -/
  kTypeGalaxy : SSObjectType
  /-- Registry function `SSObject::codeToType`. -/
  codeToType : string → SSObjectType
  /-- Registry function `SSObject::typeToCode`. -/
  typeToCode : SSObjectType → string
  /-- Codec function `SSIdentifier::fromString`. -/
  identFromString : string → SSIdentifier
  /-- Codec function `SSIdentifier::toString`. -/
  identToString : SSIdentifier → string
  /-- Parser `strtofloat`. -/
  strtofloat : string → Double
  /-- Parser `strtofloat64`. -/
  strtofloat64 : string → Double
  /-- Formatter `format ( fmt, x )` with one numeric argument. -/
  format : string → Double → string
  /-- Constructor `SSHourMinSec ( string )` followed by the conversion to `SSAngle`. -/
  hmsFromString : string → Double
  /-- Constructor `SSDegMinSec ( string )` followed by the conversion to `SSAngle`. -/
  dmsFromString : string → Double
  /-- Conversion of an `SSAngle` to `SSHourMinSec` followed by `toString`. -/
  hmsToString : Double → string
  /-- Conversion of an `SSAngle` to `SSDegMinSec` followed by `toString`. -/
  dmsToString : Double → string
  /-- Method `SSAngle::toArcsec`. -/
  toArcsec : Double → Double
  /-- Constant `SSDynamics::kLYPerParsec`. -/
  kLYPerParsec : Double
  /-- Constant `SSDynamics::kParsecPerLY`. -/
  kParsecPerLY : Double
  /-- Constant `SSDynamics::kLightKmPerSec`. -/
  kLightKmPerSec : Double
  /-- Constant `SSAngle::kRadPerArcsec`. -/
  kRadPerArcsec : Double
  /-- Constant `SSAngle::kArcsecPerRad`. -/
  kArcsecPerRad : Double
  /-- Constant `SSAngle::kDegPerRad`. -/
  kDegPerRad : Double
  /-- Constant `SSAngle::kArcminPerRad`. -/
  kArcminPerRad : Double
  /-- Constant `SSTime::kJ2000`. -/
  kJ2000 : Double
  /-- Method `SSIdentifier::catalog`: the value of the `SSCatalog` enumerator. -/
  catalog : SSIdentifier → Int

/-! ## Member functions of `SSVector.hpp` used by `SSStar.cpp` -/

/-- Modelled from the spec: `SSSpherical::toVectorPosition` is declared in `SSVector.hpp`,
which is not among the sources; the spec says "spherical → rectangular position only
(radius treated as distance; longitude measured from +X axis in the reference plane,
latitude toward +Z)", which is the constructor `SSVector ( SSSpherical )`. -/
def SSSpherical.toVectorPosition (coords : SSSpherical) : SSVector :=
  SSVector.ofSpherical coords

/-- Modelled from the spec: `SSSpherical::toVectorVelocity` is declared in `SSVector.hpp`,
which is not among the sources; the spec says it "returns the rectangular velocity vector
consistent with differentiating the position formula".  It is taken to be the velocity
computed by `SSSphericalToVectorMotion`. -/
def SSSpherical.toVectorVelocity (coords motion : SSSpherical) : SSVector :=
  (SSSphericalToVectorMotion coords motion).2

/-- Modelled from the spec: `SSVector::toSpherical` is declared in `SSVector.hpp`, which
is not among the sources; the spec says "rectangular → spherical position", which is the
constructor `SSSpherical ( SSVector )`. -/
def SSVector.toSpherical (v : SSVector) : SSSpherical :=
  SSSpherical.ofVector v

/-- Modelled from the spec: `SSVector::toSphericalVelocity` is declared in `SSVector.hpp`,
which is not among the sources; the spec says "rectangular → spherical position/velocity".
It is taken to be the motion computed by `SSVectorToSphericalMotion`. -/
def SSVector.toSphericalVelocity (pos vel : SSVector) : SSSpherical :=
  (SSVectorToSphericalMotion pos vel).2

/-! ## `SSStar.cpp`: the object model -/

/-- The data members of class `SSStar`, with the type code it inherits from `SSObject`. -/
structure SSStar where
  type : SSObjectType
  names : List string
  idents : List SSIdentifier
  parallax : Double
  radvel : Double
  position : SSVector
  velocity : SSVector
  Vmag : Double
  Bmag : Double
  spectrum : string

/-- The data members that class `SSVariableStar` adds to `SSStar`. -/
structure SSVariableStar where
  varType : string
  varMaxMag : Double
  varMinMag : Double
  varPeriod : Double
  varEpoch : Double

/-- The data members that class `SSDoubleStar` adds to `SSStar`. -/
structure SSDoubleStar where
  comps : string
  magDelta : Double
  sep : Double
  PA : Double
  PAyr : Double

/-- The data members that class `SSDeepSky` adds to `SSStar`. -/
structure SSDeepSky where
  majAxis : Double
  minAxis : Double
  PA : Double

/-- An object on the heap, by its dynamic class: `SSStar`, `SSDoubleStar`,
`SSVariableStar`, `SSDoubleVariableStar` (which derives from both of the former and shares
one `SSStar` base), `SSDeepSky`, or a class outside the `SSStar` family, of which only the
type code is kept. -/
inductive SSObject where
  | star (base : SSStar)
  | doubleStar (base : SSStar) (dbl : SSDoubleStar)
  | variableStar (base : SSStar) (var : SSVariableStar)
  | doubleVariableStar (base : SSStar) (dbl : SSDoubleStar) (var : SSVariableStar)
  | deepSky (base : SSStar) (ds : SSDeepSky)
  | other (type : SSObjectType)

/-- A shared pointer `SSObjectPtr`; `none` is `nullptr`. -/
abbrev SSObjectPtr := Option SSObject

/-- Source function `SSStar::SSStar ( SSObjectType type )`. -/
def SSStar.new (type : SSObjectType) : SSStar :=
  { type := type
    names := []
    idents := []
    parallax := .fin 0
    radvel := Double.HUGE_VAL
    position := ⟨Double.HUGE_VAL, Double.HUGE_VAL, Double.HUGE_VAL⟩
    velocity := ⟨Double.HUGE_VAL, Double.HUGE_VAL, Double.HUGE_VAL⟩
    Vmag := Double.HUGE_VAL
    Bmag := Double.HUGE_VAL
    spectrum := [] }

/-- The members that `SSVariableStar::SSVariableStar ( void )` initialises. -/
def SSVariableStar.new : SSVariableStar :=
  { varType := []
    varMaxMag := Double.HUGE_VAL
    varMinMag := Double.HUGE_VAL
    varPeriod := Double.HUGE_VAL
    varEpoch := Double.HUGE_VAL }

/-- The members that `SSDoubleStar::SSDoubleStar ( void )` initialises. -/
def SSDoubleStar.new : SSDoubleStar :=
  { comps := []
    magDelta := Double.HUGE_VAL
    sep := Double.HUGE_VAL
    PA := Double.HUGE_VAL
    PAyr := Double.HUGE_VAL }

/-- The members that `SSDeepSky::SSDeepSky ( SSObjectType type )` initialises. -/
def SSDeepSky.new : SSDeepSky :=
  { majAxis := Double.HUGE_VAL
    minAxis := Double.HUGE_VAL
    PA := Double.HUGE_VAL }

namespace SSObject

/-- Source function `SSStar::SSStar ( void )`: a new object of class `SSStar`. -/
def newStar (env : Env) : SSObject := .star (SSStar.new env.kTypeStar)

/-- Source function `SSVariableStar::SSVariableStar ( void )`: a new object of that class. -/
def newVariableStar (env : Env) : SSObject :=
  .variableStar (SSStar.new env.kTypeVariableStar) SSVariableStar.new

/-- Source function `SSDoubleStar::SSDoubleStar ( void )`: a new object of that class. -/
def newDoubleStar (env : Env) : SSObject :=
  .doubleStar (SSStar.new env.kTypeDoubleStar) SSDoubleStar.new

/-- Source function `SSDoubleVariableStar::SSDoubleVariableStar ( void )`: the shared base
is built by `SSStar ( void )`, both fragments by their constructors, and the body then
assigns `_type = kTypeDoubleVariableStar`. -/
def newDoubleVariableStar (env : Env) : SSObject :=
  .doubleVariableStar { SSStar.new env.kTypeStar with type := env.kTypeDoubleVariableStar }
    SSDoubleStar.new SSVariableStar.new

/-- Source function `SSDeepSky::SSDeepSky ( SSObjectType type )`: a new object of that
class. -/
def newDeepSky (type : SSObjectType) : SSObject :=
  .deepSky (SSStar.new type) SSDeepSky.new

end SSObject

/-- Modelled from the spec: `SSNewObject` is defined in `SSObject.cpp`, which is not among
the sources.  The spec's object model has the variants "Star, Double Star, Variable Star,
Double-Variable Star, Deep-Sky Object", the decoder "constructs variant instance" from the
discriminator, and deep-sky is the shape of every other type code of the star range
(`kTypeStar` to `kTypeGalaxy`).  Outside that range the object is of a class that is not
an `SSStar`. -/
def SSNewObject (env : Env) (type : SSObjectType) : SSObjectPtr :=
  if type = env.kTypeStar then some (SSObject.newStar env)
  else if type = env.kTypeDoubleStar then some (SSObject.newDoubleStar env)
  else if type = env.kTypeVariableStar then some (SSObject.newVariableStar env)
  else if type = env.kTypeDoubleVariableStar then some (SSObject.newDoubleVariableStar env)
  else if env.kTypeStar ≤ type ∧ type ≤ env.kTypeGalaxy then some (SSObject.newDeepSky type)
  else some (SSObject.other type)

/-- Source function `SSGetStarPtr`: the `SSStar` part of the object, or `none` when the
dynamic cast fails. -/
def SSGetStarPtr : SSObjectPtr → Option SSStar
  | some (.star b) => some b
  | some (.doubleStar b _) => some b
  | some (.variableStar b _) => some b
  | some (.doubleVariableStar b _ _) => some b
  | some (.deepSky b _) => some b
  | _ => none

/-- Source function `SSGetDoubleStarPtr`: the `SSDoubleStar` part of the object, or `none`
when the dynamic cast fails. -/
def SSGetDoubleStarPtr : SSObjectPtr → Option SSDoubleStar
  | some (.doubleStar _ d) => some d
  | some (.doubleVariableStar _ d _) => some d
  | _ => none

/-- Source function `SSGetVariableStarPtr`: the `SSVariableStar` part of the object, or
`none` when the dynamic cast fails. -/
def SSGetVariableStarPtr : SSObjectPtr → Option SSVariableStar
  | some (.variableStar _ v) => some v
  | some (.doubleVariableStar _ _ v) => some v
  | _ => none

/-- Source function `SSGetDeepSkyPtr`: the `SSDeepSky` part of the object, or `none` when
the dynamic cast fails. -/
def SSGetDeepSkyPtr : SSObjectPtr → Option SSDeepSky
  | some (.deepSky _ ds) => some ds
  | _ => none

namespace SSObject

/-- The object after its `SSStar` part was assigned through an `SSStarPtr`. -/
def setStar : SSObject → SSStar → SSObject
  | .star _, b => .star b
  | .doubleStar _ d, b => .doubleStar b d
  | .variableStar _ v, b => .variableStar b v
  | .doubleVariableStar _ d v, b => .doubleVariableStar b d v
  | .deepSky _ ds, b => .deepSky b ds
  | .other t, _ => .other t

/-- The object after its `SSDoubleStar` part was assigned through an `SSDoubleStarPtr`. -/
def setDoubleStar : SSObject → SSDoubleStar → SSObject
  | .doubleStar b _, d => .doubleStar b d
  | .doubleVariableStar b _ v, d => .doubleVariableStar b d v
  | o, _ => o

/-- The object after its `SSVariableStar` part was assigned through an
`SSVariableStarPtr`. -/
def setVariableStar : SSObject → SSVariableStar → SSObject
  | .variableStar b _, v => .variableStar b v
  | .doubleVariableStar b d _, v => .doubleVariableStar b d v
  | o, _ => o

/-- The object after its `SSDeepSky` part was assigned through an `SSDeepSkyPtr`. -/
def setDeepSky : SSObject → SSDeepSky → SSObject
  | .deepSky b _, ds => .deepSky b ds
  | o, _ => o

/-- The member `_type` of the object (`SSObject::getType`). -/
def type : SSObject → SSObjectType
  | .star b => b.type
  | .doubleStar b _ => b.type
  | .variableStar b _ => b.type
  | .doubleVariableStar b _ _ => b.type
  | .deepSky b _ => b.type
  | .other t => t

end SSObject

/-! ## `SSStar.cpp`: coordinates and motion -/

namespace SSStar

/-- Source function `SSStar::setFundamentalCoords`. -/
def setFundamentalCoords (env : Env) (s : SSStar) (coords : SSSpherical) : SSStar :=
  let parallax := if coords.rad.isinf then Double.fin 0 else env.kLYPerParsec / coords.rad
  let coords : SSSpherical :=
    if Double.le parallax (.fin 0) ∨ coords.rad.isinf = true then { coords with rad := .fin 1 }
    else coords
  { s with parallax := parallax, position := coords.toVectorPosition }

/-- Source function `SSStar::setFundamentalMotion`. -/
def setFundamentalMotion (env : Env) (s : SSStar) (coords motion : SSSpherical) : SSStar :=
  let parallax := if coords.rad.isinf then Double.fin 0 else env.kLYPerParsec / coords.rad
  let radvel := motion.rad
  let coords : SSSpherical :=
    if Double.le parallax (.fin 0) then { coords with rad := .fin 1 } else coords
  let motion : SSSpherical :=
    if Double.le parallax (.fin 0) then { motion with rad := .fin 0 } else motion
  let motion : SSSpherical :=
    if motion.rad.isinf then { motion with rad := .fin 0 } else motion
  { s with
    parallax := parallax
    radvel := radvel
    position := coords.toVectorPosition
    velocity := coords.toVectorVelocity motion }

/-- Source function `SSStar::getFundamentalCoords`. -/
def getFundamentalCoords (env : Env) (s : SSStar) : SSSpherical :=
  let coords := s.position.toSpherical
  { coords with
    rad := if s.parallax.isinf = true ∨ Double.eq s.parallax (.fin 0) then Double.HUGE_VAL
           else env.kLYPerParsec / s.parallax }

/-- Source function `SSStar::getFundamentalMotion`. -/
def getFundamentalMotion (s : SSStar) : SSSpherical :=
  let motion := s.position.toSphericalVelocity s.velocity
  { motion with rad := s.radvel }

end SSStar

/-! ## `SSStar.cpp`: ephemeris -/

/-- The class `SSDynamics` (declared in `SSDynamics.hpp`, which is not among the sources):
the member that `SSStar::computeEphemeris` reads, the Julian ephemeris date. -/
structure SSDynamics where
  jde : Double

/-- The members `_direction`, `_distance` and `_magnitude` that an object inherits from
`SSObject` and that `computeEphemeris` assigns. -/
structure SSEphemeris where
  direction : SSVector
  distance : Double
  magnitude : Double

namespace SSStar

/-- Source function `SSStar::computeEphemeris`: the values it leaves in `_direction`,
`_distance` and `_magnitude`.  The operators `+`, `*` and `/=` of `SSVector.hpp` are
`add`, `multiplyBy` and `divideBy`. -/
def computeEphemeris (env : Env) (s : SSStar) (dyn : SSDynamics) : SSEphemeris :=
  if Double.gt s.parallax (.fin 0) then
    let direction := s.position.add (s.velocity.multiplyBy (dyn.jde - env.kJ2000))
    let distance := direction.magnitude
    let direction := direction.divideBy distance
    let magnitude := s.Vmag + .fin 5 * Double.log10 (distance * s.parallax)
    { direction := direction, distance := distance, magnitude := magnitude }
  else
    { direction := s.position, distance := Double.HUGE_VAL, magnitude := s.Vmag }

/-! ### Encoding -/

/-- Source function `SSStar::toCSV1`. -/
def toCSV1 (env : Env) (s : SSStar) : string :=
  let coords := s.getFundamentalCoords env
  let motion := s.getFundamentalMotion
  let ra := coords.lon
  let dec := coords.lat
  let distance := coords.rad
  let csv := env.typeToCode s.type ++ [',']
  let csv := csv ++ (env.hmsToString ra ++ [','])
  let csv := csv ++ (env.dmsToString dec ++ [','])
  let csv := csv ++ (if motion.lon.isnan then [',']
    else env.format "%+.5f,".toList (env.toArcsec (motion.lon / .fin 15)))
  let csv := csv ++ (if motion.lat.isnan then [',']
    else env.format "%+.4f,".toList (env.toArcsec motion.lat))
  let csv := csv ++ (if s.Vmag.isinf then [','] else env.format "%+.2f,".toList s.Vmag)
  let csv := csv ++ (if s.Bmag.isinf then [','] else env.format "%+.2f,".toList s.Bmag)
  let csv := csv ++ (if distance.isinf then [',']
    else env.format "%.3E,".toList (distance * env.kParsecPerLY))
  let csv := csv ++ (if s.radvel.isinf then [',']
    else env.format "%+.1f,".toList (s.radvel * env.kLightKmPerSec))
  let csv := csv ++ (if ',' ∉ s.spectrum then s.spectrum ++ [',']
    else ['"'] ++ s.spectrum ++ ['"', ','])
  csv

/-- Source function `SSStar::toCSV2`. -/
def toCSV2 (env : Env) (s : SSStar) : string :=
  let csv := s.idents.foldl (fun csv ident => csv ++ (env.identToString ident ++ [','])) []
  let csv := s.names.foldl (fun csv name => csv ++ (name ++ [','])) csv
  csv

end SSStar

/-- Source function `SSDoubleStar::toCSVD`. -/
def SSDoubleStar.toCSVD (env : Env) (d : SSDoubleStar) : string :=
  let csv : string := []
  let csv := csv ++ (d.comps ++ [','])
  let csv := csv ++ (if d.magDelta.isinf then [','] else env.format "%+.2f,".toList d.magDelta)
  let csv := csv ++ (if d.sep.isinf then [',']
    else env.format "%.1f,".toList (d.sep * env.kArcsecPerRad))
  let csv := csv ++ (if d.PA.isinf then [',']
    else env.format "%.1f,".toList (d.PA * env.kDegPerRad))
  let csv := csv ++ (if d.PAyr.isinf then [','] else env.format "%.2f,".toList d.PAyr)
  csv

/-- Source function `SSVariableStar::toCSVV`. -/
def SSVariableStar.toCSVV (env : Env) (v : SSVariableStar) : string :=
  let csv : string := []
  let csv := csv ++ (v.varType ++ [','])
  let csv := csv ++ (if v.varMinMag.isinf then [','] else env.format "%+.2f,".toList v.varMinMag)
  let csv := csv ++ (if v.varMaxMag.isinf then [','] else env.format "%+.2f,".toList v.varMaxMag)
  let csv := csv ++ (if v.varPeriod.isinf then [','] else env.format "%.2f,".toList v.varPeriod)
  let csv := csv ++ (if v.varEpoch.isinf then [','] else env.format "%.2f,".toList v.varEpoch)
  csv

/-- Source function `SSDeepSky::toCSVDS`. -/
def SSDeepSky.toCSVDS (env : Env) (ds : SSDeepSky) : string :=
  let csv : string := []
  let csv := csv ++ (if ds.majAxis.isinf then [',']
    else env.format "%.2f,".toList (ds.majAxis * env.kArcminPerRad))
  let csv := csv ++ (if ds.minAxis.isinf then [',']
    else env.format "%.2f,".toList (ds.minAxis * env.kArcminPerRad))
  let csv := csv ++ (if ds.PA.isinf then [',']
    else env.format "%.1f,".toList (ds.PA * env.kDegPerRad))
  csv

/-- The virtual function `toCSV`, dispatched on the dynamic class: `SSStar::toCSV`,
`SSDoubleStar::toCSV`, `SSVariableStar::toCSV`, `SSDoubleVariableStar::toCSV` and
`SSDeepSky::toCSV`.  For a class outside the `SSStar` family, whose encoder is not in
`SSStar.cpp`, the result is `none`. -/
def SSObject.toCSV (env : Env) : SSObject → Option string
  | .star b => some (b.toCSV1 env ++ b.toCSV2 env)
  | .doubleStar b d => some (b.toCSV1 env ++ d.toCSVD env ++ b.toCSV2 env)
  | .variableStar b v => some (b.toCSV1 env ++ v.toCSVV env ++ b.toCSV2 env)
  | .doubleVariableStar b d v =>
    some (b.toCSV1 env ++ d.toCSVD env ++ v.toCSVV env ++ b.toCSV2 env)
  | .deepSky b ds => some (b.toCSV1 env ++ ds.toCSVDS env ++ b.toCSV2 env)
  | .other _ => none

/-! ### Decoding -/

/-- The first field index after the fixed fields, as `SSStar::fromCSV` computes it from the
type code (`fid`). -/
def fromCSV.fid (env : Env) (type : SSObjectType) : Nat :=
  if type = env.kTypeStar then 10
  else if type = env.kTypeDoubleStar then 15
  else if type = env.kTypeVariableStar then 15
  else if type = env.kTypeDoubleVariableStar then 20
  else 13

/-- The loop of `SSStar::fromCSV` over the fields from index `fid` on: the remaining fields
are visited in order, `idents` and `names` are the two vectors built so far. -/
def fromCSV.scan (env : Env) :
    List string → List SSIdentifier → List string → List SSIdentifier × List string
  | [], idents, names => (idents, names)
  | field :: rest, idents, names =>
    if field.isEmpty then fromCSV.scan env rest idents names
    else
      let ident := env.identFromString field
      if ident.toBool then fromCSV.scan env rest (idents ++ [ident]) names
      else fromCSV.scan env rest idents (names ++ [field])

/-- A numeric field of `SSStar::fromCSV`: `HUGE_VAL` when the field is empty, otherwise the
value that `parse` gives to its text. -/
def fromCSV.num (field : string) (parse : string → Double) : Double :=
  if field.isEmpty then Double.HUGE_VAL else parse field

/-- The fields of a line as `SSStar::fromCSV` sees them (lines 324 to 326): the line is
split at commas and every field is trimmed. -/
def fromCSV.fields (csv : string) : List string :=
  (split csv [',']).map trim

/-- The base part of `SSStar::fromCSV` (lines 350 to 398): the positional fields 1 to 9
and the identifier and name vectors are stored into the `SSStar` that `pStar` points to.
The subscript `fields[i]` is `fields.getD i []`; the setters of `SSStar.hpp` assign the
member they are named after. -/
def fromCSV.star (env : Env) (type : SSObjectType) (fields : List string) (pStar : SSStar) :
    SSStar :=
  let fid := fromCSV.fid env type
  let ra := env.hmsFromString (fields.getD 1 [])
  let dec := env.dmsFromString (fields.getD 2 [])
  let pmRA := fromCSV.num (fields.getD 3 [])
    (fun f => env.kRadPerArcsec * env.strtofloat64 f * .fin 15)
  let pmDec := fromCSV.num (fields.getD 4 [])
    (fun f => env.kRadPerArcsec * env.strtofloat64 f)
  let vmag := fromCSV.num (fields.getD 5 []) env.strtofloat
  let bmag := fromCSV.num (fields.getD 6 []) env.strtofloat
  let dist := fromCSV.num (fields.getD 7 []) (fun f => env.strtofloat f * env.kLYPerParsec)
  let radvel := fromCSV.num (fields.getD 8 [])
    (fun f => env.strtofloat f / env.kLightKmPerSec)
  let spec := trim (fields.getD 9 [])
  let scanned := fromCSV.scan env (fields.drop fid) [] []
  let idents := scanned.1
  let names := scanned.2
  let coords : SSSpherical := ⟨ra, dec, dist⟩
  let motion : SSSpherical := ⟨pmRA, pmDec, radvel⟩
  let star := pStar.setFundamentalMotion env coords motion
  let star := { star with Vmag := vmag }
  let star := { star with Bmag := bmag }
  let star := { star with spectrum := spec }
  let star := { star with idents := idents }
  let star := { star with names := names }
  star

/-- The double-star part of `SSStar::fromCSV` (lines 402 to 412). -/
def fromCSV.doubleStar (env : Env) (fields : List string) (pDoubleStar : SSDoubleStar) :
    SSDoubleStar :=
  let comps := fields.getD 10 []
  let dmag := fromCSV.num (fields.getD 11 []) env.strtofloat
  let sep := fromCSV.num (fields.getD 12 []) (fun f => env.strtofloat f / env.kArcsecPerRad)
  let pa := fromCSV.num (fields.getD 13 []) (fun f => env.strtofloat f / env.kDegPerRad)
  let year := fromCSV.num (fields.getD 14 []) env.strtofloat
  { pDoubleStar with comps := comps, magDelta := dmag, sep := sep, PA := pa, PAyr := year }

/-- The variable-star part of `SSStar::fromCSV` (lines 417 to 429). -/
def fromCSV.variableStar (env : Env) (type : SSObjectType) (fields : List string)
    (pVariableStar : SSVariableStar) : SSVariableStar :=
  let fv := if type = env.kTypeVariableStar then 10 else 15
  let vtype := fields.getD fv []
  let vmin := fromCSV.num (fields.getD (fv + 1) []) env.strtofloat
  let vmax := fromCSV.num (fields.getD (fv + 2) []) env.strtofloat
  let vper := fromCSV.num (fields.getD (fv + 3) []) env.strtofloat
  let vep := fromCSV.num (fields.getD (fv + 4) []) env.strtofloat64
  { pVariableStar with
    varType := vtype, varMaxMag := vmax, varMinMag := vmin, varPeriod := vper, varEpoch := vep }

/-- The deep-sky part of `SSStar::fromCSV` (lines 434 to 440). -/
def fromCSV.deepSky (env : Env) (fields : List string) (pDeepSkyObject : SSDeepSky) :
    SSDeepSky :=
  let major := fromCSV.num (fields.getD 10 []) (fun f => env.strtofloat f / env.kArcminPerRad)
  let minor := fromCSV.num (fields.getD 11 []) (fun f => env.strtofloat f / env.kArcminPerRad)
  let pa := fromCSV.num (fields.getD 12 []) (fun f => env.strtofloat f / env.kDegPerRad)
  { pDeepSkyObject with majAxis := major, minAxis := minor, PA := pa }

/-- The construction part of `SSStar::fromCSV` (lines 381 to 443): the object is allocated
by `SSNewObject`, cast to the four pointer types, and each part that a cast reaches is
filled in. -/
def fromCSV.build (env : Env) (type : SSObjectType) (fields : List string) : SSObjectPtr :=
  let pObject := SSNewObject env type
  match pObject, SSGetStarPtr pObject with
  | some obj, some pStar =>
    let obj := obj.setStar (fromCSV.star env type fields pStar)
    let obj :=
      match SSGetDoubleStarPtr (some obj) with
      | some pDoubleStar => obj.setDoubleStar (fromCSV.doubleStar env fields pDoubleStar)
      | none => obj
    let obj :=
      match SSGetVariableStarPtr (some obj) with
      | some pVariableStar =>
        obj.setVariableStar (fromCSV.variableStar env type fields pVariableStar)
      | none => obj
    let obj :=
      match SSGetDeepSkyPtr (some obj) with
      | some pDeepSkyObject => obj.setDeepSky (fromCSV.deepSky env fields pDeepSkyObject)
      | none => obj
    some obj
  | _, _ => none

/-- The positional subscripts `fields[i]` that `SSStar::fromCSV` evaluates after its two
guards, for the object it allocates for `type`: 1 to 9 in the base part (lines 350 to
361), 10 to 14 when the double-star cast succeeds (lines 402 to 406), `fv` to `fv + 4`
when the variable-star cast succeeds (lines 417 to 423), and 10 to 12 when the deep-sky
cast succeeds (lines 434 to 436). -/
def fromCSV.subscripts (env : Env) (type : SSObjectType) : List Nat :=
  let pObject := SSNewObject env type
  let fv := if type = env.kTypeVariableStar then 10 else 15
  [1, 2, 3, 4, 5, 6, 7, 8, 9]
    ++ (if (SSGetDoubleStarPtr pObject).isSome then [10, 11, 12, 13, 14] else [])
    ++ (if (SSGetVariableStarPtr pObject).isSome then [fv, fv + 1, fv + 2, fv + 3, fv + 4]
        else [])
    ++ (if (SSGetDeepSkyPtr pObject).isSome then [10, 11, 12] else [])

/-- Source function `SSStar::fromCSV`: the two guards (lines 328 to 348), then the
construction. -/
def fromCSV (env : Env) (csv : string) : SSObjectPtr :=
  let fields := fromCSV.fields csv
  let type := env.codeToType (fields.getD 0 [])
  if type < env.kTypeStar ∨ type > env.kTypeGalaxy then none
  else
    let fid := fromCSV.fid env type
    if fields.length < fid then none
    else fromCSV.build env type fields

/-- The type code that `SSStar::fromCSV` reads from the first field of a line. -/
def fromCSV.type (env : Env) (csv : string) : SSObjectType :=
  env.codeToType ((fromCSV.fields csv).getD 0 [])

/-- The four star enumerators of `SSObjectType` are pairwise distinct. -/
structure Env.TypesDistinct (env : Env) : Prop where
  star_double : env.kTypeStar ≠ env.kTypeDoubleStar
  star_variable : env.kTypeStar ≠ env.kTypeVariableStar
  star_doubleVariable : env.kTypeStar ≠ env.kTypeDoubleVariableStar
  double_variable : env.kTypeDoubleStar ≠ env.kTypeVariableStar
  double_doubleVariable : env.kTypeDoubleStar ≠ env.kTypeDoubleVariableStar
  variable_doubleVariable : env.kTypeVariableStar ≠ env.kTypeDoubleVariableStar

/-! ## A reference environment

Concrete primitives on which the embedding can be evaluated: the star type codes with a
two-letter registry, identifiers written as `#` followed by tally marks, a decimal number
reader and a formatter that prints no digits. -/

/-- The value of a string of decimal digits; a character that is not a digit counts as
zero. -/
def refDigits (s : string) : Nat :=
  s.foldl (fun n c => 10 * n + (c.toNat - '0'.toNat)) 0

/-- The parts of a signed decimal number with an optional fraction: whether it is
negative, the value of the digits before the point, the value of the digits after it, and
how many digits follow the point. -/
def refDecimalParts (s : string) : Bool × Nat × Nat × Nat :=
  let neg := decide (s.head? = some '-')
  let body := if s.head? = some '-' ∨ s.head? = some '+' then s.drop 1 else s
  let ip := body.takeWhile (· ≠ '.')
  let fp := (body.dropWhile (· ≠ '.')).drop 1
  (neg, refDigits ip, refDigits fp, fp.length)

/-- The real number that a signed decimal string denotes. -/
def refDecimal (s : string) : ℝ :=
  let parts := refDecimalParts s
  let q : ℝ := parts.2.1 + (parts.2.2.1 : ℝ) / 10 ^ parts.2.2.2
  if parts.1 then -q else q

/-- The reference identifier reader: `#` followed by one or more `|` is the identifier
whose number is the count of `|`; anything else is the null identifier. -/
def refIdentFromString (s : string) : SSIdentifier :=
  match s with
  | '#' :: rest => if rest.all (· = '|') then ⟨rest.length⟩ else ⟨0⟩
  | _ => ⟨0⟩

/-- The reference identifier writer, inverse to the reader.  The catalog of a reference
identifier is its number divided by 2. -/
def refIdentToString (ident : SSIdentifier) : string :=
  '#' :: List.replicate ident.id.toNat '|'

/-- The reference type registry, from code to type. -/
def refCodeToType (s : string) : SSObjectType :=
  if s = "SS".toList then 10
  else if s = "DS".toList then 12
  else if s = "SV".toList then 13
  else if s = "DV".toList then 14
  else if s = "OC".toList then 20
  else if s = "GX".toList then 25
  else 0

/-- The reference type registry, from type to code. -/
def refTypeToCode (t : SSObjectType) : string :=
  if t = 10 then "SS".toList
  else if t = 12 then "DS".toList
  else if t = 13 then "SV".toList
  else if t = 14 then "DV".toList
  else if t = 20 then "OC".toList
  else if t = 25 then "GX".toList
  else []

/-- The reference environment. -/
def refEnv : Env :=
  { kTypeStar := 10
    kTypeDoubleStar := 12
    kTypeVariableStar := 13
    kTypeDoubleVariableStar := 14
    kTypeGalaxy := 25
    codeToType := refCodeToType
    typeToCode := refTypeToCode
    identFromString := refIdentFromString
    identToString := refIdentToString
    strtofloat := fun s => .fin (refDecimal s)
    strtofloat64 := fun s => .fin (refDecimal s)
    format := fun _ _ => [',']
    hmsFromString := fun s => .fin (refDecimal s)
    dmsFromString := fun s => .fin (refDecimal s)
    hmsToString := fun _ => "00 00 00".toList
    dmsToString := fun _ => "+00 00 00".toList
    toArcsec := fun a => a * .fin 206265
    kLYPerParsec := .fin (326 / 100)
    kParsecPerLY := .fin (100 / 326)
    kLightKmPerSec := .fin 299792
    kRadPerArcsec := .fin (1 / 206265)
    kArcsecPerRad := .fin 206265
    kDegPerRad := .fin 57
    kArcminPerRad := .fin 3438
    kJ2000 := .fin 2451545
    catalog := fun ident => ident.id / 2 }

/-- A double-variable star line for the reference environment: its 20 fixed fields, two
identifiers and one name. -/
def refLineDoubleVariable : string :=
  "DV,10 00 00,+20 00 00,1,2,+5.00,+5.50,10,20,A0,AB,1.5,3,90,2000,M,6,5,300,2451545,#|,#||,Mira".toList

/-- A double-star line for the reference environment with only 12 fields. -/
def refLineShortDouble : string :=
  "DS,10 00 00,+20 00 00,,,+5.00,,,,A0,AB,1.5".toList

/-- A star line for the reference environment with right ascension, declination and
visual magnitude, every other fixed field empty. -/
def refLineStar : string :=
  "SS,10 00 00,+20 00 00,,,+5.00,,,,".toList

/-- A star line for the reference environment whose tail is an empty field and a name. -/
def refLineEmptyTailField : string :=
  "SS,10 00 00,+20 00 00,,,+5.00,,,,A0,,Sirius".toList

/-- A star line for the reference environment whose tail is the same identifier twice. -/
def refLineRepeatedIdentifier : string :=
  "SS,10 00 00,+20 00 00,,,+5.00,,,,A0,#|,#|".toList

/-- A star of the reference environment: one light year away at longitude 0 and latitude
0, at rest, with visual magnitude 0, set through `setFundamentalMotion`. -/
def refStarAtRest : SSStar :=
  { (SSStar.new refEnv.kTypeStar).setFundamentalMotion refEnv ⟨.fin 0, .fin 0, .fin 1⟩
      ⟨.fin 0, .fin 0, .fin 0⟩ with Vmag := .fin 0 }

/-- A star of the reference environment: one light year away at longitude 0 and latitude
0, set through `setFundamentalCoords` only, so that its velocity is still unknown. -/
def refStarNoMotion : SSStar :=
  (SSStar.new refEnv.kTypeStar).setFundamentalCoords refEnv ⟨.fin 0, .fin 0, .fin 1⟩

/-- A star of the reference environment: `1e200` light years away at longitude 0 and
latitude 0, at rest, set through `setFundamentalMotion`. -/
def refStarFar : SSStar :=
  (SSStar.new refEnv.kTypeStar).setFundamentalMotion refEnv
    ⟨.fin 0, .fin 0, .fin ((10 : ℝ) ^ 200)⟩ ⟨.fin 0, .fin 0, .fin 0⟩

/-- A star of the reference environment, freshly constructed, whose spectral type `K0,V`
holds a comma. -/
def refStarCommaSpectrum : SSStar :=
  { SSStar.new refEnv.kTypeStar with spectrum := ['K', '0', ',', 'V'] }

/-! ## Vocabulary of the theorems -/

/-- A value that is stored and is not zero, under a square root: `+inf`, NaN, or a real of
`2^(-1075)` at least. -/
def Double.AwayFromZero (d : Double) : Prop :=
  d = .pinf ∨ d = .nan ∨ ∃ u : ℝ, d = .fin u ∧ 1 / (2 : ℝ) ^ 1075 ≤ u

/-- The text of a sequence of comma-terminated fields: every field followed by a comma. -/
def joinFields (fs : List string) : string :=
  (fs.map (· ++ [','])).flatten

/-- The text primitives of the environment emit no comma of their own: a format string
that ends in a comma yields a comma-free text followed by that comma, and the sexagesimal
strings and the type codes hold no comma. -/
structure Env.CleanText (env : Env) : Prop where
  format : ∀ (fmt : string) (x : Double), ',' ∉ fmt →
    ∃ body, env.format (fmt ++ [',']) x = body ++ [','] ∧ ',' ∉ body
  hms : ∀ a, ',' ∉ env.hmsToString a
  dms : ∀ a, ',' ∉ env.dmsToString a
  code : ∀ t, ',' ∉ env.typeToCode t

/-- The text `s` consists of exactly `n` comma-terminated fields, and when `clean` holds
none of these fields holds a comma of its own. -/
def FixedFields (n : Nat) (s : string) (clean : Prop) : Prop :=
  ∃ fs : List string, fs.length = n ∧ s = joinFields fs ∧ (clean → ∀ f ∈ fs, ',' ∉ f)

/-- The type registry round-trips: a type code in the star range that `codeToType` can
return is recovered from its own code string, also after trimming. -/
structure Env.CodeRoundTrip (env : Env) : Prop where
  roundTrip : ∀ s, env.kTypeStar ≤ env.codeToType s → env.codeToType s ≤ env.kTypeGalaxy →
    env.codeToType (trim (env.typeToCode (env.codeToType s))) = env.codeToType s

/-- The identifier codec round-trips: the string of an identifier holds no comma, and a
non-null identifier that `fromString` can return is recovered from its own string, also
after trimming. -/
structure Env.IdentRoundTrip (env : Env) : Prop where
  noComma : ∀ ident, ',' ∉ env.identToString ident
  roundTrip : ∀ f, (env.identFromString f).toBool = true →
    env.identFromString (trim (env.identToString (env.identFromString f)))
      = env.identFromString f

/-! ## Theorems -/

/-! ### The shape of a decoded object -/

theorem fromCSV_eq (env : Env) (csv : string) :
    fromCSV env csv =
      if fromCSV.type env csv < env.kTypeStar ∨ env.kTypeGalaxy < fromCSV.type env csv then none
      else if (fromCSV.fields csv).length < fromCSV.fid env (fromCSV.type env csv) then none
      else fromCSV.build env (fromCSV.type env csv) (fromCSV.fields csv) := rfl

theorem refEnv_typesDistinct : refEnv.TypesDistinct := by
  constructor <;> decide

/-! ### C1 -/

/-- Claim C1. `SSStar::fromCSV` returns null for every line whose type code lies outside
`kTypeStar..kTypeGalaxy`, and for every line whose code is in range but which has fewer
fields than the fixed count of its type: 10 for a star, 15 for a double star, 15 for a
variable star, 20 for a double-variable star and 13 for every other type. -/
theorem fromCSV_null_on_bad_code_or_missing_fields (env : Env) (hd : env.TypesDistinct)
    (csv : string) :
    ((fromCSV.type env csv < env.kTypeStar ∨ env.kTypeGalaxy < fromCSV.type env csv) →
      fromCSV env csv = none) ∧
    (fromCSV.type env csv = env.kTypeStar → (fromCSV.fields csv).length < 10 →
      fromCSV env csv = none) ∧
    (fromCSV.type env csv = env.kTypeDoubleStar → (fromCSV.fields csv).length < 15 →
      fromCSV env csv = none) ∧
    (fromCSV.type env csv = env.kTypeVariableStar → (fromCSV.fields csv).length < 15 →
      fromCSV env csv = none) ∧
    (fromCSV.type env csv = env.kTypeDoubleVariableStar → (fromCSV.fields csv).length < 20 →
      fromCSV env csv = none) ∧
    (fromCSV.type env csv ≠ env.kTypeStar → fromCSV.type env csv ≠ env.kTypeDoubleStar →
      fromCSV.type env csv ≠ env.kTypeVariableStar →
      fromCSV.type env csv ≠ env.kTypeDoubleVariableStar →
      (fromCSV.fields csv).length < 13 → fromCSV env csv = none) := by
  have key : ∀ n, fromCSV.fid env (fromCSV.type env csv) = n →
      (fromCSV.fields csv).length < n → fromCSV env csv = none := by
    intro n hn hlt
    rw [fromCSV_eq]
    split
    · rfl
    · rw [if_pos (hn ▸ hlt)]
  refine ⟨fun h => ?_, fun h => key 10 ?_, fun h => key 15 ?_, fun h => key 15 ?_,
    fun h => key 20 ?_, fun h1 h2 h3 h4 => key 13 ?_⟩
  · rw [fromCSV_eq, if_pos h]
  · dsimp only [fromCSV.fid]
    simp [h]
  · dsimp only [fromCSV.fid]
    simp [h, hd.star_double.symm]
  · dsimp only [fromCSV.fid]
    simp [h, hd.star_variable.symm, hd.double_variable.symm]
  · dsimp only [fromCSV.fid]
    simp [h, hd.star_doubleVariable.symm, hd.double_doubleVariable.symm,
      hd.variable_doubleVariable.symm]
  · dsimp only [fromCSV.fid]
    simp [h1, h2, h3, h4]

/-- Witness for C1: in the reference environment a double-star line with only 12 fields
decodes to null. -/
theorem fromCSV_null_on_bad_code_or_missing_fields_witness :
    refEnv.TypesDistinct ∧
    fromCSV.type refEnv refLineShortDouble = refEnv.kTypeDoubleStar ∧
    (fromCSV.fields refLineShortDouble).length < 15 ∧
    fromCSV refEnv refLineShortDouble = none :=
  ⟨refEnv_typesDistinct, by decide, by decide,
    (fromCSV_null_on_bad_code_or_missing_fields refEnv refEnv_typesDistinct
      refLineShortDouble).2.2.1 (by decide) (by decide)⟩

/-- The five outcomes of a successful decode, by type code. -/
theorem fromCSV_decoded (env : Env) (hd : env.TypesDistinct) (csv : string)
    (hr : env.kTypeStar ≤ fromCSV.type env csv ∧ fromCSV.type env csv ≤ env.kTypeGalaxy)
    (hn : fromCSV.fid env (fromCSV.type env csv) ≤ (fromCSV.fields csv).length) :
    (fromCSV.type env csv = env.kTypeStar ∧
      fromCSV env csv = some (.star
        (fromCSV.star env (fromCSV.type env csv) (fromCSV.fields csv)
          (SSStar.new (fromCSV.type env csv))))) ∨
    (fromCSV.type env csv = env.kTypeDoubleStar ∧
      fromCSV env csv = some (.doubleStar
        (fromCSV.star env (fromCSV.type env csv) (fromCSV.fields csv)
          (SSStar.new (fromCSV.type env csv)))
        (fromCSV.doubleStar env (fromCSV.fields csv) SSDoubleStar.new))) ∨
    (fromCSV.type env csv = env.kTypeVariableStar ∧
      fromCSV env csv = some (.variableStar
        (fromCSV.star env (fromCSV.type env csv) (fromCSV.fields csv)
          (SSStar.new (fromCSV.type env csv)))
        (fromCSV.variableStar env (fromCSV.type env csv) (fromCSV.fields csv)
          SSVariableStar.new))) ∨
    (fromCSV.type env csv = env.kTypeDoubleVariableStar ∧
      fromCSV env csv = some (.doubleVariableStar
        (fromCSV.star env (fromCSV.type env csv) (fromCSV.fields csv)
          (SSStar.new (fromCSV.type env csv)))
        (fromCSV.doubleStar env (fromCSV.fields csv) SSDoubleStar.new)
        (fromCSV.variableStar env (fromCSV.type env csv) (fromCSV.fields csv)
          SSVariableStar.new))) ∨
    ((fromCSV.type env csv ≠ env.kTypeStar ∧ fromCSV.type env csv ≠ env.kTypeDoubleStar ∧
        fromCSV.type env csv ≠ env.kTypeVariableStar ∧
        fromCSV.type env csv ≠ env.kTypeDoubleVariableStar) ∧
      fromCSV env csv = some (.deepSky
        (fromCSV.star env (fromCSV.type env csv) (fromCSV.fields csv)
          (SSStar.new (fromCSV.type env csv)))
        (fromCSV.deepSky env (fromCSV.fields csv) SSDeepSky.new))) := by
  have build_deepSky (env : Env) (type : SSObjectType) (fields : List string)
      (h1 : type ≠ env.kTypeStar) (h2 : type ≠ env.kTypeDoubleStar)
      (h3 : type ≠ env.kTypeVariableStar) (h4 : type ≠ env.kTypeDoubleVariableStar)
      (hr : ¬ (type < env.kTypeStar ∨ env.kTypeGalaxy < type)) :
      fromCSV.build env type fields
        = some (.deepSky (fromCSV.star env type fields (SSStar.new type))
            (fromCSV.deepSky env fields SSDeepSky.new)) := by
    have hr2 : env.kTypeStar ≤ type ∧ type ≤ env.kTypeGalaxy := by
      simpa only [not_or, not_lt] using hr
    unfold fromCSV.build SSNewObject
    rw [if_neg h1, if_neg h2, if_neg h3, if_neg h4, if_pos hr2]
    rfl
  have build_doubleVariableStar (env : Env) (h : env.TypesDistinct)
      (fields : List string) :
      fromCSV.build env env.kTypeDoubleVariableStar fields
        = some (.doubleVariableStar
            (fromCSV.star env env.kTypeDoubleVariableStar fields
              { SSStar.new env.kTypeStar with type := env.kTypeDoubleVariableStar })
            (fromCSV.doubleStar env fields SSDoubleStar.new)
            (fromCSV.variableStar env env.kTypeDoubleVariableStar fields SSVariableStar.new)) := by
    have h1 := h.star_doubleVariable.symm
    have h2 := h.double_doubleVariable.symm
    have h3 := h.variable_doubleVariable.symm
    unfold fromCSV.build SSNewObject
    rw [if_neg h1, if_neg h2, if_neg h3, if_pos rfl]
    rfl
  have build_variableStar (env : Env) (h : env.TypesDistinct) (fields : List string) :
      fromCSV.build env env.kTypeVariableStar fields
        = some (.variableStar
            (fromCSV.star env env.kTypeVariableStar fields (SSStar.new env.kTypeVariableStar))
            (fromCSV.variableStar env env.kTypeVariableStar fields SSVariableStar.new)) := by
    have h1 := h.star_variable.symm
    have h2 := h.double_variable.symm
    unfold fromCSV.build SSNewObject
    rw [if_neg h1, if_neg h2, if_pos rfl]
    rfl
  have build_doubleStar (env : Env) (h : env.TypesDistinct) (fields : List string) :
      fromCSV.build env env.kTypeDoubleStar fields
        = some (.doubleStar
            (fromCSV.star env env.kTypeDoubleStar fields (SSStar.new env.kTypeDoubleStar))
            (fromCSV.doubleStar env fields SSDoubleStar.new)) := by
    have h1 := h.star_double.symm
    unfold fromCSV.build SSNewObject
    rw [if_neg h1, if_pos rfl]
    rfl
  have build_star (env : Env) (fields : List string) :
      fromCSV.build env env.kTypeStar fields
        = some (.star (fromCSV.star env env.kTypeStar fields (SSStar.new env.kTypeStar))) := by
    unfold fromCSV.build SSNewObject
    rw [if_pos rfl]
    rfl
  have hr' : ¬ (fromCSV.type env csv < env.kTypeStar ∨ env.kTypeGalaxy < fromCSV.type env csv) := by
    simpa only [not_or, not_lt] using hr
  have e : fromCSV env csv
      = fromCSV.build env (fromCSV.type env csv) (fromCSV.fields csv) := by
    rw [fromCSV_eq, if_neg hr', if_neg (not_lt.mpr hn)]
  by_cases h1 : fromCSV.type env csv = env.kTypeStar
  · left
    refine ⟨h1, ?_⟩
    rw [e, h1, build_star]
  by_cases h2 : fromCSV.type env csv = env.kTypeDoubleStar
  · right; left
    refine ⟨h2, ?_⟩
    rw [e, h2, build_doubleStar env hd]
  by_cases h3 : fromCSV.type env csv = env.kTypeVariableStar
  · right; right; left
    refine ⟨h3, ?_⟩
    rw [e, h3, build_variableStar env hd]
  by_cases h4 : fromCSV.type env csv = env.kTypeDoubleVariableStar
  · right; right; right; left
    refine ⟨h4, ?_⟩
    rw [e, h4, build_doubleVariableStar env hd]
    rfl
  · right; right; right; right
    refine ⟨⟨h1, h2, h3, h4⟩, ?_⟩
    rw [e, build_deepSky env _ _ h1 h2 h3 h4 hr']

/-! ### C2 -/

/-- Claim C2. For every line whose type code `T` is in range and that has at least the
fixed number of fields of `T`, `SSStar::fromCSV` returns a non-null object whose
discriminator is `T` and whose capability queries agree with `T`: the star query succeeds,
the double-star query succeeds exactly for a double or double-variable star, the
variable-star query exactly for a variable or double-variable star, and the deep-sky query
exactly for every other type of the range. -/
theorem fromCSV_capabilities_agree (env : Env) (hd : env.TypesDistinct) (csv : string)
    (hr : env.kTypeStar ≤ fromCSV.type env csv ∧ fromCSV.type env csv ≤ env.kTypeGalaxy)
    (hn : fromCSV.fid env (fromCSV.type env csv) ≤ (fromCSV.fields csv).length) :
    ∃ obj, fromCSV env csv = some obj ∧ obj.type = fromCSV.type env csv ∧
      (SSGetStarPtr (some obj)).isSome = true ∧
      ((SSGetDoubleStarPtr (some obj)).isSome = true ↔
        (fromCSV.type env csv = env.kTypeDoubleStar ∨
          fromCSV.type env csv = env.kTypeDoubleVariableStar)) ∧
      ((SSGetVariableStarPtr (some obj)).isSome = true ↔
        (fromCSV.type env csv = env.kTypeVariableStar ∨
          fromCSV.type env csv = env.kTypeDoubleVariableStar)) ∧
      ((SSGetDeepSkyPtr (some obj)).isSome = true ↔
        (fromCSV.type env csv ≠ env.kTypeStar ∧ fromCSV.type env csv ≠ env.kTypeDoubleStar ∧
          fromCSV.type env csv ≠ env.kTypeVariableStar ∧
          fromCSV.type env csv ≠ env.kTypeDoubleVariableStar)) := by
  rcases fromCSV_decoded env hd csv hr hn with
    ⟨h, e⟩ | ⟨h, e⟩ | ⟨h, e⟩ | ⟨h, e⟩ | ⟨⟨h1, h2, h3, h4⟩, e⟩
  · refine ⟨_, e, rfl, rfl, ?_, ?_, ?_⟩ <;>
      (dsimp only [SSGetDoubleStarPtr, SSGetVariableStarPtr, SSGetDeepSkyPtr]; simp [h,
        hd.star_double, hd.star_variable, hd.star_doubleVariable])
  · refine ⟨_, e, rfl, rfl, ?_, ?_, ?_⟩ <;>
      (dsimp only [SSGetDoubleStarPtr, SSGetVariableStarPtr, SSGetDeepSkyPtr]; simp [h,
        hd.double_variable, hd.double_doubleVariable])
  · refine ⟨_, e, rfl, rfl, ?_, ?_, ?_⟩ <;>
      (dsimp only [SSGetDoubleStarPtr, SSGetVariableStarPtr, SSGetDeepSkyPtr]; simp [h,
        hd.double_variable.symm, hd.variable_doubleVariable])
  · refine ⟨_, e, rfl, rfl, ?_, ?_, ?_⟩ <;>
      (dsimp only [SSGetDoubleStarPtr, SSGetVariableStarPtr, SSGetDeepSkyPtr]; simp [h])
  · refine ⟨_, e, rfl, rfl, ?_, ?_, ?_⟩ <;>
      (dsimp only [SSGetDoubleStarPtr, SSGetVariableStarPtr, SSGetDeepSkyPtr]; simp [h1, h2, h3,
        h4])

/-- Witness for C2: in the reference environment a double-variable line with its 20 fixed
fields, two identifiers and one name decodes to an object that answers both the
double-star and the variable-star query. -/
theorem fromCSV_capabilities_agree_witness :
    refEnv.TypesDistinct ∧
    (refEnv.kTypeStar ≤ fromCSV.type refEnv refLineDoubleVariable ∧
      fromCSV.type refEnv refLineDoubleVariable ≤ refEnv.kTypeGalaxy) ∧
    fromCSV.fid refEnv (fromCSV.type refEnv refLineDoubleVariable)
      ≤ (fromCSV.fields refLineDoubleVariable).length ∧
    ∃ obj, fromCSV refEnv refLineDoubleVariable = some obj ∧
      (SSGetDoubleStarPtr (some obj)).isSome = true ∧
      (SSGetVariableStarPtr (some obj)).isSome = true := by
  obtain ⟨obj, e, _, _, h1, h2, _⟩ := fromCSV_capabilities_agree refEnv refEnv_typesDistinct
    refLineDoubleVariable (by decide) (by decide)
  exact ⟨refEnv_typesDistinct, by decide, by decide,
    obj, e, h1.mpr (Or.inr (by decide)), h2.mpr (Or.inr (by decide))⟩

/-! ### C3 -/

/-- Claim C3. In `SSStar::fromCSV` a pure variable star takes its variability type, minimum
magnitude, maximum magnitude, period and epoch from fields 10, 11, 12, 13, 14; a combined
double-variable star takes them from fields 15, 16, 17, 18, 19 and takes its double-star
fragment (components, magnitude delta, separation, position angle, position-angle year)
from fields 10 to 14. -/
theorem fromCSV_variable_fragment_offset (env : Env) (hd : env.TypesDistinct) (csv : string)
    (hr : env.kTypeStar ≤ fromCSV.type env csv ∧ fromCSV.type env csv ≤ env.kTypeGalaxy)
    (hn : fromCSV.fid env (fromCSV.type env csv) ≤ (fromCSV.fields csv).length) :
    (fromCSV.type env csv = env.kTypeVariableStar →
      SSGetVariableStarPtr (fromCSV env csv) = some
        { varType := (fromCSV.fields csv).getD 10 []
          varMinMag := fromCSV.num ((fromCSV.fields csv).getD 11 []) env.strtofloat
          varMaxMag := fromCSV.num ((fromCSV.fields csv).getD 12 []) env.strtofloat
          varPeriod := fromCSV.num ((fromCSV.fields csv).getD 13 []) env.strtofloat
          varEpoch := fromCSV.num ((fromCSV.fields csv).getD 14 []) env.strtofloat64 }) ∧
    (fromCSV.type env csv = env.kTypeDoubleVariableStar →
      SSGetVariableStarPtr (fromCSV env csv) = some
        { varType := (fromCSV.fields csv).getD 15 []
          varMinMag := fromCSV.num ((fromCSV.fields csv).getD 16 []) env.strtofloat
          varMaxMag := fromCSV.num ((fromCSV.fields csv).getD 17 []) env.strtofloat
          varPeriod := fromCSV.num ((fromCSV.fields csv).getD 18 []) env.strtofloat
          varEpoch := fromCSV.num ((fromCSV.fields csv).getD 19 []) env.strtofloat64 } ∧
      SSGetDoubleStarPtr (fromCSV env csv) = some
        { comps := (fromCSV.fields csv).getD 10 []
          magDelta := fromCSV.num ((fromCSV.fields csv).getD 11 []) env.strtofloat
          sep := fromCSV.num ((fromCSV.fields csv).getD 12 [])
            (fun f => env.strtofloat f / env.kArcsecPerRad)
          PA := fromCSV.num ((fromCSV.fields csv).getD 13 [])
            (fun f => env.strtofloat f / env.kDegPerRad)
          PAyr := fromCSV.num ((fromCSV.fields csv).getD 14 []) env.strtofloat }) := by
  rcases fromCSV_decoded env hd csv hr hn with
    ⟨h, e⟩ | ⟨h, e⟩ | ⟨h, e⟩ | ⟨h, e⟩ | ⟨⟨h1, h2, h3, h4⟩, e⟩
  · exact ⟨fun h' => absurd (h.symm.trans h') hd.star_variable,
      fun h' => absurd (h.symm.trans h') hd.star_doubleVariable⟩
  · exact ⟨fun h' => absurd (h.symm.trans h') hd.double_variable,
      fun h' => absurd (h.symm.trans h') hd.double_doubleVariable⟩
  · refine ⟨fun _ => ?_, fun h' => absurd (h.symm.trans h') hd.variable_doubleVariable⟩
    rw [e]
    dsimp only [SSGetVariableStarPtr, fromCSV.variableStar]
    simp [h]
  · refine ⟨fun h' => absurd (h'.symm.trans h) hd.variable_doubleVariable, fun _ => ?_⟩
    rw [e]
    dsimp only [SSGetVariableStarPtr, SSGetDoubleStarPtr, fromCSV.variableStar, fromCSV.doubleStar]
    simp [h, hd.variable_doubleVariable.symm]
  · exact ⟨fun h' => absurd h' h3, fun h' => absurd h' h4⟩

/-- Witness for C3: a double-variable line of the reference environment, whose variability
type `M` stands in field 15 and whose components `AB` stand in field 10. -/
theorem fromCSV_variable_fragment_offset_witness :
    fromCSV.type refEnv refLineDoubleVariable = refEnv.kTypeDoubleVariableStar ∧
    (SSGetVariableStarPtr (fromCSV refEnv refLineDoubleVariable)).map (fun v => v.varType)
      = some ['M'] ∧
    (SSGetDoubleStarPtr (fromCSV refEnv refLineDoubleVariable)).map (fun d => d.comps)
      = some ['A', 'B'] := by
  have h := (fromCSV_variable_fragment_offset refEnv refEnv_typesDistinct
    refLineDoubleVariable (by decide) (by decide)).2 (by decide)
  rw [h.1, h.2]
  exact ⟨by decide, by decide, by decide⟩

/-! ### C4 -/

/-- The loop of `fromCSV` appends, to the identifiers and names it starts from, the parsed
identifiers and the texts of the non-empty fields, each list in order of appearance. -/
theorem fromCSV.scan_eq (env : Env) (tail : List string) (idents : List SSIdentifier)
    (names : List string) :
    fromCSV.scan env tail idents names =
      (idents ++ ((tail.filter (fun f => !f.isEmpty)).filter
          (fun f => (env.identFromString f).toBool)).map env.identFromString,
       names ++ (tail.filter (fun f => !f.isEmpty)).filter
          (fun f => !(env.identFromString f).toBool)) := by
  induction tail generalizing idents names with
  | nil => (dsimp only [fromCSV.scan]; simp)
  | cons f rest ih =>
    unfold fromCSV.scan
    by_cases he : f.isEmpty = true
    · simp [he, ih]
    · by_cases hi : (env.identFromString f).toBool = true
      · simp [he, hi, ih]
      · simp [he, hi, ih]

theorem fromCSV.star_idents (env : Env) (type : SSObjectType) (fields : List string)
    (pStar : SSStar) :
    (fromCSV.star env type fields pStar).idents
      = (fromCSV.scan env (fields.drop (fromCSV.fid env type)) [] []).1 := rfl

theorem fromCSV.star_names (env : Env) (type : SSObjectType) (fields : List string)
    (pStar : SSStar) :
    (fromCSV.star env type fields pStar).names
      = (fromCSV.scan env (fields.drop (fromCSV.fid env type)) [] []).2 := rfl

/-- Every successful decode is an object of the star family whose base part is the one
that the base block of `fromCSV` builds. -/
theorem fromCSV_star_part (env : Env) (hd : env.TypesDistinct) (csv : string)
    (hr : env.kTypeStar ≤ fromCSV.type env csv ∧ fromCSV.type env csv ≤ env.kTypeGalaxy)
    (hn : fromCSV.fid env (fromCSV.type env csv) ≤ (fromCSV.fields csv).length) :
    SSGetStarPtr (fromCSV env csv)
      = some (fromCSV.star env (fromCSV.type env csv) (fromCSV.fields csv)
          (SSStar.new (fromCSV.type env csv))) := by
  rcases fromCSV_decoded env hd csv hr hn with
    ⟨_, e⟩ | ⟨_, e⟩ | ⟨_, e⟩ | ⟨_, e⟩ | ⟨_, e⟩ <;> rw [e] <;> rfl

/-- Claim C4 as stated fails: in the reference environment the star line below has two
fields after the ten fixed ones, an empty one and `Sirius`, and decodes to no identifier
and one name, so identifiers plus names are fewer than the fields beyond the boundary. -/
theorem fromCSV_tail_count_counterexample :
    ∃ star, SSGetStarPtr (fromCSV refEnv refLineEmptyTailField) = some star ∧
      star.idents.length + star.names.length
        ≠ (fromCSV.fields refLineEmptyTailField).length
          - fromCSV.fid refEnv (fromCSV.type refEnv refLineEmptyTailField) := by
  refine ⟨_, fromCSV_star_part refEnv refEnv_typesDistinct _ (by decide) (by decide), ?_⟩
  rw [fromCSV.star_idents, fromCSV.star_names]
  decide

/-- Claim C4, amended. For every line that `SSStar::fromCSV` decodes, the non-empty fields
from the fixed-field boundary on are classified into exactly one list each: the identifier
list is the sequence of parsed identifiers of those for which `SSIdentifier::fromString`
succeeds, the name list is the sequence of the trimmed texts of those for which it fails,
each in order of appearance; so identifiers plus names count the non-empty fields beyond
the boundary.  Empty fields are skipped. -/
theorem fromCSV_tail_classified (env : Env) (hd : env.TypesDistinct) (csv : string)
    (hr : env.kTypeStar ≤ fromCSV.type env csv ∧ fromCSV.type env csv ≤ env.kTypeGalaxy)
    (hn : fromCSV.fid env (fromCSV.type env csv) ≤ (fromCSV.fields csv).length) :
    ∃ star, SSGetStarPtr (fromCSV env csv) = some star ∧
      star.idents =
        ((((fromCSV.fields csv).drop (fromCSV.fid env (fromCSV.type env csv))).filter
            (fun f => !f.isEmpty)).filter
          (fun f => (env.identFromString f).toBool)).map env.identFromString ∧
      star.names =
        (((fromCSV.fields csv).drop (fromCSV.fid env (fromCSV.type env csv))).filter
            (fun f => !f.isEmpty)).filter
          (fun f => !(env.identFromString f).toBool) ∧
      star.idents.length + star.names.length =
        (((fromCSV.fields csv).drop (fromCSV.fid env (fromCSV.type env csv))).filter
            (fun f => !f.isEmpty)).length := by
  refine ⟨_, fromCSV_star_part env hd csv hr hn, ?_, ?_, ?_⟩
  · rw [fromCSV.star_idents, fromCSV.scan_eq]; rfl
  · rw [fromCSV.star_names, fromCSV.scan_eq]; rfl
  · rw [fromCSV.star_idents, fromCSV.star_names, fromCSV.scan_eq]
    simp only [List.nil_append, List.length_map]
    generalize ((fromCSV.fields csv).drop (fromCSV.fid env (fromCSV.type env csv))).filter
      (fun f => !f.isEmpty) = l
    induction l with
    | nil => rfl
    | cons f rest ih =>
      by_cases hi : (env.identFromString f).toBool = true
      · simp [List.filter_cons, hi] at ih ⊢; omega
      · simp [List.filter_cons, hi] at ih ⊢; omega

/-- Witness for the amended C4: the double-variable line of the reference environment has
three fields after its 20 fixed ones and decodes to two identifiers and one name. -/
theorem fromCSV_tail_classified_witness :
    ∃ star, SSGetStarPtr (fromCSV refEnv refLineDoubleVariable) = some star ∧
      star.idents = [⟨1⟩, ⟨2⟩] ∧ star.names = ["Mira".toList] ∧
      ((fromCSV.fields refLineDoubleVariable).drop 20).length = 3 := by
  obtain ⟨star, e, hi, hn, _⟩ := fromCSV_tail_classified refEnv refEnv_typesDistinct
    refLineDoubleVariable (by decide) (by decide)
  refine ⟨star, e, ?_, ?_, by decide⟩
  · rw [hi]; decide
  · rw [hn]; decide

/-! ### C5 -/

/-- Claim C5. For every record with an in-range type code and enough fields whose distance
field (index 7) is empty, the decoded object has parallax 0, `getFundamentalCoords().rad`
is `+inf`, and its visual magnitude is the parsed value of field 5, or `+inf` when field 5
is empty. -/
theorem fromCSV_empty_distance (env : Env) (hd : env.TypesDistinct) (csv : string)
    (hr : env.kTypeStar ≤ fromCSV.type env csv ∧ fromCSV.type env csv ≤ env.kTypeGalaxy)
    (hn : fromCSV.fid env (fromCSV.type env csv) ≤ (fromCSV.fields csv).length)
    (h7 : (fromCSV.fields csv).getD 7 [] = []) :
    ∃ star, SSGetStarPtr (fromCSV env csv) = some star ∧
      star.parallax = Double.fin 0 ∧
      (star.getFundamentalCoords env).rad = Double.pinf ∧
      ((fromCSV.fields csv).getD 5 [] = [] → star.Vmag = Double.pinf) ∧
      ((fromCSV.fields csv).getD 5 [] ≠ [] →
        star.Vmag = env.strtofloat ((fromCSV.fields csv).getD 5 [])) := by
  have star_Vmag (env : Env) (type : SSObjectType) (fields : List string)
      (pStar : SSStar) :
      (fromCSV.star env type fields pStar).Vmag
        = fromCSV.num (fields.getD 5 []) env.strtofloat := rfl
  have star_parallax (env : Env) (type : SSObjectType) (fields : List string)
      (pStar : SSStar) :
      (fromCSV.star env type fields pStar).parallax
        = if (fromCSV.num (fields.getD 7 [])
                (fun f => env.strtofloat f * env.kLYPerParsec)).isinf
          then Double.fin 0
          else env.kLYPerParsec / fromCSV.num (fields.getD 7 [])
                (fun f => env.strtofloat f * env.kLYPerParsec) := rfl
  have hp : (fromCSV.star env (fromCSV.type env csv) (fromCSV.fields csv)
      (SSStar.new (fromCSV.type env csv))).parallax = Double.fin 0 := by
    rw [star_parallax, h7]
    dsimp only [fromCSV.num, Double.HUGE_VAL, Double.isinf]
    simp
  refine ⟨_, fromCSV_star_part env hd csv hr hn, hp, ?_, ?_, ?_⟩
  · dsimp only [SSStar.getFundamentalCoords, Double.isinf, Double.eq, Double.HUGE_VAL]
    simp [hp]
  · intro h5
    rw [star_Vmag, h5]
    dsimp only [fromCSV.num, Double.HUGE_VAL]
    simp
  · intro h5
    have he : ((fromCSV.fields csv).getD 5 []).isEmpty = false := by
      cases hx : (fromCSV.fields csv).getD 5 [] with
      | nil => exact absurd hx h5
      | cons _ _ => rfl
    rw [star_Vmag]
    dsimp only [fromCSV.num]
    simp only [he, Bool.false_eq_true, if_false]

/-- Witness for C5: the star line of the reference environment with Vmag `+5.00` and no
distance decodes to an infinite radius and visual magnitude 5. -/
theorem fromCSV_empty_distance_witness :
    (fromCSV.fields refLineStar).getD 7 [] = [] ∧
    ∃ star, SSGetStarPtr (fromCSV refEnv refLineStar) = some star ∧
      (star.getFundamentalCoords refEnv).rad = Double.pinf ∧ star.Vmag = Double.fin 5 := by
  obtain ⟨star, e, _, hrad, _, hv⟩ := fromCSV_empty_distance refEnv refEnv_typesDistinct
    refLineStar (by decide) (by decide) (by decide)
  refine ⟨by decide, star, e, hrad, ?_⟩
  rw [hv (by decide)]
  have h : (fromCSV.fields refLineStar).getD 5 [] = "+5.00".toList := by decide
  rw [h]
  have hq : refDecimalParts "+5.00".toList = (false, 5, 0, 2) := by decide
  show Double.fin (refDecimal "+5.00".toList) = Double.fin 5
  dsimp only [refDecimal]
  simp only [hq]
  norm_num

/-! ### C8 -/

/-- Claim C8. In the fragments written by `toCSVD`, `toCSVV` and `toCSVDS` the text of
every numeric field is decided by the value of that field alone: it is the empty string
followed by a comma when the value is infinite, as the `+inf` sentinel is, and the
formatted value otherwise.  A freshly constructed double star writes `,,,,,`, a freshly
constructed variable star `,,,,,` and a freshly constructed deep-sky object `,,,`. -/
theorem toCSV_fragment_unknown_is_empty (env : Env) :
    Double.isinf .pinf = true ∧
    (∀ d : SSDoubleStar,
      d.toCSVD env = d.comps ++ [',']
        ++ (if d.magDelta.isinf = true then [] ++ [',']
            else env.format "%+.2f,".toList d.magDelta)
        ++ (if d.sep.isinf = true then [] ++ [',']
            else env.format "%.1f,".toList (d.sep * env.kArcsecPerRad))
        ++ (if d.PA.isinf = true then [] ++ [',']
            else env.format "%.1f,".toList (d.PA * env.kDegPerRad))
        ++ (if d.PAyr.isinf = true then [] ++ [',']
            else env.format "%.2f,".toList d.PAyr)) ∧
    (∀ v : SSVariableStar,
      v.toCSVV env = v.varType ++ [',']
        ++ (if v.varMinMag.isinf = true then [] ++ [',']
            else env.format "%+.2f,".toList v.varMinMag)
        ++ (if v.varMaxMag.isinf = true then [] ++ [',']
            else env.format "%+.2f,".toList v.varMaxMag)
        ++ (if v.varPeriod.isinf = true then [] ++ [',']
            else env.format "%.2f,".toList v.varPeriod)
        ++ (if v.varEpoch.isinf = true then [] ++ [',']
            else env.format "%.2f,".toList v.varEpoch)) ∧
    (∀ ds : SSDeepSky,
      ds.toCSVDS env =
        (if ds.majAxis.isinf = true then [] ++ [',']
            else env.format "%.2f,".toList (ds.majAxis * env.kArcminPerRad))
        ++ (if ds.minAxis.isinf = true then [] ++ [',']
            else env.format "%.2f,".toList (ds.minAxis * env.kArcminPerRad))
        ++ (if ds.PA.isinf = true then [] ++ [',']
            else env.format "%.1f,".toList (ds.PA * env.kDegPerRad))) ∧
    SSDoubleStar.new.toCSVD env = ",,,,,".toList ∧
    SSVariableStar.new.toCSVV env = ",,,,,".toList ∧
    SSDeepSky.new.toCSVDS env = ",,,".toList := by
  refine ⟨rfl, fun d => ?_, fun v => ?_, fun ds => ?_, ?_, ?_, ?_⟩
  · dsimp only [SSDoubleStar.toCSVD]
    simp only [List.nil_append, List.append_assoc]
  · dsimp only [SSVariableStar.toCSVV]
    simp only [List.nil_append, List.append_assoc]
  · dsimp only [SSDeepSky.toCSVDS]
    simp only [List.nil_append, List.append_assoc]
  · dsimp only [SSDoubleStar.toCSVD, SSDoubleStar.new, Double.HUGE_VAL, Double.isinf]
    simp
  · dsimp only [SSVariableStar.toCSVV, SSVariableStar.new, Double.HUGE_VAL, Double.isinf]
    simp
  · dsimp only [SSDeepSky.toCSVDS, SSDeepSky.new, Double.HUGE_VAL, Double.isinf]
    simp

/-! ### The fields that the encoders write -/

theorem joinFields_append (a b : List string) :
    joinFields (a ++ b) = joinFields a ++ joinFields b := by
  dsimp only [joinFields]
  simp

theorem joinFields_singleton (f : string) : joinFields [f] = f ++ [','] := by
  dsimp only [joinFields]
  simp

theorem joinFields_cons (f : string) (fs : List string) :
    joinFields (f :: fs) = f ++ [','] ++ joinFields fs := by
  dsimp only [joinFields]
  simp

/-- A numeric field of an encoder, empty or formatted, is a comma-free text and a comma. -/
theorem Env.CleanText.numField {env : Env} (hc : env.CleanText) (c : Bool) (fmt : string)
    (x : Double) (hf : ',' ∉ fmt) :
    ∃ body, (if c = true then [','] else env.format (fmt ++ [',']) x) = body ++ [','] ∧
      ',' ∉ body := by
  cases c with
  | true => exact ⟨[], by simp, by simp⟩
  | false => simpa using hc.format fmt x hf

/-- The ten fields of `toCSV1`: the first is the type code, the last the spectral type
(quoted when it holds a comma), and the first nine hold no comma. -/
theorem SSStar.toCSV1_fields (env : Env) (hc : env.CleanText) (b : SSStar) :
    ∃ fs : List string, fs.length = 10 ∧ b.toCSV1 env = joinFields fs ∧
      fs.getD 0 [] = env.typeToCode b.type ∧
      fs.getD 9 [] = (if ',' ∉ b.spectrum then b.spectrum else ['"'] ++ b.spectrum ++ ['"']) ∧
      ∀ f ∈ fs.take 9, ',' ∉ f := by
  obtain ⟨n1, e1, c1⟩ := hc.numField (b.getFundamentalMotion.lon.isnan) "%+.5f".toList
    (env.toArcsec (b.getFundamentalMotion.lon / .fin 15)) (by decide)
  obtain ⟨n2, e2, c2⟩ := hc.numField (b.getFundamentalMotion.lat.isnan) "%+.4f".toList
    (env.toArcsec b.getFundamentalMotion.lat) (by decide)
  obtain ⟨n3, e3, c3⟩ := hc.numField b.Vmag.isinf "%+.2f".toList b.Vmag (by decide)
  obtain ⟨n4, e4, c4⟩ := hc.numField b.Bmag.isinf "%+.2f".toList b.Bmag (by decide)
  obtain ⟨n5, e5, c5⟩ := hc.numField (b.getFundamentalCoords env).rad.isinf "%.3E".toList
    ((b.getFundamentalCoords env).rad * env.kParsecPerLY) (by decide)
  obtain ⟨n6, e6, c6⟩ := hc.numField b.radvel.isinf "%+.1f".toList
    (b.radvel * env.kLightKmPerSec) (by decide)
  refine ⟨[env.typeToCode b.type, env.hmsToString (b.getFundamentalCoords env).lon,
    env.dmsToString (b.getFundamentalCoords env).lat, n1, n2, n3, n4, n5, n6,
    (if ',' ∉ b.spectrum then b.spectrum else ['"'] ++ b.spectrum ++ ['"'])], rfl, ?_, rfl, rfl,
    ?_⟩
  · have e1' : (if b.getFundamentalMotion.lon.isnan = true then [',']
        else env.format "%+.5f,".toList (env.toArcsec (b.getFundamentalMotion.lon / .fin 15)))
        = n1 ++ [','] := e1
    have e2' : (if b.getFundamentalMotion.lat.isnan = true then [',']
        else env.format "%+.4f,".toList (env.toArcsec b.getFundamentalMotion.lat))
        = n2 ++ [','] := e2
    have e3' : (if b.Vmag.isinf = true then [','] else env.format "%+.2f,".toList b.Vmag)
        = n3 ++ [','] := e3
    have e4' : (if b.Bmag.isinf = true then [','] else env.format "%+.2f,".toList b.Bmag)
        = n4 ++ [','] := e4
    have e5' : (if (b.getFundamentalCoords env).rad.isinf = true then [',']
        else env.format "%.3E,".toList ((b.getFundamentalCoords env).rad * env.kParsecPerLY))
        = n5 ++ [','] := e5
    have e6' : (if b.radvel.isinf = true then [',']
        else env.format "%+.1f,".toList (b.radvel * env.kLightKmPerSec))
        = n6 ++ [','] := e6
    dsimp only [SSStar.toCSV1]
    simp only [e1', e2', e3', e4', e5', e6', joinFields_cons, joinFields_singleton]
    by_cases hs : ',' ∉ b.spectrum
    · dsimp only [joinFields]
      simp [hs]
    · dsimp only [joinFields]
      simp [hs]
  · intro f hf
    simp only [List.take, List.mem_cons, List.mem_nil_iff, or_false] at hf
    rcases hf with h | h | h | h | h | h | h | h | h <;> subst h
    · exact hc.code _
    · exact hc.hms _
    · exact hc.dms _
    · exact c1
    · exact c2
    · exact c3
    · exact c4
    · exact c5
    · exact c6

theorem foldl_append_fields {α : Type} (g : α → string) (l : List α) (init : string) :
    l.foldl (fun csv a => csv ++ (g a ++ [','])) init = init ++ joinFields (l.map g) := by
  induction l generalizing init with
  | nil => (dsimp only [joinFields]; simp)
  | cons a rest ih =>
    rw [List.foldl_cons, ih]
    dsimp only [joinFields]
    simp

theorem FixedFields.append {n m : Nat} {s t : string} {c c' : Prop}
    (h : FixedFields n s c) (h' : FixedFields m t c') :
    FixedFields (n + m) (s ++ t) (c ∧ c') := by
  obtain ⟨fs, hl, hs, hc⟩ := h
  obtain ⟨gs, hl', ht, hc'⟩ := h'
  refine ⟨fs ++ gs, by simp [hl, hl'], by rw [hs, ht, joinFields_append], ?_⟩
  intro hcc f hf
  rcases List.mem_append.mp hf with hf | hf
  · exact hc hcc.1 f hf
  · exact hc' hcc.2 f hf

theorem list_eq_take_nine (fs : List string) (h : fs.length = 10) :
    fs = fs.take 9 ++ [fs.getD 9 []] := by
  match fs, h with
  | [_, _, _, _, _, _, _, _, _, _], _ => rfl

theorem list_eq_head_drop (fs : List string) (h : fs.length = 5) :
    fs = fs.getD 0 [] :: fs.drop 1 := by
  match fs, h with
  | [_, _, _, _, _], _ => rfl

theorem SSStar.toCSV1_fixed (env : Env) (hc : env.CleanText) (b : SSStar) :
    FixedFields 10 (b.toCSV1 env) (',' ∉ b.spectrum) := by
  obtain ⟨fs, hl, hs, _, h9, h⟩ := SSStar.toCSV1_fields env hc b
  refine ⟨fs, hl, hs, fun hsp f hf => ?_⟩
  rw [list_eq_take_nine fs hl] at hf
  rcases List.mem_append.mp hf with hf | hf
  · exact h f hf
  · rw [List.mem_singleton] at hf
    rw [hf, h9, if_pos hsp]
    exact hsp

theorem SSDoubleStar.toCSVD_fixed (env : Env) (hc : env.CleanText) (d : SSDoubleStar) :
    FixedFields 5 (d.toCSVD env) (',' ∉ d.comps) := by
  -- The five fields of `toCSVD`: the components, then four comma-free numeric fields.
  have toCSVD_fields (env : Env) (hc : env.CleanText) (d : SSDoubleStar) :
      ∃ fs : List string, fs.length = 5 ∧ d.toCSVD env = joinFields fs ∧
        fs.getD 0 [] = d.comps ∧ ∀ f ∈ fs.drop 1, ',' ∉ f := by
    obtain ⟨n1, e1, c1⟩ := hc.numField d.magDelta.isinf "%+.2f".toList d.magDelta (by decide)
    obtain ⟨n2, e2, c2⟩ := hc.numField d.sep.isinf "%.1f".toList (d.sep * env.kArcsecPerRad)
      (by decide)
    obtain ⟨n3, e3, c3⟩ := hc.numField d.PA.isinf "%.1f".toList (d.PA * env.kDegPerRad)
      (by decide)
    obtain ⟨n4, e4, c4⟩ := hc.numField d.PAyr.isinf "%.2f".toList d.PAyr (by decide)
    refine ⟨[d.comps, n1, n2, n3, n4], rfl, ?_, rfl, ?_⟩
    · have e1' : (if d.magDelta.isinf = true then [',']
          else env.format "%+.2f,".toList d.magDelta) = n1 ++ [','] := e1
      have e2' : (if d.sep.isinf = true then [',']
          else env.format "%.1f,".toList (d.sep * env.kArcsecPerRad)) = n2 ++ [','] := e2
      have e3' : (if d.PA.isinf = true then [',']
          else env.format "%.1f,".toList (d.PA * env.kDegPerRad)) = n3 ++ [','] := e3
      have e4' : (if d.PAyr.isinf = true then [',']
          else env.format "%.2f,".toList d.PAyr) = n4 ++ [','] := e4
      dsimp only [SSDoubleStar.toCSVD]
      simp only [e1', e2', e3', e4']
      dsimp only [joinFields]
      simp
    · intro f hf
      simp only [List.drop, List.mem_cons, List.mem_nil_iff, or_false] at hf
      rcases hf with h | h | h | h <;> subst h
      · exact c1
      · exact c2
      · exact c3
      · exact c4
  obtain ⟨fs, hl, hs, h0, h⟩ := toCSVD_fields env hc d
  refine ⟨fs, hl, hs, fun hsp f hf => ?_⟩
  rw [list_eq_head_drop fs hl] at hf
  rcases List.mem_cons.mp hf with hf | hf
  · rw [hf, h0]; exact hsp
  · exact h f hf

theorem SSVariableStar.toCSVV_fixed (env : Env) (hc : env.CleanText) (v : SSVariableStar) :
    FixedFields 5 (v.toCSVV env) (',' ∉ v.varType) := by
  -- The five fields of `toCSVV`: the variability type, then four comma-free numeric
  -- fields.
  have toCSVV_fields (env : Env) (hc : env.CleanText) (v : SSVariableStar) :
      ∃ fs : List string, fs.length = 5 ∧ v.toCSVV env = joinFields fs ∧
        fs.getD 0 [] = v.varType ∧ ∀ f ∈ fs.drop 1, ',' ∉ f := by
    obtain ⟨n1, e1, c1⟩ := hc.numField v.varMinMag.isinf "%+.2f".toList v.varMinMag (by decide)
    obtain ⟨n2, e2, c2⟩ := hc.numField v.varMaxMag.isinf "%+.2f".toList v.varMaxMag (by decide)
    obtain ⟨n3, e3, c3⟩ := hc.numField v.varPeriod.isinf "%.2f".toList v.varPeriod (by decide)
    obtain ⟨n4, e4, c4⟩ := hc.numField v.varEpoch.isinf "%.2f".toList v.varEpoch (by decide)
    refine ⟨[v.varType, n1, n2, n3, n4], rfl, ?_, rfl, ?_⟩
    · have e1' : (if v.varMinMag.isinf = true then [',']
          else env.format "%+.2f,".toList v.varMinMag) = n1 ++ [','] := e1
      have e2' : (if v.varMaxMag.isinf = true then [',']
          else env.format "%+.2f,".toList v.varMaxMag) = n2 ++ [','] := e2
      have e3' : (if v.varPeriod.isinf = true then [',']
          else env.format "%.2f,".toList v.varPeriod) = n3 ++ [','] := e3
      have e4' : (if v.varEpoch.isinf = true then [',']
          else env.format "%.2f,".toList v.varEpoch) = n4 ++ [','] := e4
      dsimp only [SSVariableStar.toCSVV]
      simp only [e1', e2', e3', e4']
      dsimp only [joinFields]
      simp
    · intro f hf
      simp only [List.drop, List.mem_cons, List.mem_nil_iff, or_false] at hf
      rcases hf with h | h | h | h <;> subst h
      · exact c1
      · exact c2
      · exact c3
      · exact c4
  obtain ⟨fs, hl, hs, h0, h⟩ := toCSVV_fields env hc v
  refine ⟨fs, hl, hs, fun hsp f hf => ?_⟩
  rw [list_eq_head_drop fs hl] at hf
  rcases List.mem_cons.mp hf with hf | hf
  · rw [hf, h0]; exact hsp
  · exact h f hf

theorem SSDeepSky.toCSVDS_fixed (env : Env) (hc : env.CleanText) (ds : SSDeepSky) :
    FixedFields 3 (ds.toCSVDS env) True := by
  -- The three fields of `toCSVDS`, all comma-free.
  have toCSVDS_fields (env : Env) (hc : env.CleanText) (ds : SSDeepSky) :
      ∃ fs : List string, fs.length = 3 ∧ ds.toCSVDS env = joinFields fs ∧
        ∀ f ∈ fs, ',' ∉ f := by
    obtain ⟨n1, e1, c1⟩ := hc.numField ds.majAxis.isinf "%.2f".toList
      (ds.majAxis * env.kArcminPerRad) (by decide)
    obtain ⟨n2, e2, c2⟩ := hc.numField ds.minAxis.isinf "%.2f".toList
      (ds.minAxis * env.kArcminPerRad) (by decide)
    obtain ⟨n3, e3, c3⟩ := hc.numField ds.PA.isinf "%.1f".toList (ds.PA * env.kDegPerRad)
      (by decide)
    refine ⟨[n1, n2, n3], rfl, ?_, ?_⟩
    · have e1' : (if ds.majAxis.isinf = true then [',']
          else env.format "%.2f,".toList (ds.majAxis * env.kArcminPerRad)) = n1 ++ [','] := e1
      have e2' : (if ds.minAxis.isinf = true then [',']
          else env.format "%.2f,".toList (ds.minAxis * env.kArcminPerRad)) = n2 ++ [','] := e2
      have e3' : (if ds.PA.isinf = true then [',']
          else env.format "%.1f,".toList (ds.PA * env.kDegPerRad)) = n3 ++ [','] := e3
      dsimp only [SSDeepSky.toCSVDS]
      simp only [e1', e2', e3']
      dsimp only [joinFields]
      simp
    · intro f hf
      simp only [List.mem_cons, List.mem_nil_iff, or_false] at hf
      rcases hf with h | h | h <;> subst h
      · exact c1
      · exact c2
      · exact c3
  obtain ⟨fs, hl, hs, h⟩ := toCSVDS_fields env hc ds
  exact ⟨fs, hl, hs, fun _ => h⟩

theorem refEnv_cleanText : refEnv.CleanText := by
  refine ⟨fun fmt x _ => ⟨[], rfl, by simp⟩, fun _ => ?_, fun _ => ?_, fun t => ?_⟩
  · show ',' ∉ "00 00 00".toList
    decide
  · show ',' ∉ "+00 00 00".toList
    decide
  show ',' ∉ refTypeToCode t
  unfold refTypeToCode
  repeat' split
  all_goals decide

/-! ### Splitting and trimming -/

theorem splitOnP_no_sep {α : Type} (p : α → Bool) (xs : List α) :
    ∀ l ∈ xs.splitOnP p, ∀ a ∈ l, p a = false := by
  induction xs with
  | nil => simp
  | cons x xs ih =>
    rw [List.splitOnP_cons]
    by_cases hx : p x = true
    · rw [if_pos hx]
      intro l hl a ha
      rcases List.mem_cons.mp hl with h | h
      · subst h; simp at ha
      · exact ih l h a ha
    · rw [if_neg hx]
      cases hs : xs.splitOnP p with
      | nil => exact absurd hs (List.splitOnP_ne_nil p xs)
      | cons hd tl =>
        rw [hs] at ih
        intro l hl a ha
        simp only [List.modifyHead, List.mem_cons] at hl
        rcases hl with h | h
        · subst h
          rcases List.mem_cons.mp ha with h' | h'
          · subst h'; simpa using hx
          · exact ih hd (List.mem_cons_self _ _) a h'
        · exact ih l (List.mem_cons_of_mem _ h) a ha

/-- No field that `split` returns for the delimiter `,` holds a comma. -/
theorem split_no_comma (csv : string) : ∀ f ∈ split csv [','], ',' ∉ f := by
  intro f hf hc
  have := splitOnP_no_sep (· == ',') csv f hf ',' hc
  simp at this

/-- Splitting the text of comma-terminated, comma-free fields gives the fields back,
followed by one empty field. -/
theorem split_joinFields (fs : List string) (h : ∀ f ∈ fs, ',' ∉ f) :
    split (joinFields fs) [','] = fs ++ [[]] := by
  induction fs with
  | nil => rfl
  | cons f fs ih =>
    have hf : ∀ x ∈ f, ¬ ((· == ',') x = true) := by
      intro x hx hxe
      have : x = ',' := by simpa using hxe
      exact h f (List.mem_cons_self _ _) (this ▸ hx)
    have ih' := ih (fun g hg => h g (List.mem_cons_of_mem _ hg))
    dsimp only [split] at ih' ⊢
    simp only [List.splitOn] at ih' ⊢
    rw [joinFields_cons, List.append_assoc, List.singleton_append,
      List.splitOnP_first (· == ',') f hf ',' (by simp), ih']
    rfl

theorem trim_eq (s : string) :
    trim s = (s.dropWhile Char.isWhitespace).rdropWhile Char.isWhitespace := rfl

theorem trim_nil : trim [] = [] := rfl

theorem trim_subset (s : string) : trim s ⊆ s := by
  rw [trim_eq]
  exact fun a ha => List.dropWhile_subset _ ((List.rdropWhile_prefix _ _).subset ha)

theorem trim_no_comma (s : string) (h : ',' ∉ s) : ',' ∉ trim s :=
  fun hc => h (trim_subset s hc)

/-- Trimming twice is trimming once. -/
theorem trim_trim (s : string) : trim (trim s) = trim s := by
  have key : ∀ t : string, t.dropWhile Char.isWhitespace = t →
      (t.rdropWhile Char.isWhitespace).dropWhile Char.isWhitespace
        = t.rdropWhile Char.isWhitespace := by
    intro t ht
    cases t with
    | nil => simp
    | cons a t' =>
      have ha : ¬ Char.isWhitespace a = true := by
        intro hw
        rw [List.dropWhile_cons_of_pos hw] at ht
        have := (List.dropWhile_suffix (l := t') Char.isWhitespace).length_le
        rw [ht] at this
        simp at this
      obtain ⟨r, hr⟩ := List.rdropWhile_prefix Char.isWhitespace (a :: t')
      cases hq : List.rdropWhile Char.isWhitespace (a :: t') with
      | nil => rfl
      | cons c q =>
        rw [hq] at hr
        have hca : c = a := by
          simp only [List.cons_append, List.cons.injEq] at hr
          exact hr.1
        rw [hca, List.dropWhile_cons_of_neg ha]
  rw [trim_eq (trim s), trim_eq s, key _ (List.dropWhile_idempotent _ _),
    List.rdropWhile_idempotent]

/-! ### C7 -/

/-- The fields of a text of fixed fields hold no comma when the text members do not. -/
theorem FixedFields.clean {n : Nat} {s : string} {c : Prop} (h : FixedFields n s c) (hc : c) :
    ∃ fs : List string, fs.length = n ∧ s = joinFields fs ∧ ∀ f ∈ fs, ',' ∉ f := by
  obtain ⟨fs, hl, hs, hf⟩ := h
  exact ⟨fs, hl, hs, hf hc⟩

/-- Claim C7 as stated fails: a star whose spectral type holds a comma is written with a
quoted spectral type, `"K0,V",`, whose comma ends a field of its own.  In the reference
environment the base fragment of such a star is 11 comma-terminated fields and not 10,
while `fromCSV` takes the first 10 fields of a star line as the fixed ones. -/
theorem toCSV_field_count_counterexample :
    (SSObject.star refStarCommaSpectrum).toCSV refEnv
      = some (refStarCommaSpectrum.toCSV1 refEnv ++ refStarCommaSpectrum.toCSV2 refEnv) ∧
    fromCSV.fid refEnv refEnv.kTypeStar = 10 ∧
    (∃ fs : List string, fs.length = 11 ∧ refStarCommaSpectrum.toCSV1 refEnv = joinFields fs ∧
      (∀ f ∈ fs, ',' ∉ f) ∧ fs.getD 9 [] = ['"', 'K', '0'] ∧ fs.getD 10 [] = ['V', '"']) ∧
    ¬ ∃ fs : List string, fs.length = 10 ∧ refStarCommaSpectrum.toCSV1 refEnv = joinFields fs ∧
      ∀ f ∈ fs, ',' ∉ f := by
  obtain ⟨fs, hl, hs, -, h9, h⟩ := SSStar.toCSV1_fields refEnv refEnv_cleanText
    refStarCommaSpectrum
  have hsp : refStarCommaSpectrum.spectrum = ['K', '0', ',', 'V'] := rfl
  rw [hsp, if_neg (by simp)] at h9
  have htake : (fs.take 9).length = 9 := by
    rw [List.length_take, hl]
    rfl
  have hjoin : refStarCommaSpectrum.toCSV1 refEnv
      = joinFields (fs.take 9 ++ [['"', 'K', '0'], ['V', '"']]) := by
    rw [hs]
    nth_rewrite 1 [list_eq_take_nine fs hl]
    rw [joinFields_append, joinFields_append, h9]
    rfl
  have hclean : ∀ f ∈ fs.take 9 ++ [['"', 'K', '0'], ['V', '"']], ',' ∉ f := by
    intro f hf
    rcases List.mem_append.mp hf with hf | hf
    · exact h f hf
    · simp only [List.mem_cons, List.mem_nil_iff, or_false] at hf
      rcases hf with rfl | rfl <;> simp
  refine ⟨rfl, by decide, ⟨_, ?_, hjoin, hclean, ?_, ?_⟩, ?_⟩
  · rw [List.length_append, htake]
    rfl
  · rw [List.getD_append_right _ _ _ _ (by rw [htake]), htake]
    rfl
  · rw [List.getD_append_right _ _ _ _ (by rw [htake]; norm_num), htake]
    rfl
  · rintro ⟨gs, hgl, hgs, hgc⟩
    have h1 := split_joinFields _ hclean
    have h2 := split_joinFields gs hgc
    rw [← hjoin] at h1
    rw [← hgs, h1] at h2
    have h3 := congrArg List.length h2
    rw [List.length_append, List.length_append, List.length_append, htake, hgl] at h3
    exact absurd h3 (by decide)

/-- Claim C7, amended. Each variant's `toCSV` writes the base fragment, then the
double-star fragment (if carried), then the variable-star fragment (if carried), then the
deep-sky fragment (deep-sky only), then the identifier and name tail; and when the
spectral type, the components and the variability type of the object hold no comma, what
it writes before the tail is exactly as many comma-terminated fields, none holding a
comma, as `fromCSV` requires for that discriminator: 10 for a star, 15 for a double star,
15 for a variable star, 20 for a double-variable star, 13 for a deep-sky object.  The
formatter, the sexagesimal strings and the type codes are taken to emit no comma of their
own. -/
theorem toCSV_fragment_order_and_field_count (env : Env) (hc : env.CleanText)
    (hd : env.TypesDistinct) :
    (∀ b, (SSObject.star b).toCSV env = some (b.toCSV1 env ++ b.toCSV2 env) ∧
      fromCSV.fid env env.kTypeStar = 10 ∧
      (',' ∉ b.spectrum →
        ∃ fs : List string, fs.length = 10 ∧ b.toCSV1 env = joinFields fs ∧
          ∀ f ∈ fs, ',' ∉ f)) ∧
    (∀ b d, (SSObject.doubleStar b d).toCSV env
        = some (b.toCSV1 env ++ d.toCSVD env ++ b.toCSV2 env) ∧
      fromCSV.fid env env.kTypeDoubleStar = 15 ∧
      (',' ∉ b.spectrum → ',' ∉ d.comps →
        ∃ fs : List string, fs.length = 15 ∧ b.toCSV1 env ++ d.toCSVD env = joinFields fs ∧
          ∀ f ∈ fs, ',' ∉ f)) ∧
    (∀ b v, (SSObject.variableStar b v).toCSV env
        = some (b.toCSV1 env ++ v.toCSVV env ++ b.toCSV2 env) ∧
      fromCSV.fid env env.kTypeVariableStar = 15 ∧
      (',' ∉ b.spectrum → ',' ∉ v.varType →
        ∃ fs : List string, fs.length = 15 ∧ b.toCSV1 env ++ v.toCSVV env = joinFields fs ∧
          ∀ f ∈ fs, ',' ∉ f)) ∧
    (∀ b d v, (SSObject.doubleVariableStar b d v).toCSV env
        = some (b.toCSV1 env ++ d.toCSVD env ++ v.toCSVV env ++ b.toCSV2 env) ∧
      fromCSV.fid env env.kTypeDoubleVariableStar = 20 ∧
      (',' ∉ b.spectrum → ',' ∉ d.comps → ',' ∉ v.varType →
        ∃ fs : List string, fs.length = 20 ∧
          b.toCSV1 env ++ d.toCSVD env ++ v.toCSVV env = joinFields fs ∧
          ∀ f ∈ fs, ',' ∉ f)) ∧
    (∀ b ds, (SSObject.deepSky b ds).toCSV env
        = some (b.toCSV1 env ++ ds.toCSVDS env ++ b.toCSV2 env) ∧
      (b.type ≠ env.kTypeStar → b.type ≠ env.kTypeDoubleStar →
        b.type ≠ env.kTypeVariableStar → b.type ≠ env.kTypeDoubleVariableStar →
        fromCSV.fid env b.type = 13) ∧
      (',' ∉ b.spectrum →
        ∃ fs : List string, fs.length = 13 ∧ b.toCSV1 env ++ ds.toCSVDS env = joinFields fs ∧
          ∀ f ∈ fs, ',' ∉ f)) := by
  refine ⟨fun b => ⟨rfl, ?_, fun h1 => (SSStar.toCSV1_fixed env hc b).clean h1⟩,
    fun b d => ⟨rfl, ?_, fun h1 h2 => ((SSStar.toCSV1_fixed env hc b).append
      (d.toCSVD_fixed env hc)).clean ⟨h1, h2⟩⟩,
    fun b v => ⟨rfl, ?_, fun h1 h2 => ((SSStar.toCSV1_fixed env hc b).append
      (v.toCSVV_fixed env hc)).clean ⟨h1, h2⟩⟩,
    fun b d v => ⟨rfl, ?_, fun h1 h2 h3 => (((SSStar.toCSV1_fixed env hc b).append
      (d.toCSVD_fixed env hc)).append (v.toCSVV_fixed env hc)).clean ⟨⟨h1, h2⟩, h3⟩⟩,
    fun b ds => ⟨rfl, ?_, fun h1 => ((SSStar.toCSV1_fixed env hc b).append
      (ds.toCSVDS_fixed env hc)).clean ⟨h1, trivial⟩⟩⟩
  · dsimp only [fromCSV.fid]
    simp
  · dsimp only [fromCSV.fid]
    simp [hd.star_double.symm]
  · dsimp only [fromCSV.fid]
    simp [hd.star_variable.symm, hd.double_variable.symm]
  · dsimp only [fromCSV.fid]
    simp [hd.star_doubleVariable.symm, hd.double_doubleVariable.symm,
      hd.variable_doubleVariable.symm]
  · intro h1 h2 h3 h4
    dsimp only [fromCSV.fid]
    simp [h1, h2, h3, h4]

/-- Witness for the amended C7: in the reference environment a freshly constructed double
star, whose spectral type and components are empty, is written as 15 comma-terminated
fields before its tail. -/
theorem toCSV_fragment_order_and_field_count_witness :
    refEnv.CleanText ∧ refEnv.TypesDistinct ∧
    ',' ∉ (SSStar.new refEnv.kTypeDoubleStar).spectrum ∧ ',' ∉ SSDoubleStar.new.comps ∧
    ∃ fs : List string, fs.length = 15 ∧
      (SSStar.new refEnv.kTypeDoubleStar).toCSV1 refEnv ++ SSDoubleStar.new.toCSVD refEnv
        = joinFields fs ∧
      ∀ f ∈ fs, ',' ∉ f :=
  ⟨refEnv_cleanText, refEnv_typesDistinct, List.not_mem_nil _, List.not_mem_nil _,
    ((toCSV_fragment_order_and_field_count refEnv refEnv_cleanText refEnv_typesDistinct).2.1
      (SSStar.new refEnv.kTypeDoubleStar) SSDoubleStar.new).2.2 (List.not_mem_nil _)
        (List.not_mem_nil _)⟩

/-! ### Decoding what the encoder wrote -/

theorem getD_map_trim_append (F R : List string) (i : Nat) (hi : i < F.length) :
    ((F ++ R).map trim).getD i [] = trim (F.getD i []) := by
  rw [List.getD_eq_getElem?_getD, List.getD_eq_getElem?_getD, List.map_append,
    List.getElem?_append_left (by simpa using hi), List.getElem?_map,
    List.getElem?_eq_getElem hi]
  rfl

theorem drop_map_trim_append (F R : List string) :
    ((F ++ R).map trim).drop F.length = R.map trim := by
  rw [← List.map_drop, List.drop_left]

theorem fromCSV.fields_mem (csv : string) :
    ∀ f ∈ fromCSV.fields csv, ',' ∉ f ∧ trim f = f := by
  intro f hf
  obtain ⟨g, hg, rfl⟩ := List.mem_map.mp hf
  exact ⟨trim_no_comma g (split_no_comma csv g hg), trim_trim g⟩

theorem fromCSV.fields_getD (csv : string) (i : Nat) :
    ',' ∉ (fromCSV.fields csv).getD i [] ∧
      trim ((fromCSV.fields csv).getD i []) = (fromCSV.fields csv).getD i [] := by
  rw [List.getD_eq_getElem?_getD]
  cases h : (fromCSV.fields csv)[i]? with
  | none => exact ⟨by simp, trim_nil⟩
  | some f => exact fromCSV.fields_mem csv f (List.getElem?_mem h)

/-- Every successful decode comes from a line that passed both guards. -/
theorem fromCSV_some_guards (env : Env) (csv : string) (obj : SSObject)
    (h : fromCSV env csv = some obj) :
    (env.kTypeStar ≤ fromCSV.type env csv ∧ fromCSV.type env csv ≤ env.kTypeGalaxy) ∧
      fromCSV.fid env (fromCSV.type env csv) ≤ (fromCSV.fields csv).length := by
  rw [fromCSV_eq] at h
  by_cases h1 : fromCSV.type env csv < env.kTypeStar ∨ env.kTypeGalaxy < fromCSV.type env csv
  · rw [if_pos h1] at h; exact absurd h (by simp)
  · rw [if_neg h1] at h
    by_cases h2 : (fromCSV.fields csv).length < fromCSV.fid env (fromCSV.type env csv)
    · rw [if_pos h2] at h; exact absurd h (by simp)
    · exact ⟨by simpa only [not_or, not_lt] using h1, not_lt.mp h2⟩

/-- A line that passes both guards decodes to an object with the type code of the line. -/
theorem fromCSV_some_type (env : Env) (hd : env.TypesDistinct) (csv : string)
    (hr : env.kTypeStar ≤ fromCSV.type env csv ∧ fromCSV.type env csv ≤ env.kTypeGalaxy)
    (hn : fromCSV.fid env (fromCSV.type env csv) ≤ (fromCSV.fields csv).length) :
    ∃ obj, fromCSV env csv = some obj ∧ obj.type = fromCSV.type env csv := by
  rcases fromCSV_decoded env hd csv hr hn with
    ⟨_, e⟩ | ⟨_, e⟩ | ⟨_, e⟩ | ⟨_, e⟩ | ⟨_, e⟩ <;> exact ⟨_, e, rfl⟩

theorem refEnv_codeRoundTrip : refEnv.CodeRoundTrip := by
  constructor
  intro s h1 h2
  show refCodeToType (trim (refTypeToCode (refCodeToType s))) = refCodeToType s
  have hcases : refCodeToType s = 10 ∨ refCodeToType s = 12 ∨ refCodeToType s = 13 ∨
      refCodeToType s = 14 ∨ refCodeToType s = 20 ∨ refCodeToType s = 25 ∨
      refCodeToType s = 0 := by
    unfold refCodeToType
    repeat' split
    all_goals simp
  rcases hcases with h | h | h | h | h | h | h <;> rw [h] <;> decide

theorem refIdentToString_trim (n : Nat) :
    trim ('#' :: List.replicate n '|') = '#' :: List.replicate n '|' := by
  rw [trim_eq, List.dropWhile_cons_of_neg (by decide), List.rdropWhile_eq_self_iff]
  intro hl
  have hall : ∀ c ∈ '#' :: List.replicate n '|', ¬ Char.isWhitespace c = true := by
    intro c hc
    rcases List.mem_cons.mp hc with h | h
    · rw [h]; decide
    · rw [List.eq_of_mem_replicate h]; decide
  exact hall _ (List.getLast_mem hl)

theorem refEnv_identRoundTrip : refEnv.IdentRoundTrip := by
  constructor
  · intro ident
    show ',' ∉ refIdentToString ident
    unfold refIdentToString
    intro h
    rcases List.mem_cons.mp h with h | h
    · exact absurd h (by decide)
    · exact absurd (List.eq_of_mem_replicate h) (by decide)
  · intro f hf
    show refIdentFromString (trim (refIdentToString (refIdentFromString f)))
      = refIdentFromString f
    have hshape : ∃ n : Nat, refIdentFromString f = ⟨(n : Int)⟩ := by
      unfold refIdentFromString
      split
      · split
        · exact ⟨_, rfl⟩
        · exact ⟨0, rfl⟩
      · exact ⟨0, rfl⟩
    obtain ⟨n, hn⟩ := hshape
    rw [hn]
    show refIdentFromString (trim ('#' :: List.replicate (Int.toNat (n : Int)) '|')) = _
    rw [Int.toNat_ofNat, refIdentToString_trim]
    dsimp only [refIdentFromString]
    simp

/-! ### C6 -/

/-- Claim C6. For any object produced by `SSStar::fromCSV`, encoding it with `toCSV` and
decoding the result again with `fromCSV` succeeds and yields an object with the same type
discriminator, the same spectral type string and the same display-name list, provided the
type registry and the identifier codec round-trip and the text primitives emit no comma of
their own. -/
theorem fromCSV_toCSV_fromCSV (env : Env) (hd : env.TypesDistinct) (hc : env.CleanText)
    (hcode : env.CodeRoundTrip) (hid : env.IdentRoundTrip) (csv : string) (obj : SSObject)
    (h : fromCSV env csv = some obj) :
    ∃ text obj' star star', obj.toCSV env = some text ∧ fromCSV env text = some obj' ∧
      obj'.type = obj.type ∧
      SSGetStarPtr (some obj) = some star ∧ SSGetStarPtr (some obj') = some star' ∧
      star'.spectrum = star.spectrum ∧ star'.names = star.names := by
  -- The tail written by `toCSV2`: every identifier, then every name.
  have toCSV2_fields (env : Env) (b : SSStar) :
      b.toCSV2 env = joinFields (b.idents.map env.identToString ++ b.names) := by
    unfold SSStar.toCSV2
    simp only [foldl_append_fields env.identToString, foldl_append_fields id, List.nil_append,
      List.map_id, joinFields_append, id]
    rw [← joinFields_append]
    have : b.names.foldl (fun csv name => csv ++ (name ++ [',']))
        (joinFields (b.idents.map env.identToString))
        = joinFields (b.idents.map env.identToString) ++ joinFields (b.names.map id) :=
      foldl_append_fields id b.names _
    simpa [joinFields_append] using this
  -- The base part of a decoded line, written back with any comma-free fragment fields `G`
  -- that complete the fixed fields of its type, decodes again to the same type code, spectral
  -- type and names.
  have fromCSV_reencoded (env : Env) (hd : env.TypesDistinct) (hc : env.CleanText)
      (hcode : env.CodeRoundTrip) (hid : env.IdentRoundTrip) (csv : string)
      (hr : env.kTypeStar ≤ fromCSV.type env csv ∧ fromCSV.type env csv ≤ env.kTypeGalaxy)
      (G : List string) (hG : ∀ g ∈ G, ',' ∉ g)
      (hlen : 10 + G.length = fromCSV.fid env (fromCSV.type env csv)) :
      ∃ obj' star',
        fromCSV env
          ((fromCSV.star env (fromCSV.type env csv) (fromCSV.fields csv)
              (SSStar.new (fromCSV.type env csv))).toCSV1 env ++ joinFields G ++
            (fromCSV.star env (fromCSV.type env csv) (fromCSV.fields csv)
              (SSStar.new (fromCSV.type env csv))).toCSV2 env) = some obj' ∧
        obj'.type = fromCSV.type env csv ∧
        SSGetStarPtr (some obj') = some star' ∧
        star'.spectrum = (fromCSV.star env (fromCSV.type env csv) (fromCSV.fields csv)
              (SSStar.new (fromCSV.type env csv))).spectrum ∧
        star'.names = (fromCSV.star env (fromCSV.type env csv) (fromCSV.fields csv)
              (SSStar.new (fromCSV.type env csv))).names := by
    have star_spectrum (env : Env) (type : SSObjectType) (fields : List string)
        (pStar : SSStar) :
        (fromCSV.star env type fields pStar).spectrum = trim (fields.getD 9 []) := rfl
    -- A line written from comma-free fixed fields `F`, identifiers `I` and names `N`
    -- decodes to the same type code, with enough fields, the same spectral type field and the
    -- same names.
    have fromCSV_of_encoded (env : Env) (hcode : env.CodeRoundTrip) (hid : env.IdentRoundTrip)
        (s : string) (hr : env.kTypeStar ≤ env.codeToType s ∧ env.codeToType s ≤ env.kTypeGalaxy)
        (F : List string) (hFl : F.length = fromCSV.fid env (env.codeToType s))
        (h10 : 10 ≤ F.length) (hF0 : F.getD 0 [] = env.typeToCode (env.codeToType s))
        (hFc : ∀ f ∈ F, ',' ∉ f)
        (I : List SSIdentifier) (N : List string)
        (hI : ∀ ident ∈ I, ∃ f, ident = env.identFromString f ∧ ident.toBool = true)
        (hN : ∀ n ∈ N, ',' ∉ n ∧ trim n = n ∧ n.isEmpty = false ∧
          (env.identFromString n).toBool = false) :
        fromCSV.type env (joinFields (F ++ (I.map env.identToString ++ N))) = env.codeToType s ∧
        fromCSV.fid env (env.codeToType s)
          ≤ (fromCSV.fields (joinFields (F ++ (I.map env.identToString ++ N)))).length ∧
        (fromCSV.fields (joinFields (F ++ (I.map env.identToString ++ N)))).getD 9 []
          = trim (F.getD 9 []) ∧
        (fromCSV.scan env ((fromCSV.fields (joinFields (F ++ (I.map env.identToString ++ N)))).drop
          (fromCSV.fid env (env.codeToType s))) [] []).2 = N := by
      -- The names read back from an encoded tail are the names that were written: the
      -- identifier strings parse again as identifiers, the names are again names, and the empty
      -- field after the last comma is skipped.
      have scan_encoded_tail (env : Env) (hid : env.IdentRoundTrip)
          (I : List SSIdentifier) (N : List string)
          (hI : ∀ ident ∈ I, ∃ f, ident = env.identFromString f ∧ ident.toBool = true)
          (hN : ∀ n ∈ N, trim n = n ∧ n.isEmpty = false ∧ (env.identFromString n).toBool = false) :
          (fromCSV.scan env ((I.map env.identToString ++ N ++ [[]]).map trim) [] []).2 = N := by
        rw [fromCSV.scan_eq]
        simp only [List.nil_append, List.map_append, List.filter_append, List.map_map]
        have h1 : List.filter (fun f => !(env.identFromString f).toBool)
            (List.filter (fun f => !f.isEmpty) (I.map (trim ∘ env.identToString))) = [] := by
          rw [List.filter_eq_nil_iff]
          intro a ha
          rw [List.mem_filter, List.mem_map] at ha
          obtain ⟨⟨ident, hmem, rfl⟩, _⟩ := ha
          obtain ⟨f, rfl, hb⟩ := hI ident hmem
          simp only [Function.comp, hid.roundTrip f hb, hb, Bool.not_true, Bool.false_eq_true,
            not_false_eq_true]
        have h2 : N.map trim = N := by
          conv_rhs => rw [← List.map_id N]
          exact List.map_congr_left (fun n hn => (hN n hn).1)
        have h3 : List.filter (fun f => !(env.identFromString f).toBool)
            (List.filter (fun f => !f.isEmpty) N) = N := by
          have hp : List.filter (fun f => !f.isEmpty) N = N :=
            List.filter_eq_self.mpr (fun n hn => by rw [(hN n hn).2.1]; rfl)
          have hq : List.filter (fun f => !(env.identFromString f).toBool) N = N :=
            List.filter_eq_self.mpr (fun n hn => by rw [(hN n hn).2.2]; rfl)
          rw [hp, hq]
        have h4 : List.filter (fun f => !(env.identFromString f).toBool)
            (List.filter (fun f => !f.isEmpty) (([[]] : List string).map trim)) = [] := by
          simp [trim_nil]
        rw [h1, h2, h3]
        simpa using h4
      have hall : ∀ f ∈ F ++ (I.map env.identToString ++ N), ',' ∉ f := by
        intro f hf
        rcases List.mem_append.mp hf with h | h
        · exact hFc f h
        · rcases List.mem_append.mp h with h | h
          · obtain ⟨ident, _, rfl⟩ := List.mem_map.mp h
            exact hid.noComma ident
          · exact (hN f h).1
      have hfields : fromCSV.fields (joinFields (F ++ (I.map env.identToString ++ N)))
          = (F ++ (I.map env.identToString ++ N ++ [[]])).map trim := by
        unfold fromCSV.fields
        rw [split_joinFields _ hall]
        simp
      have htype : fromCSV.type env (joinFields (F ++ (I.map env.identToString ++ N)))
          = env.codeToType s := by
        unfold fromCSV.type
        rw [hfields, getD_map_trim_append _ _ 0 (by omega), hF0]
        exact hcode.roundTrip s hr.1 hr.2
      refine ⟨htype, ?_, ?_, ?_⟩
      · rw [hfields, ← hFl]
        simp
      · rw [hfields, getD_map_trim_append _ _ 9 (by omega)]
      · rw [hfields, ← hFl, drop_map_trim_append]
        exact scan_encoded_tail env hid I N hI (fun n hn => (hN n hn).2)
    generalize hb : fromCSV.star env (fromCSV.type env csv) (fromCSV.fields csv)
      (SSStar.new (fromCSV.type env csv)) = b
    have hbt : b.type = fromCSV.type env csv := by rw [← hb]; rfl
    have hbs : b.spectrum = trim ((fromCSV.fields csv).getD 9 []) := by rw [← hb]; rfl
    have hbi : b.idents = ((((fromCSV.fields csv).drop
        (fromCSV.fid env (fromCSV.type env csv))).filter (fun f => !f.isEmpty)).filter
          (fun f => (env.identFromString f).toBool)).map env.identFromString := by
      rw [← hb, fromCSV.star_idents, fromCSV.scan_eq]; rfl
    have hbn : b.names = (((fromCSV.fields csv).drop
        (fromCSV.fid env (fromCSV.type env csv))).filter (fun f => !f.isEmpty)).filter
          (fun f => !(env.identFromString f).toBool) := by
      rw [← hb, fromCSV.star_names, fromCSV.scan_eq]; rfl
    have hsc : ',' ∉ b.spectrum := by
      rw [hbs]; exact trim_no_comma _ (fromCSV.fields_getD csv 9).1
    have hst : trim b.spectrum = b.spectrum := by rw [hbs, trim_trim]
    obtain ⟨F1, hl1, hs1, h0, h9, hc9⟩ := SSStar.toCSV1_fields env hc b
    rw [if_pos hsc] at h9
    have hF1c : ∀ f ∈ F1, ',' ∉ f := by
      intro f hf
      rw [list_eq_take_nine F1 hl1] at hf
      rcases List.mem_append.mp hf with hf | hf
      · exact hc9 f hf
      · rw [List.mem_singleton] at hf
        rw [hf, h9]; exact hsc
    have hI : ∀ ident ∈ b.idents, ∃ f, ident = env.identFromString f ∧ ident.toBool = true := by
      intro ident hm
      rw [hbi] at hm
      obtain ⟨f, hf, rfl⟩ := List.mem_map.mp hm
      exact ⟨f, rfl, (List.mem_filter.mp hf).2⟩
    have hN : ∀ n ∈ b.names, ',' ∉ n ∧ trim n = n ∧ n.isEmpty = false ∧
        (env.identFromString n).toBool = false := by
      intro n hm
      rw [hbn] at hm
      obtain ⟨hm1, hq⟩ := List.mem_filter.mp hm
      obtain ⟨hm2, hp⟩ := List.mem_filter.mp hm1
      have hmem := fromCSV.fields_mem csv n (List.mem_of_mem_drop hm2)
      exact ⟨hmem.1, hmem.2, by simpa using hp, by simpa using hq⟩
    have htext : b.toCSV1 env ++ joinFields G ++ b.toCSV2 env
        = joinFields ((F1 ++ G) ++ (b.idents.map env.identToString ++ b.names)) := by
      simp only [hs1, toCSV2_fields, joinFields_append]
    have hF0 : (F1 ++ G).getD 0 [] = env.typeToCode (fromCSV.type env csv) := by
      rw [List.getD_append _ _ _ _ (by omega), h0, hbt]
    have hF9 : (F1 ++ G).getD 9 [] = b.spectrum := by
      rw [List.getD_append _ _ _ _ (by omega), h9]
    obtain ⟨e1, e2, e3, e4⟩ := fromCSV_of_encoded env hcode hid ((fromCSV.fields csv).getD 0 []) hr
      (F1 ++ G) (by rw [List.length_append, hl1]; exact hlen) (by simp [hl1]) hF0
      (fun f hf => (List.mem_append.mp hf).elim (hF1c f) (hG f)) b.idents b.names hI hN
    rw [← htext] at e1 e2 e3 e4
    have e1' : fromCSV.type env (b.toCSV1 env ++ joinFields G ++ b.toCSV2 env)
        = fromCSV.type env csv := e1
    obtain ⟨obj', ho, hot⟩ := fromCSV_some_type env hd
      (b.toCSV1 env ++ joinFields G ++ b.toCSV2 env) (by rw [e1']; exact hr)
      (by rw [e1']; exact e2)
    have hsp := fromCSV_star_part env hd
      (b.toCSV1 env ++ joinFields G ++ b.toCSV2 env) (by rw [e1']; exact hr)
      (by rw [e1']; exact e2)
    rw [ho] at hsp
    refine ⟨obj', _, ho, hot.trans e1', hsp, ?_, ?_⟩
    · rw [star_spectrum, e3, hF9, trim_trim, hst]
    · rw [fromCSV.star_names, e1']
      exact e4
  obtain ⟨hr, hn⟩ := fromCSV_some_guards env csv obj h
  have main := fromCSV_reencoded env hd hc hcode hid csv hr
  rcases fromCSV_decoded env hd csv hr hn with
    ⟨ht, e⟩ | ⟨ht, e⟩ | ⟨ht, e⟩ | ⟨ht, e⟩ | ⟨⟨h1, h2, h3, h4⟩, e⟩
  · obtain ⟨obj', star', ho, hty, hs, hsp, hnm⟩ := main [] (by simp)
      (by (dsimp only [fromCSV.fid]; simp [ht]))
    have ho' : obj = _ := Option.some.inj (h.symm.trans e)
    subst ho'
    refine ⟨_, obj', _, star', rfl, ?_, hty, rfl, hs, hsp, hnm⟩
    simpa [joinFields] using ho
  · obtain ⟨G, hl, hg, hclean⟩ := SSDoubleStar.toCSVD_fixed env hc
      (fromCSV.doubleStar env (fromCSV.fields csv) SSDoubleStar.new)
    obtain ⟨obj', star', ho, hty, hs, hsp, hnm⟩ := main G
      (hclean (fromCSV.fields_getD csv 10).1)
      (by (dsimp only [fromCSV.fid]; simp [ht, hl, hd.star_double.symm]))
    have ho' : obj = _ := Option.some.inj (h.symm.trans e)
    subst ho'
    refine ⟨_, obj', _, star', rfl, ?_, hty, rfl, hs, hsp, hnm⟩
    rw [hg]; exact ho
  · obtain ⟨G, hl, hg, hclean⟩ := SSVariableStar.toCSVV_fixed env hc
      (fromCSV.variableStar env (fromCSV.type env csv) (fromCSV.fields csv) SSVariableStar.new)
    obtain ⟨obj', star', ho, hty, hs, hsp, hnm⟩ := main G
      (hclean (fromCSV.fields_getD csv _).1)
      (by (dsimp only [fromCSV.fid]; simp [ht, hl, hd.star_variable.symm, hd.double_variable.symm]))
    have ho' : obj = _ := Option.some.inj (h.symm.trans e)
    subst ho'
    refine ⟨_, obj', _, star', rfl, ?_, hty, rfl, hs, hsp, hnm⟩
    rw [hg]; exact ho
  · obtain ⟨G1, hl1, hg1, hclean1⟩ := SSDoubleStar.toCSVD_fixed env hc
      (fromCSV.doubleStar env (fromCSV.fields csv) SSDoubleStar.new)
    obtain ⟨G2, hl2, hg2, hclean2⟩ := SSVariableStar.toCSVV_fixed env hc
      (fromCSV.variableStar env (fromCSV.type env csv) (fromCSV.fields csv) SSVariableStar.new)
    obtain ⟨obj', star', ho, hty, hs, hsp, hnm⟩ := main (G1 ++ G2)
      (fun g hg => (List.mem_append.mp hg).elim
        (hclean1 (fromCSV.fields_getD csv 10).1 g)
        (hclean2 (fromCSV.fields_getD csv _).1 g))
      (by (dsimp only [fromCSV.fid]; simp [ht, hl1, hl2, hd.star_doubleVariable.symm,
        hd.double_doubleVariable.symm, hd.variable_doubleVariable.symm]))
    have ho' : obj = _ := Option.some.inj (h.symm.trans e)
    subst ho'
    refine ⟨_, obj', _, star', rfl, ?_, hty, rfl, hs, hsp, hnm⟩
    rw [hg1, hg2, List.append_assoc (SSStar.toCSV1 env _), ← joinFields_append]; exact ho
  · obtain ⟨G, hl, hg, hclean⟩ := SSDeepSky.toCSVDS_fixed env hc
      (fromCSV.deepSky env (fromCSV.fields csv) SSDeepSky.new)
    obtain ⟨obj', star', ho, hty, hs, hsp, hnm⟩ := main G (hclean trivial)
      (by (dsimp only [fromCSV.fid]; simp [h1, h2, h3, h4, hl]))
    have ho' : obj = _ := Option.some.inj (h.symm.trans e)
    subst ho'
    refine ⟨_, obj', _, star', rfl, ?_, hty, rfl, hs, hsp, hnm⟩
    rw [hg]; exact ho

/-- Witness for C6: the double-variable line of the reference environment decodes to an
object whose encoding decodes again. -/
theorem fromCSV_toCSV_fromCSV_witness :
    refEnv.TypesDistinct ∧ refEnv.CleanText ∧ refEnv.CodeRoundTrip ∧ refEnv.IdentRoundTrip ∧
    ∃ obj text obj' star star',
      fromCSV refEnv refLineDoubleVariable = some obj ∧
      obj.toCSV refEnv = some text ∧ fromCSV refEnv text = some obj' ∧
      obj'.type = obj.type ∧
      SSGetStarPtr (some obj) = some star ∧ SSGetStarPtr (some obj') = some star' ∧
      star'.spectrum = star.spectrum ∧ star'.names = star.names := by
  refine ⟨refEnv_typesDistinct, refEnv_cleanText, refEnv_codeRoundTrip, refEnv_identRoundTrip,
    ?_⟩
  obtain ⟨obj, ho, _⟩ := fromCSV_some_type refEnv refEnv_typesDistinct
    refLineDoubleVariable (by decide) (by decide)
  obtain ⟨text, obj', star, star', h⟩ := fromCSV_toCSV_fromCSV refEnv refEnv_typesDistinct
    refEnv_cleanText refEnv_codeRoundTrip refEnv_identRoundTrip _ obj ho
  exact ⟨obj, text, obj', star, star', ho, h⟩

/-! ### The range of a `double` -/

namespace Double

theorem ofReal_eq_fin {r : ℝ} (h : InRange r) : ofReal r = fin r := by
  obtain ⟨h1, h2⟩ := h
  have hlt := abs_lt.mp h1
  unfold ofReal
  rw [if_neg (not_le.mpr hlt.2), if_neg (not_le.mpr hlt.1)]
  rcases h2 with h0 | h0
  · subst h0
    have : |(0 : ℝ)| < 1 / (2 : ℝ) ^ 1075 := by
      rw [abs_zero]; positivity
    rw [if_pos this]
  · rw [if_neg (not_lt.mpr h0)]

theorem ofReal_zero : ofReal 0 = fin 0 :=
  ofReal_eq_fin ⟨by rw [abs_zero]; positivity, Or.inl rfl⟩

theorem Mid.zero (k : ℕ) : Mid k 0 := Or.inl rfl

/-- A positive real between `2^(-k)` and `2^k` is of moderate size. -/
theorem Mid.of_pos {k : ℕ} {r : ℝ} (h1 : 1 / (2 : ℝ) ^ k ≤ r) (h2 : r ≤ (2 : ℝ) ^ k) :
    Mid k r := by
  have hpos : 0 < r := lt_of_lt_of_le (by positivity) h1
  exact Or.inr ⟨by rwa [abs_of_pos hpos], by rwa [abs_of_pos hpos]⟩

theorem Mid.abs_le {k : ℕ} {r : ℝ} (h : Mid k r) : |r| ≤ (2 : ℝ) ^ k := by
  rcases h with h | h
  · subst h; rw [abs_zero]; positivity
  · exact h.2

theorem Mid.mono {j k : ℕ} {r : ℝ} (hjk : j ≤ k) (h : Mid j r) : Mid k r := by
  rcases h with h | ⟨h1, h2⟩
  · exact Or.inl h
  · have hp : (2 : ℝ) ^ j ≤ (2 : ℝ) ^ k := pow_le_pow_right₀ (by norm_num) hjk
    refine Or.inr ⟨le_trans ?_ h1, le_trans h2 hp⟩
    exact one_div_le_one_div_of_le (by positivity) hp

theorem Mid.inRange {k : ℕ} {r : ℝ} (hk : k ≤ 1023) (h : Mid k r) : InRange r := by
  have h' := Mid.mono hk h
  refine ⟨lt_of_le_of_lt h'.abs_le (by norm_num), ?_⟩
  rcases h' with h0 | ⟨h1, _⟩
  · exact Or.inl h0
  · refine Or.inr (le_trans ?_ h1)
    exact one_div_le_one_div_of_le (by positivity) (by norm_num)

theorem Mid.neg {k : ℕ} {r : ℝ} (h : Mid k r) : Mid k (-r) := by
  rcases h with h | h
  · exact Or.inl (by rw [h, neg_zero])
  · exact Or.inr (by rwa [abs_neg])

theorem Mid.mul {j k : ℕ} {a b : ℝ} (ha : Mid j a) (hb : Mid k b) : Mid (j + k) (a * b) := by
  rcases ha with ha | ⟨ha1, ha2⟩
  · exact Or.inl (by rw [ha, zero_mul])
  rcases hb with hb | ⟨hb1, hb2⟩
  · exact Or.inl (by rw [hb, mul_zero])
  refine Or.inr ⟨?_, ?_⟩
  · rw [abs_mul, pow_add, ← one_div_mul_one_div]
    exact mul_le_mul ha1 hb1 (by positivity) (abs_nonneg a)
  · rw [abs_mul, pow_add]
    exact mul_le_mul ha2 hb2 (abs_nonneg b) (by positivity)

theorem Mid.inv {k : ℕ} {b : ℝ} (hb : Mid k b) : Mid k b⁻¹ := by
  rcases hb with hb | ⟨hb1, hb2⟩
  · exact Or.inl (by rw [hb, inv_zero])
  have hpos : 0 < |b| := lt_of_lt_of_le (by positivity) hb1
  refine Or.inr ⟨?_, ?_⟩
  · rw [abs_inv, one_div]
    exact inv_anti₀ hpos hb2
  · rw [abs_inv]
    have := inv_anti₀ (by positivity : (0 : ℝ) < 1 / 2 ^ k) hb1
    rwa [one_div, inv_inv] at this

theorem Mid.div {j k : ℕ} {a b : ℝ} (ha : Mid j a) (hb : Mid k b) : Mid (j + k) (a / b) := by
  rw [div_eq_mul_inv]
  exact ha.mul hb.inv

/-- A sum of two non-negative in-range reals below `2^1024` is in range. -/
theorem InRange.add_of_nonneg {a b : ℝ} (ha : InRange a) (hb : InRange b) (ha0 : 0 ≤ a)
    (hb0 : 0 ≤ b) (hlt : a + b < (2 : ℝ) ^ 1024) : InRange (a + b) := by
  have hab : 0 ≤ a + b := add_nonneg ha0 hb0
  refine ⟨by rwa [abs_of_nonneg hab], ?_⟩
  rcases ha.2 with h | h
  · rcases hb.2 with h' | h'
    · exact Or.inl (by rw [h, h', add_zero])
    · refine Or.inr ?_
      rw [h, zero_add]; exact h'
  · refine Or.inr ?_
    rw [abs_of_nonneg hab]
    rw [abs_of_nonneg ha0] at h
    linarith

theorem fin_mul_fin {a b : ℝ} (h : InRange (a * b)) : (fin a * fin b : Double) = fin (a * b) :=
  ofReal_eq_fin h

theorem fin_add_fin {a b : ℝ} (h : InRange (a + b)) : (fin a + fin b : Double) = fin (a + b) :=
  ofReal_eq_fin h

theorem fin_sub_fin {a b : ℝ} (h : InRange (a - b)) : (fin a - fin b : Double) = fin (a - b) := by
  show ofReal (a + -b) = fin (a - b)
  rw [← sub_eq_add_neg]
  exact ofReal_eq_fin h

theorem neg_fin (a : ℝ) : (-fin a : Double) = fin (-a) := rfl

theorem fin_div_fin {a b : ℝ} (hb : b ≠ 0) (h : InRange (a / b)) :
    (fin a / fin b : Double) = fin (a / b) := by
  show (if b = 0 then signedInf a else ofReal (a / b)) = fin (a / b)
  rw [if_neg hb]
  exact ofReal_eq_fin h

theorem sqrt_fin (a : ℝ) (ha : 0 ≤ a) : sqrt (fin a) = fin (Real.sqrt a) := by
  show (if a < 0 then nan else fin (Real.sqrt a)) = fin (Real.sqrt a)
  rw [if_neg (not_lt.mpr ha)]

/-- Multiplying a stored result by `1.0` leaves it as it is. -/
theorem fin_one_mul_ofReal (r : ℝ) : (fin 1 * ofReal r : Double) = ofReal r := by
  unfold ofReal
  by_cases h1 : (2 : ℝ) ^ 1024 ≤ r
  · rw [if_pos h1]
    show signedInf 1 = pinf
    unfold signedInf
    rw [if_pos one_pos]
  rw [if_neg h1]
  by_cases h2 : r ≤ -(2 : ℝ) ^ 1024
  · rw [if_pos h2]
    show signedInf (-1) = ninf
    unfold signedInf
    rw [if_neg (by norm_num), if_pos (by norm_num)]
  rw [if_neg h2]
  by_cases h3 : |r| < 1 / (2 : ℝ) ^ 1075
  · rw [if_pos h3]
    show ofReal (1 * 0) = fin 0
    rw [mul_zero]
    exact ofReal_zero
  rw [if_neg h3]
  show ofReal (1 * r) = fin r
  rw [one_mul]
  unfold ofReal
  rw [if_neg h1, if_neg h2, if_neg h3]

theorem fin_one_mul_cos (a : Double) : (fin 1 * cos a : Double) = cos a := by
  cases a with
  | fin r => exact fin_one_mul_ofReal _
  | pinf => rfl
  | ninf => rfl
  | nan => rfl

theorem fin_one_mul_sin (a : Double) : (fin 1 * sin a : Double) = sin a := by
  cases a with
  | fin r => exact fin_one_mul_ofReal _
  | pinf => rfl
  | ninf => rfl
  | nan => rfl

theorem not_le_fin_zero_of_pos (a : ℝ) (ha : 0 < a) : ¬ Double.le (fin a) (fin 0) := by
  intro h
  rcases h with h | h
  · exact absurd (show a < 0 from h) (not_lt.mpr ha.le)
  · exact absurd (show a = 0 from h) ha.ne'

end Double

/-! ### Magnitude and normalization -/

theorem SSVector.magnitude_fin {x y z : ℝ} (hx : Double.InRange (x * x))
    (hy : Double.InRange (y * y)) (hz : Double.InRange (z * z))
    (hs : x * x + y * y + z * z < (2 : ℝ) ^ 1024) :
    (SSVector.mk (.fin x) (.fin y) (.fin z)).magnitude
      = .fin (Real.sqrt (x * x + y * y + z * z)) := by
  have hxy : Double.InRange (x * x + y * y) :=
    hx.add_of_nonneg hy (mul_self_nonneg x) (mul_self_nonneg y)
      (by linarith [mul_self_nonneg z])
  have hxyz : Double.InRange (x * x + y * y + z * z) :=
    hxy.add_of_nonneg hz (add_nonneg (mul_self_nonneg x) (mul_self_nonneg y))
      (mul_self_nonneg z) hs
  show Double.sqrt (Double.fin x * Double.fin x + Double.fin y * Double.fin y
    + Double.fin z * Double.fin z) = _
  rw [Double.fin_mul_fin hx, Double.fin_mul_fin hy, Double.fin_mul_fin hz,
    Double.fin_add_fin hxy, Double.fin_add_fin hxyz]
  exact Double.sqrt_fin _
    (add_nonneg (add_nonneg (mul_self_nonneg x) (mul_self_nonneg y)) (mul_self_nonneg z))

/-- The sum of the squares of three reals of magnitude `2^k` at most, `k ≤ 510`, is below
`2^1024`. -/
theorem Double.Mid.sum_squares_lt {k : ℕ} {x y z : ℝ} (hk : k ≤ 510) (hx : Double.Mid k x)
    (hy : Double.Mid k y) (hz : Double.Mid k z) :
    x * x + y * y + z * z ≤ 3 * (2 : ℝ) ^ (k + k) ∧ x * x + y * y + z * z < (2 : ℝ) ^ 1024 := by
  have h : ∀ c : ℝ, Double.Mid k c → c * c ≤ (2 : ℝ) ^ (k + k) := by
    intro c hc
    have := (hc.mul hc).abs_le
    exact le_trans (le_abs_self _) this
  have h1 : x * x + y * y + z * z ≤ 3 * (2 : ℝ) ^ (k + k) := by
    linarith [h x hx, h y hy, h z hz]
  refine ⟨h1, lt_of_le_of_lt h1 ?_⟩
  have hp : (2 : ℝ) ^ (k + k) ≤ (2 : ℝ) ^ 1020 := pow_le_pow_right₀ (by norm_num) (by omega)
  calc 3 * (2 : ℝ) ^ (k + k) ≤ 3 * (2 : ℝ) ^ 1020 := by linarith
    _ < (2 : ℝ) ^ 1024 := by norm_num

theorem SSVector.magnitude_fin_mid {k : ℕ} {x y z : ℝ} (hk : k ≤ 510) (hx : Double.Mid k x)
    (hy : Double.Mid k y) (hz : Double.Mid k z) :
    (SSVector.mk (.fin x) (.fin y) (.fin z)).magnitude
      = .fin (Real.sqrt (x * x + y * y + z * z)) :=
  SSVector.magnitude_fin ((hx.mul hx).inRange (by omega)) ((hy.mul hy).inRange (by omega))
    ((hz.mul hz).inRange (by omega)) (Double.Mid.sum_squares_lt hk hx hy hz).2

/-- The magnitude of a vector whose components are zero or of magnitude between `2^(-k)`
and `2^k` is zero or between `2^(-(k+1))` and `2^(k+1)`, and positive unless the vector is
the zero vector. -/
theorem Double.Mid.sqrt_sum_squares {k : ℕ} {x y z : ℝ} (hk : k ≤ 510) (hx : Double.Mid k x)
    (hy : Double.Mid k y) (hz : Double.Mid k z) :
    Double.Mid (k + 1) (Real.sqrt (x * x + y * y + z * z)) ∧
    (¬ (x = 0 ∧ y = 0 ∧ z = 0) → 0 < Real.sqrt (x * x + y * y + z * z)) := by
  have hnn : 0 ≤ x * x + y * y + z * z :=
    add_nonneg (add_nonneg (mul_self_nonneg x) (mul_self_nonneg y)) (mul_self_nonneg z)
  by_cases hv : x = 0 ∧ y = 0 ∧ z = 0
  · obtain ⟨rfl, rfl, rfl⟩ := hv
    refine ⟨Or.inl ?_, fun h => absurd ⟨rfl, rfl, rfl⟩ h⟩
    rw [mul_zero, add_zero, add_zero, Real.sqrt_zero]
  have h3 := (Double.Mid.sum_squares_lt hk hx hy hz).1
  -- a non-zero component bounds the magnitude from below
  have hc : ∃ c : ℝ, c ≠ 0 ∧ Double.Mid k c ∧ c * c ≤ x * x + y * y + z * z := by
    by_cases h1 : x = 0
    · by_cases h2 : y = 0
      · have h3 : z ≠ 0 := fun h3 => hv ⟨h1, h2, h3⟩
        exact ⟨z, h3, hz, by nlinarith [mul_self_nonneg x, mul_self_nonneg y]⟩
      · exact ⟨y, h2, hy, by nlinarith [mul_self_nonneg x, mul_self_nonneg z]⟩
    · exact ⟨x, h1, hx, by nlinarith [mul_self_nonneg y, mul_self_nonneg z]⟩
  generalize x * x + y * y + z * z = S at hnn h3 hc ⊢
  obtain ⟨c, hc0, hcm, hcS⟩ := hc
  have hm : 0 < Real.sqrt S :=
    Real.sqrt_pos.mpr (lt_of_lt_of_le (mul_self_pos.mpr hc0) hcS)
  have hlow : 1 / (2 : ℝ) ^ k ≤ Real.sqrt S := by
    rcases hcm with h | ⟨h, _⟩
    · exact absurd h hc0
    · exact le_trans h (Real.abs_le_sqrt (by rw [sq]; exact hcS))
  have hup : Real.sqrt S ≤ (2 : ℝ) ^ (k + 1) := by
    have hsq : ((2 : ℝ) ^ (k + 1)) ^ 2 = 4 * (2 : ℝ) ^ (k + k) := by ring
    have hp : 0 < (2 : ℝ) ^ (k + k) := by positivity
    have : S ≤ ((2 : ℝ) ^ (k + 1)) ^ 2 := by
      rw [hsq]
      linarith
    calc Real.sqrt S ≤ Real.sqrt (((2 : ℝ) ^ (k + 1)) ^ 2) := Real.sqrt_le_sqrt this
      _ = (2 : ℝ) ^ (k + 1) := Real.sqrt_sq (by positivity)
  refine ⟨Or.inr ⟨?_, ?_⟩, fun _ => hm⟩
  · rw [abs_of_pos hm]
    refine le_trans ?_ hlow
    exact one_div_le_one_div_of_le (by positivity)
      (pow_le_pow_right₀ (by norm_num) (Nat.le_succ k))
  · rw [abs_of_pos hm]
    exact hup

/-- A vector that is not the zero vector and whose components are zero or of magnitude
between `2^(-250)` and `2^250` has a positive magnitude, and divided by it a vector of
magnitude 1. -/
theorem SSVector.divideBy_magnitude_unit {x y z : ℝ} (hx : Double.Mid 250 x)
    (hy : Double.Mid 250 y) (hz : Double.Mid 250 z) (hv : ¬ (x = 0 ∧ y = 0 ∧ z = 0)) :
    (SSVector.mk (.fin x) (.fin y) (.fin z)).magnitude
      = .fin (Real.sqrt (x * x + y * y + z * z)) ∧
    0 < Real.sqrt (x * x + y * y + z * z) ∧
    ((SSVector.mk (.fin x) (.fin y) (.fin z)).divideBy
      (.fin (Real.sqrt (x * x + y * y + z * z)))).magnitude = .fin 1 := by
  have hmag := SSVector.magnitude_fin_mid (by norm_num : 250 ≤ 510) hx hy hz
  obtain ⟨hmid, hpos⟩ := Double.Mid.sqrt_sum_squares (by norm_num : 250 ≤ 510) hx hy hz
  have hm := hpos hv
  have hnn : 0 ≤ x * x + y * y + z * z :=
    add_nonneg (add_nonneg (mul_self_nonneg x) (mul_self_nonneg y)) (mul_self_nonneg z)
  refine ⟨hmag, hm, ?_⟩
  generalize hS : x * x + y * y + z * z = S at hm hnn hmid
  have hq : ∀ c : ℝ, Double.Mid 250 c →
      (Double.fin c / Double.fin (Real.sqrt S) : Double) = .fin (c / Real.sqrt S) ∧
        Double.Mid 501 (c / Real.sqrt S) := fun c hc =>
    ⟨Double.fin_div_fin hm.ne' ((hc.div hmid).inRange (by norm_num)), hc.div hmid⟩
  show (SSVector.mk (Double.fin x / Double.fin (Real.sqrt S))
    (Double.fin y / Double.fin (Real.sqrt S))
    (Double.fin z / Double.fin (Real.sqrt S))).magnitude = .fin 1
  rw [(hq x hx).1, (hq y hy).1, (hq z hz).1,
    SSVector.magnitude_fin_mid (by norm_num : 501 ≤ 510) (hq x hx).2 (hq y hy).2 (hq z hz).2]
  congr 1
  have hsq : Real.sqrt S * Real.sqrt S = S := Real.mul_self_sqrt hnn
  have hSpos : 0 < S := Real.sqrt_pos.mp hm
  have : x / Real.sqrt S * (x / Real.sqrt S) + y / Real.sqrt S * (y / Real.sqrt S)
      + z / Real.sqrt S * (z / Real.sqrt S) = 1 := by
    field_simp
    exact hS
  rw [this, Real.sqrt_one]

/-- The magnitude of a finite vector is computed as `+inf` when the square of its first
component overflows. -/
theorem SSVector.magnitude_pinf {x y z : ℝ} (h : (2 : ℝ) ^ 1024 ≤ x * x) :
    (SSVector.mk (.fin x) (.fin y) (.fin z)).magnitude = .pinf := by
  have hsq : ∀ r : ℝ, Double.ofReal (r * r) = .pinf ∨ ∃ t, Double.ofReal (r * r) = .fin t := by
    intro r
    unfold Double.ofReal
    by_cases h1 : (2 : ℝ) ^ 1024 ≤ r * r
    · exact Or.inl (if_pos h1)
    · have h2 : ¬ r * r ≤ -(2 : ℝ) ^ 1024 := by
        have := mul_self_nonneg r
        have hp : (0 : ℝ) < (2 : ℝ) ^ 1024 := by positivity
        intro h
        linarith
      rw [if_neg h1, if_neg h2]
      by_cases h3 : |r * r| < 1 / (2 : ℝ) ^ 1075
      · exact Or.inr ⟨0, if_pos h3⟩
      · exact Or.inr ⟨r * r, if_neg h3⟩
  have hx : Double.ofReal (x * x) = .pinf := by
    unfold Double.ofReal
    rw [if_pos h]
  show Double.sqrt (Double.ofReal (x * x) + Double.ofReal (y * y) + Double.ofReal (z * z)) = _
  rw [hx]
  rcases hsq y with hy | ⟨t, hy⟩ <;> rcases hsq z with hz | ⟨u, hz⟩ <;> rw [hy, hz] <;> rfl

/-! ### C9 -/

/-- Claim C9 as stated fails: the square of a component overflows or underflows.  The
vector `(1e200, 0, 0)` has finite components and is not the zero vector, its magnitude is
computed as `+inf` and `normalize` returns `(0,0,0)`; the vector `(1e-200, 0, 0)` has its
magnitude computed as 0 and `normalize` returns `(0,0,0)` as well. -/
theorem normalize_unit_counterexample :
    (SSVector.mk (.fin ((10 : ℝ) ^ 200)) (.fin 0) (.fin 0)).normalizeMag
      = (⟨.fin 0, .fin 0, .fin 0⟩, .pinf) ∧
    (SSVector.mk (.fin ((10 : ℝ) ^ 200)) (.fin 0) (.fin 0)).normalizeMag.1.magnitude
      ≠ .fin 1 ∧
    (SSVector.mk (.fin (1 / (10 : ℝ) ^ 200)) (.fin 0) (.fin 0)).normalizeMag
      = (⟨.fin 0, .fin 0, .fin 0⟩, .fin 0) := by
  have hbig : (Double.fin ((10 : ℝ) ^ 200) * Double.fin ((10 : ℝ) ^ 200) : Double) = .pinf := by
    show Double.ofReal ((10 : ℝ) ^ 200 * (10 : ℝ) ^ 200) = .pinf
    unfold Double.ofReal
    rw [if_pos (by norm_num)]
  have hsmall : (Double.fin (1 / (10 : ℝ) ^ 200) * Double.fin (1 / (10 : ℝ) ^ 200) : Double)
      = .fin 0 := by
    show Double.ofReal (1 / (10 : ℝ) ^ 200 * (1 / (10 : ℝ) ^ 200)) = .fin 0
    unfold Double.ofReal
    rw [if_neg (by norm_num), if_neg (by norm_num),
      if_pos (by rw [abs_of_pos (by positivity)]; norm_num)]
  have h00 : (Double.fin 0 * Double.fin 0 : Double) = .fin 0 := by
    show Double.ofReal (0 * 0) = .fin 0
    rw [mul_zero]
    exact Double.ofReal_zero
  have h0p0 : (Double.fin 0 + Double.fin 0 : Double) = .fin 0 := by
    show Double.ofReal (0 + 0) = .fin 0
    rw [add_zero]
    exact Double.ofReal_zero
  have hm1 : (SSVector.mk (.fin ((10 : ℝ) ^ 200)) (.fin 0) (.fin 0)).magnitude = .pinf := by
    show Double.sqrt (Double.fin ((10 : ℝ) ^ 200) * Double.fin ((10 : ℝ) ^ 200)
      + Double.fin 0 * Double.fin 0 + Double.fin 0 * Double.fin 0) = .pinf
    rw [hbig, h00]
    rfl
  have hm2 : (SSVector.mk (.fin (1 / (10 : ℝ) ^ 200)) (.fin 0) (.fin 0)).magnitude = .fin 0 := by
    show Double.sqrt (Double.fin (1 / (10 : ℝ) ^ 200) * Double.fin (1 / (10 : ℝ) ^ 200)
      + Double.fin 0 * Double.fin 0 + Double.fin 0 * Double.fin 0) = .fin 0
    rw [hsmall, h00, h0p0, h0p0, Double.sqrt_fin 0 le_rfl, Real.sqrt_zero]
  have h1 : (SSVector.mk (.fin ((10 : ℝ) ^ 200)) (.fin 0) (.fin 0)).normalizeMag
      = (⟨.fin 0, .fin 0, .fin 0⟩, .pinf) := by
    unfold SSVector.normalizeMag
    simp only [hm1]
    rw [if_pos (show Double.gt Double.pinf (.fin 0) from trivial)]
    rfl
  have h2 : (SSVector.mk (.fin (1 / (10 : ℝ) ^ 200)) (.fin 0) (.fin 0)).normalizeMag
      = (⟨.fin 0, .fin 0, .fin 0⟩, .fin 0) := by
    unfold SSVector.normalizeMag
    simp only [hm2]
    rw [if_neg (show ¬ Double.gt (Double.fin 0) (.fin 0) from lt_irrefl (0 : ℝ))]
  refine ⟨h1, ?_, h2⟩
  rw [h1]
  show Double.sqrt (Double.fin 0 * Double.fin 0 + Double.fin 0 * Double.fin 0
    + Double.fin 0 * Double.fin 0) ≠ .fin 1
  rw [h00, h0p0, h0p0, Double.sqrt_fin 0 le_rfl, Real.sqrt_zero]
  intro h
  have := Double.fin.inj h
  norm_num at this

/-- Claim C9, amended. For every vector `v` whose components are each zero or of magnitude
between `2^(-250)` and `2^250`, `SSVector::normalize` returns a vector of magnitude 1 when
`v` is not the zero vector and `(0,0,0)` when `v` is the zero vector; and for every vector
the magnitude it reports is `v.magnitude()`.  The method assigns no member of `v`, which
the embedding takes by value.  In that range no square, sum or quotient overflows or
underflows; the rounding of the significand is not modelled. -/
theorem normalize_unit_or_zero (x y z : ℝ) (hx : Double.Mid 250 x) (hy : Double.Mid 250 y)
    (hz : Double.Mid 250 z) :
    (¬ (x = 0 ∧ y = 0 ∧ z = 0) →
      (SSVector.mk (.fin x) (.fin y) (.fin z)).normalizeMag.1.magnitude = .fin 1) ∧
    ((x = 0 ∧ y = 0 ∧ z = 0) →
      (SSVector.mk (.fin x) (.fin y) (.fin z)).normalizeMag.1
        = SSVector.mk (.fin 0) (.fin 0) (.fin 0)) ∧
    (∀ v : SSVector, v.normalizeMag.2 = v.magnitude ∧ v.normalize = v.normalizeMag.1) := by
  refine ⟨fun hv => ?_, fun hv => ?_, fun v => ⟨?_, rfl⟩⟩
  · obtain ⟨hmag, hm, hunit⟩ := SSVector.divideBy_magnitude_unit hx hy hz hv
    have hgt : Double.gt (.fin (Real.sqrt (x * x + y * y + z * z))) (.fin 0) := hm
    unfold SSVector.normalizeMag
    simp only [hmag, if_pos hgt]
    exact hunit
  · dsimp only [SSVector.normalizeMag]
    split <;> first | rfl | skip
    rename_i h
    exfalso
    obtain ⟨rfl, rfl, rfl⟩ := hv
    rw [SSVector.magnitude_fin_mid (by norm_num : 250 ≤ 510) hx hy hz] at h
    have : (0 : ℝ) < Real.sqrt (0 * 0 + 0 * 0 + 0 * 0) := h
    simp at this
  · dsimp only [SSVector.normalizeMag]
    split <;> rfl

/-- Witness for the amended C9: the vector `(3, 0, 4)` normalizes to a vector of
magnitude 1. -/
theorem normalize_unit_or_zero_witness :
    Double.Mid 250 3 ∧ Double.Mid 250 0 ∧ Double.Mid 250 4 ∧
    ¬ ((3 : ℝ) = 0 ∧ (0 : ℝ) = 0 ∧ (4 : ℝ) = 0) ∧
    (SSVector.mk (.fin 3) (.fin 0) (.fin 4)).normalizeMag.1.magnitude = .fin 1 :=
  have h3 : Double.Mid 250 3 := Double.Mid.of_pos (by norm_num) (by norm_num)
  have h4 : Double.Mid 250 4 := Double.Mid.of_pos (by norm_num) (by norm_num)
  ⟨h3, Double.Mid.zero 250, h4, by norm_num,
    (normalize_unit_or_zero 3 0 4 h3 (Double.Mid.zero 250) h4).1 (by norm_num)⟩

/-! ### Evaluating the arithmetic at 0 and 1 -/

namespace Double

theorem mul_def (a b : ℝ) : (fin a * fin b : Double) = ofReal (a * b) := rfl

theorem add_def (a b : ℝ) : (fin a + fin b : Double) = ofReal (a + b) := rfl

theorem sub_def (a b : ℝ) : (fin a - fin b : Double) = ofReal (a - b) := by
  show ofReal (a + -b) = ofReal (a - b)
  rw [← sub_eq_add_neg]

/-- A positive real between `2^(-1075)` and `2^1024` is stored unchanged. -/
theorem ofReal_of_pos {r : ℝ} (hlo : 1 / (2 : ℝ) ^ 1075 ≤ r) (hhi : r < (2 : ℝ) ^ 1024) :
    ofReal r = fin r := by
  have hpos : 0 < r := lt_of_lt_of_le (by positivity) hlo
  exact ofReal_eq_fin ⟨by rwa [abs_of_pos hpos], Or.inr (by rwa [abs_of_pos hpos])⟩

/-- The values of the arithmetic at 0, 1 and -1. -/
theorem ofReal_units :
    ofReal 0 = fin 0 ∧ ofReal 1 = fin 1 ∧ ofReal (-1) = fin (-1) ∧
    cos (fin 0) = fin 1 ∧ sin (fin 0) = fin 0 := by
  have h1 : ofReal 1 = fin 1 := ofReal_of_pos (by norm_num) (by norm_num)
  have hm1 : ofReal (-1) = fin (-1) :=
    ofReal_eq_fin ⟨by rw [abs_neg, abs_one]; norm_num,
      Or.inr (by rw [abs_neg, abs_one]; norm_num)⟩
  refine ⟨ofReal_zero, h1, hm1, ?_, ?_⟩
  · show ofReal (Real.cos 0) = fin 1
    rw [Real.cos_zero, h1]
  · show ofReal (Real.sin 0) = fin 0
    rw [Real.sin_zero, ofReal_zero]

theorem asin_fin {a : ℝ} (h : -1 ≤ a ∧ a ≤ 1) : asin (fin a) = fin (Real.arcsin a) := by
  show (if -1 ≤ a ∧ a ≤ 1 then fin (Real.arcsin a) else nan) = _
  rw [if_pos h]

end Double

/-! ### C10 -/

/-- Claim C10 fails on the code: `SSVector::angularSeparation` takes the arcsine of the dot
product, so for the unit vector `u = (1,0,0)` it gives `π/2` for `(u, u)`, not 0, and
`-π/2` for `(u, -u)`, not `π`; `SSSpherical::angularSeparation` gives `π/2` for the point
at longitude 0, latitude 0, radius 1 and itself. -/
theorem angularSeparation_of_unit_x :
    (SSVector.mk (.fin 1) (.fin 0) (.fin 0)).angularSeparation
        (SSVector.mk (.fin 1) (.fin 0) (.fin 0)) = .fin (Real.pi / 2) ∧
    (SSVector.mk (.fin 1) (.fin 0) (.fin 0)).angularSeparation
        (SSVector.mk (.fin 1) (.fin 0) (.fin 0)) ≠ .fin 0 ∧
    (SSVector.mk (.fin 1) (.fin 0) (.fin 0)).angularSeparation
        (SSVector.mk (.fin (-1)) (.fin 0) (.fin 0)) = .fin (-(Real.pi / 2)) ∧
    (SSVector.mk (.fin 1) (.fin 0) (.fin 0)).angularSeparation
        (SSVector.mk (.fin (-1)) (.fin 0) (.fin 0)) ≠ .fin Real.pi ∧
    (SSSpherical.mk (.fin 0) (.fin 0) (.fin 1)).angularSeparation
        (SSSpherical.mk (.fin 0) (.fin 0) (.fin 1)) = .fin (Real.pi / 2) := by
  obtain ⟨e0, e1, em1, ec, es⟩ := Double.ofReal_units
  have h1 : (SSVector.mk (.fin 1) (.fin 0) (.fin 0)).angularSeparation
      (SSVector.mk (.fin 1) (.fin 0) (.fin 0)) = .fin (Real.pi / 2) := by
    dsimp only [SSVector.angularSeparation, SSVector.dotProduct]
    simp only [Double.mul_def, Double.add_def, mul_one, mul_zero, add_zero, e0, e1]
    rw [Double.asin_fin (by norm_num), Real.arcsin_one]
  have h2 : (SSVector.mk (.fin 1) (.fin 0) (.fin 0)).angularSeparation
      (SSVector.mk (.fin (-1)) (.fin 0) (.fin 0)) = .fin (-(Real.pi / 2)) := by
    dsimp only [SSVector.angularSeparation, SSVector.dotProduct]
    simp only [Double.mul_def, Double.add_def, one_mul, mul_zero, add_zero, e0, em1]
    rw [Double.asin_fin (by norm_num), Real.arcsin_neg_one]
  refine ⟨h1, ?_, h2, ?_, ?_⟩
  · rw [h1]
    intro h
    have := Double.fin.inj h
    linarith [Real.pi_pos]
  · rw [h2]
    intro h
    have := Double.fin.inj h
    linarith [Real.pi_pos]
  · dsimp only [SSSpherical.angularSeparation, SSVector.ofSpherical, SSVector.angularSeparation,
      SSVector.dotProduct]
    simp only [ec, es, Double.mul_def, Double.add_def, mul_one, mul_zero, add_zero, e0, e1]
    rw [Double.asin_fin (by norm_num), Real.arcsin_one]

/-! ### C13 -/

/-- Claim C13. For every position vector whose x and y components are both zero (the zero
vector included) and every velocity vector, `SSVectorToSphericalMotion` takes the branch
that divides nothing and returns the fallback: longitude rate 0 and latitude rate 0 (with
radial rate, longitude and latitude 0 as well, and the magnitude as radius). -/
theorem SSVectorToSphericalMotion_zero_xy (posVec velVec : SSVector)
    (hx : Double.eq posVec.x (.fin 0)) (hy : Double.eq posVec.y (.fin 0)) :
    (SSVectorToSphericalMotion posVec velVec).2.lon = .fin 0 ∧
    (SSVectorToSphericalMotion posVec velVec).2.lat = .fin 0 ∧
    SSVectorToSphericalMotion posVec velVec
      = (⟨.fin 0, .fin 0, posVec.magnitude⟩, ⟨.fin 0, .fin 0, .fin 0⟩) := by
  have h : SSVectorToSphericalMotion posVec velVec
      = (⟨.fin 0, .fin 0, posVec.magnitude⟩, ⟨.fin 0, .fin 0, .fin 0⟩) := by
    unfold SSVectorToSphericalMotion
    simp only []
    rw [if_pos (Or.inr ⟨hx, hy⟩)]
  rw [h]
  exact ⟨rfl, rfl, rfl⟩

/-- Witness for C13: the zero position vector with the velocity `(1, 2, 3)`. -/
theorem SSVectorToSphericalMotion_zero_xy_witness :
    (SSVectorToSphericalMotion ⟨.fin 0, .fin 0, .fin 0⟩ ⟨.fin 1, .fin 2, .fin 3⟩).2.lon = .fin 0 ∧
    (SSVectorToSphericalMotion ⟨.fin 0, .fin 0, .fin 0⟩ ⟨.fin 1, .fin 2, .fin 3⟩).2.lat = .fin 0 :=
  ⟨(SSVectorToSphericalMotion_zero_xy ⟨.fin 0, .fin 0, .fin 0⟩ ⟨.fin 1, .fin 2, .fin 3⟩
      (show (0 : ℝ) = 0 from rfl) (show (0 : ℝ) = 0 from rfl)).1,
   (SSVectorToSphericalMotion_zero_xy ⟨.fin 0, .fin 0, .fin 0⟩ ⟨.fin 1, .fin 2, .fin 3⟩
      (show (0 : ℝ) = 0 from rfl) (show (0 : ℝ) = 0 from rfl)).2.1⟩

/-! ### C14 -/

/-- Claim C14. For every star whose parallax is zero, or otherwise not positive, and for
every epoch, `SSStar::computeEphemeris` leaves the apparent magnitude equal to the catalog
visual magnitude, the apparent distance `+inf` and the apparent direction equal to the
stored position vector. -/
theorem computeEphemeris_without_parallax (env : Env) (s : SSStar) (dyn : SSDynamics)
    (h : ¬ Double.gt s.parallax (.fin 0)) :
    (s.computeEphemeris env dyn).magnitude = s.Vmag ∧
    (s.computeEphemeris env dyn).distance = Double.pinf ∧
    (s.computeEphemeris env dyn).direction = s.position := by
  unfold SSStar.computeEphemeris
  rw [if_neg h]
  exact ⟨rfl, rfl, rfl⟩

/-- Witness for C14: a freshly constructed star, whose parallax is 0, with its visual
magnitude set to 5, at the epoch J2000 plus one. -/
theorem computeEphemeris_without_parallax_witness :
    ¬ Double.gt ({ SSStar.new refEnv.kTypeStar with Vmag := .fin 5 } : SSStar).parallax (.fin 0) ∧
    (({ SSStar.new refEnv.kTypeStar with Vmag := .fin 5 } : SSStar).computeEphemeris refEnv
      ⟨.fin 2451546⟩).magnitude = .fin 5 ∧
    (({ SSStar.new refEnv.kTypeStar with Vmag := .fin 5 } : SSStar).computeEphemeris refEnv
      ⟨.fin 2451546⟩).distance = Double.pinf :=
  have h : ¬ Double.gt ({ SSStar.new refEnv.kTypeStar with Vmag := .fin 5 } : SSStar).parallax
      (.fin 0) := fun hgt => absurd (show (0 : ℝ) < 0 from hgt) (lt_irrefl 0)
  ⟨h, (computeEphemeris_without_parallax refEnv _ ⟨.fin 2451546⟩ h).1,
    (computeEphemeris_without_parallax refEnv _ ⟨.fin 2451546⟩ h).2.1⟩

/-! ### C17 -/

/-- Claim C17. For every spherical coordinate passed to `SSStar::setFundamentalCoords` the
stored parallax is 0 when the radius is infinite and `kLYPerParsec / radius` otherwise;
and when the resulting parallax is non-positive or the radius is infinite the stored
position is the unit-radius vector `(cos lat cos lon, cos lat sin lon, sin lat)`,
otherwise it is the rectangular vector of the given coordinates with their own radius. -/
theorem setFundamentalCoords_parallax_and_position (env : Env) (s : SSStar)
    (coords : SSSpherical) :
    (coords.rad.isinf = true → (s.setFundamentalCoords env coords).parallax = .fin 0) ∧
    (coords.rad.isinf = false →
      (s.setFundamentalCoords env coords).parallax = env.kLYPerParsec / coords.rad) ∧
    ((Double.le (s.setFundamentalCoords env coords).parallax (.fin 0) ∨
        coords.rad.isinf = true) →
      (s.setFundamentalCoords env coords).position =
        ⟨Double.cos coords.lat * Double.cos coords.lon,
         Double.cos coords.lat * Double.sin coords.lon,
         Double.sin coords.lat⟩) ∧
    (¬ (Double.le (s.setFundamentalCoords env coords).parallax (.fin 0) ∨
        coords.rad.isinf = true) →
      (s.setFundamentalCoords env coords).position =
        ⟨coords.rad * Double.cos coords.lat * Double.cos coords.lon,
         coords.rad * Double.cos coords.lat * Double.sin coords.lon,
         coords.rad * Double.sin coords.lat⟩) := by
  refine ⟨fun h => ?_, fun h => ?_, fun h => ?_, fun h => ?_⟩
  · dsimp only [SSStar.setFundamentalCoords]
    simp [h]
  · dsimp only [SSStar.setFundamentalCoords]
    simp [h]
  · have h' : Double.le (if coords.rad.isinf = true then Double.fin 0
        else env.kLYPerParsec / coords.rad) (.fin 0) ∨ coords.rad.isinf = true := h
    dsimp only [SSStar.setFundamentalCoords, SSSpherical.toVectorPosition, SSVector.ofSpherical]
    simp only [if_pos h', Double.fin_one_mul_cos, Double.fin_one_mul_sin]
  · have h' : ¬ (Double.le (if coords.rad.isinf = true then Double.fin 0
        else env.kLYPerParsec / coords.rad) (.fin 0) ∨ coords.rad.isinf = true) := h
    dsimp only [SSStar.setFundamentalCoords, SSSpherical.toVectorPosition, SSVector.ofSpherical]
    simp only [if_neg h']

/-- Witness for C17: in the reference environment the coordinates `(0, 0, +inf)` store
parallax 0 and the unit vector of their direction. -/
theorem setFundamentalCoords_parallax_and_position_witness :
    ((SSStar.new refEnv.kTypeStar).setFundamentalCoords refEnv
      ⟨.fin 0, .fin 0, .pinf⟩).parallax = .fin 0 ∧
    ((SSStar.new refEnv.kTypeStar).setFundamentalCoords refEnv
      ⟨.fin 0, .fin 0, .pinf⟩).position =
        ⟨Double.cos (.fin 0) * Double.cos (.fin 0), Double.cos (.fin 0) * Double.sin (.fin 0),
         Double.sin (.fin 0)⟩ :=
  ⟨(setFundamentalCoords_parallax_and_position refEnv (SSStar.new refEnv.kTypeStar)
      ⟨.fin 0, .fin 0, .pinf⟩).1 rfl,
   (setFundamentalCoords_parallax_and_position refEnv (SSStar.new refEnv.kTypeStar)
      ⟨.fin 0, .fin 0, .pinf⟩).2.2.1 (Or.inr rfl)⟩

/-! ### C18 -/

/-- Claim C18. For every coordinates and motion passed to `SSStar::setFundamentalMotion`
the stored radial velocity is `motion.rad` exactly as given, the `+inf` sentinel
included, and a following `getFundamentalMotion().rad` returns it; the radial rate used
to derive the velocity vector is 0 whenever `motion.rad` is infinite or the parallax is
non-positive, and `motion.rad` otherwise. -/
theorem setFundamentalMotion_radial_velocity (env : Env) (s : SSStar)
    (coords motion : SSSpherical) :
    (s.setFundamentalMotion env coords motion).radvel = motion.rad ∧
    (s.setFundamentalMotion env coords motion).getFundamentalMotion.rad = motion.rad ∧
    ((motion.rad.isinf = true ∨
        Double.le (s.setFundamentalMotion env coords motion).parallax (.fin 0)) →
      (s.setFundamentalMotion env coords motion).velocity =
        (if Double.le (s.setFundamentalMotion env coords motion).parallax (.fin 0)
          then { coords with rad := .fin 1 } else coords).toVectorVelocity
            ⟨motion.lon, motion.lat, .fin 0⟩) ∧
    (¬ (motion.rad.isinf = true ∨
        Double.le (s.setFundamentalMotion env coords motion).parallax (.fin 0)) →
      (s.setFundamentalMotion env coords motion).velocity =
        coords.toVectorVelocity motion) := by
  have hpar : (s.setFundamentalMotion env coords motion).parallax
      = (if coords.rad.isinf = true then Double.fin 0 else env.kLYPerParsec / coords.rad) := rfl
  rw [hpar]
  have hvel : (s.setFundamentalMotion env coords motion).velocity
      = (if Double.le
            (if coords.rad.isinf = true then Double.fin 0 else env.kLYPerParsec / coords.rad)
            (.fin 0) then ({ coords with rad := .fin 1 } : SSSpherical)
          else coords).toVectorVelocity
          (if (if Double.le
                (if coords.rad.isinf = true then Double.fin 0
                  else env.kLYPerParsec / coords.rad)
                (.fin 0) then ({ motion with rad := .fin 0 } : SSSpherical)
              else motion).rad.isinf = true
            then { (if Double.le
                (if coords.rad.isinf = true then Double.fin 0
                  else env.kLYPerParsec / coords.rad)
                (.fin 0) then ({ motion with rad := .fin 0 } : SSSpherical)
              else motion) with rad := .fin 0 }
            else (if Double.le
                (if coords.rad.isinf = true then Double.fin 0
                  else env.kLYPerParsec / coords.rad)
                (.fin 0) then ({ motion with rad := .fin 0 } : SSSpherical)
              else motion)) := rfl
  refine ⟨rfl, rfl, ?_, ?_⟩
  all_goals rw [hvel]
  all_goals generalize (if coords.rad.isinf = true then Double.fin 0
    else env.kLYPerParsec / coords.rad) = P
  · intro h
    by_cases hp : Double.le P (.fin 0)
    · simp only [if_pos hp]
      have h0 : (Double.fin 0).isinf = false := rfl
      simp only [h0, Bool.false_eq_true, if_false]
    · simp only [if_neg hp]
      have hi : motion.rad.isinf = true := h.resolve_right hp
      simp only [hi, if_true]
  · intro h
    have hp : ¬ Double.le P (.fin 0) := fun hp => h (Or.inr hp)
    have hi : ¬ motion.rad.isinf = true := fun hi => h (Or.inl hi)
    simp only [if_neg hp, if_neg hi]

/-- Witness for C18: in the reference environment a motion with unknown radial velocity
keeps the `+inf` sentinel in the stored field. -/
theorem setFundamentalMotion_radial_velocity_witness :
    ((SSStar.new refEnv.kTypeStar).setFundamentalMotion refEnv ⟨.fin 0, .fin 0, .fin 1⟩
      ⟨.fin 0, .fin 0, .pinf⟩).radvel = .pinf ∧
    ((SSStar.new refEnv.kTypeStar).setFundamentalMotion refEnv ⟨.fin 0, .fin 0, .fin 1⟩
      ⟨.fin 0, .fin 0, .pinf⟩).velocity =
        (if Double.le ((SSStar.new refEnv.kTypeStar).setFundamentalMotion refEnv
            ⟨.fin 0, .fin 0, .fin 1⟩ ⟨.fin 0, .fin 0, .pinf⟩).parallax (.fin 0)
          then ({ (⟨.fin 0, .fin 0, .fin 1⟩ : SSSpherical) with rad := .fin 1 } : SSSpherical)
          else ⟨.fin 0, .fin 0, .fin 1⟩).toVectorVelocity ⟨.fin 0, .fin 0, .fin 0⟩ :=
  ⟨(setFundamentalMotion_radial_velocity refEnv (SSStar.new refEnv.kTypeStar)
      ⟨.fin 0, .fin 0, .fin 1⟩ ⟨.fin 0, .fin 0, .pinf⟩).1,
   (setFundamentalMotion_radial_velocity refEnv (SSStar.new refEnv.kTypeStar)
      ⟨.fin 0, .fin 0, .fin 1⟩ ⟨.fin 0, .fin 0, .pinf⟩).2.2.1 (Or.inl rfl)⟩

/-! ### C20 -/

/-- Claim C20. Every variant constructor fixes the type discriminator (star, variable
star, double star, double-variable star, or the given deep-sky type) and sets every other
field to its unknown value: empty identifier and name lists, empty spectral type,
parallax 0, radial velocity, both magnitudes and every position and velocity component
`+inf`, and every variant-fragment field `+inf` or the empty string; the double-variable
constructor yields `kTypeDoubleVariableStar` with both fragments unknown. -/
theorem constructors_set_unknown (env : Env) :
    SSObject.newStar env = .star
      { type := env.kTypeStar, names := [], idents := [], parallax := .fin 0,
        radvel := .pinf, position := ⟨.pinf, .pinf, .pinf⟩, velocity := ⟨.pinf, .pinf, .pinf⟩,
        Vmag := .pinf, Bmag := .pinf, spectrum := [] } ∧
    SSObject.newVariableStar env = .variableStar
      { type := env.kTypeVariableStar, names := [], idents := [], parallax := .fin 0,
        radvel := .pinf, position := ⟨.pinf, .pinf, .pinf⟩, velocity := ⟨.pinf, .pinf, .pinf⟩,
        Vmag := .pinf, Bmag := .pinf, spectrum := [] }
      { varType := [], varMaxMag := .pinf, varMinMag := .pinf, varPeriod := .pinf,
        varEpoch := .pinf } ∧
    SSObject.newDoubleStar env = .doubleStar
      { type := env.kTypeDoubleStar, names := [], idents := [], parallax := .fin 0,
        radvel := .pinf, position := ⟨.pinf, .pinf, .pinf⟩, velocity := ⟨.pinf, .pinf, .pinf⟩,
        Vmag := .pinf, Bmag := .pinf, spectrum := [] }
      { comps := [], magDelta := .pinf, sep := .pinf, PA := .pinf, PAyr := .pinf } ∧
    SSObject.newDoubleVariableStar env = .doubleVariableStar
      { type := env.kTypeDoubleVariableStar, names := [], idents := [], parallax := .fin 0,
        radvel := .pinf, position := ⟨.pinf, .pinf, .pinf⟩, velocity := ⟨.pinf, .pinf, .pinf⟩,
        Vmag := .pinf, Bmag := .pinf, spectrum := [] }
      { comps := [], magDelta := .pinf, sep := .pinf, PA := .pinf, PAyr := .pinf }
      { varType := [], varMaxMag := .pinf, varMinMag := .pinf, varPeriod := .pinf,
        varEpoch := .pinf } ∧
    (∀ type : SSObjectType, SSObject.newDeepSky type = .deepSky
      { type := type, names := [], idents := [], parallax := .fin 0,
        radvel := .pinf, position := ⟨.pinf, .pinf, .pinf⟩, velocity := ⟨.pinf, .pinf, .pinf⟩,
        Vmag := .pinf, Bmag := .pinf, spectrum := [] }
      { majAxis := .pinf, minAxis := .pinf, PA := .pinf }) ∧
    (SSObject.newStar env).type = env.kTypeStar ∧
    (SSObject.newVariableStar env).type = env.kTypeVariableStar ∧
    (SSObject.newDoubleStar env).type = env.kTypeDoubleStar ∧
    (SSObject.newDoubleVariableStar env).type = env.kTypeDoubleVariableStar ∧
    (∀ type : SSObjectType, (SSObject.newDeepSky type).type = type) :=
  ⟨rfl, rfl, rfl, rfl, fun _ => rfl, rfl, rfl, rfl, rfl, fun _ => rfl⟩

/-! ### C12 -/

/-- Claim C12 fails on the code: for the position `(lon, lat, rad) = (0, 0, 1)` and the
motion `(vlon, vlat, vrad) = (0, 1, 0)` the time derivative of `z = rad sin lat` is
`rad cos lat vlat + sin lat vrad = 1`, while `SSSphericalToVectorMotion` computes
`rad cos lat vrad + sin lat vrad = 0`. -/
theorem SSSphericalToVectorMotion_z_rate :
    (SSSphericalToVectorMotion ⟨.fin 0, .fin 0, .fin 1⟩ ⟨.fin 0, .fin 1, .fin 0⟩).2.z = .fin 0 ∧
    (.fin 1 * Double.cos (.fin 0) * .fin 1 + Double.sin (.fin 0) * .fin 0 : Double) = .fin 1 ∧
    (SSSphericalToVectorMotion ⟨.fin 0, .fin 0, .fin 1⟩ ⟨.fin 0, .fin 1, .fin 0⟩).2.z
      ≠ (.fin 1 * Double.cos (.fin 0) * .fin 1 + Double.sin (.fin 0) * .fin 0 : Double) := by
  obtain ⟨e0, e1, _, ec, es⟩ := Double.ofReal_units
  have h1 : (SSSphericalToVectorMotion ⟨.fin 0, .fin 0, .fin 1⟩
      ⟨.fin 0, .fin 1, .fin 0⟩).2.z = .fin 0 := by
    dsimp only [SSSphericalToVectorMotion]
    simp only [ec, es, Double.mul_def, Double.add_def, mul_one, mul_zero, add_zero, e0, e1]
  have h2 : (.fin 1 * Double.cos (.fin 0) * .fin 1 + Double.sin (.fin 0) * .fin 0 : Double)
      = .fin 1 := by
    simp only [ec, es, Double.mul_def, Double.add_def, mul_one, mul_zero, add_zero, e0, e1]
  refine ⟨h1, h2, ?_⟩
  rw [h1, h2]
  intro h
  have := Double.fin.inj h
  norm_num at this

/-- The x and y rates of `SSSphericalToVectorMotion` are the time derivatives of
`x = rad cos lat cos lon` and `y = rad cos lat sin lon`, as C12 states them. -/
theorem SSSphericalToVectorMotion_xy_rates (posSph velSph : SSSpherical) :
    (SSSphericalToVectorMotion posSph velSph).2.x =
      posSph.rad * (-Double.cos posSph.lat * Double.sin posSph.lon * velSph.lon
          - Double.cos posSph.lon * Double.sin posSph.lat * velSph.lat)
        + Double.cos posSph.lon * Double.cos posSph.lat * velSph.rad ∧
    (SSSphericalToVectorMotion posSph velSph).2.y =
      posSph.rad * (Double.cos posSph.lon * Double.cos posSph.lat * velSph.lon
          - Double.sin posSph.lon * Double.sin posSph.lat * velSph.lat)
        + Double.cos posSph.lat * Double.sin posSph.lon * velSph.rad :=
  ⟨rfl, rfl⟩

/-! ### Reference stars -/

theorem refEnv_parallax_one : refEnv.kLYPerParsec / Double.fin 1 = Double.fin (326 / 100) := by
  show (if (1 : ℝ) = 0 then Double.signedInf (326 / 100) else Double.ofReal (326 / 100 / 1)) = _
  rw [if_neg one_ne_zero, div_one]
  exact Double.ofReal_of_pos (by norm_num) (by norm_num)

theorem refEnv_parallax_far : refEnv.kLYPerParsec / Double.fin ((10 : ℝ) ^ 200)
    = .fin (326 / 100 / (10 : ℝ) ^ 200) := by
  show (Double.fin (326 / 100) / Double.fin ((10 : ℝ) ^ 200) : Double) = _
  exact Double.fin_div_fin (by positivity)
    ⟨by rw [abs_of_pos (by positivity)]; norm_num,
      Or.inr (by rw [abs_of_pos (by positivity)]; norm_num)⟩

theorem refStarAtRest_parallax : refStarAtRest.parallax = .fin (326 / 100) := by
  show (if (Double.fin 1).isinf = true then Double.fin 0
    else refEnv.kLYPerParsec / Double.fin 1) = _
  rw [refEnv_parallax_one]
  rfl

theorem refStarAtRest_position : refStarAtRest.position = ⟨.fin 1, .fin 0, .fin 0⟩ := by
  obtain ⟨e0, e1, -, ec, es⟩ := Double.ofReal_units
  have hp : ¬ Double.le (if (Double.fin 1).isinf = true then Double.fin 0
      else refEnv.kLYPerParsec / Double.fin 1) (.fin 0) := by
    rw [refEnv_parallax_one]
    exact Double.not_le_fin_zero_of_pos _ (by norm_num)
  show (if Double.le (if (Double.fin 1).isinf = true then Double.fin 0
      else refEnv.kLYPerParsec / Double.fin 1) (.fin 0)
    then ({ (⟨.fin 0, .fin 0, .fin 1⟩ : SSSpherical) with rad := .fin 1 } : SSSpherical)
    else ⟨.fin 0, .fin 0, .fin 1⟩).toVectorPosition = _
  rw [if_neg hp]
  dsimp only [SSSpherical.toVectorPosition, SSVector.ofSpherical]
  simp only [ec, es, Double.mul_def, mul_one, mul_zero, e0, e1]

theorem refStarAtRest_velocity : refStarAtRest.velocity = ⟨.fin 0, .fin 0, .fin 0⟩ := by
  obtain ⟨e0, e1, -, ec, es⟩ := Double.ofReal_units
  have hp : ¬ Double.le (if (Double.fin 1).isinf = true then Double.fin 0
      else refEnv.kLYPerParsec / Double.fin 1) (.fin 0) := by
    rw [refEnv_parallax_one]
    exact Double.not_le_fin_zero_of_pos _ (by norm_num)
  show (if Double.le (if (Double.fin 1).isinf = true then Double.fin 0
      else refEnv.kLYPerParsec / Double.fin 1) (.fin 0)
    then ({ (⟨.fin 0, .fin 0, .fin 1⟩ : SSSpherical) with rad := .fin 1 } : SSSpherical)
    else ⟨.fin 0, .fin 0, .fin 1⟩).toVectorVelocity _ = _
  rw [if_neg hp]
  simp only [if_neg hp]
  dsimp only [SSSpherical.toVectorVelocity, SSSphericalToVectorMotion, Double.isinf]
  simp only [ec, es, Double.neg_fin, Double.mul_def, Double.add_def, Double.sub_def, mul_zero,
    zero_mul, mul_one, sub_zero, add_zero, e0, e1, Bool.false_eq_true, if_false]

/-- At epoch J2000 the reference star at rest is projected to `(1, 0, 0)`. -/
theorem refStarAtRest_projected :
    refStarAtRest.position.add (refStarAtRest.velocity.multiplyBy
      (refEnv.kJ2000 - refEnv.kJ2000)) = ⟨.fin 1, .fin 0, .fin 0⟩ := by
  obtain ⟨e0, e1, -, -, -⟩ := Double.ofReal_units
  have hj : refEnv.kJ2000 = .fin 2451545 := rfl
  rw [refStarAtRest_position, refStarAtRest_velocity, hj]
  dsimp only [SSVector.multiplyBy, SSVector.add]
  simp only [Double.sub_def, Double.mul_def, Double.add_def, sub_self, mul_zero, add_zero, e0, e1]

/-! ### C16 -/

/-- Claim C16 fails on the code: `SSStar::computeEphemeris` multiplies the apparent distance
by the star's own parallax, not by `kParsecPerLY`.  The reference star at rest, one light
year away with parallax `kLYPerParsec / 1`, gets at epoch J2000 the apparent magnitude
`0 + 5 log10 (1 * 3.26) > 0`, while the visual magnitude plus `5 log10` of the distance in
parsecs is `0 + 5 log10 (1 * kParsecPerLY) < 0`. -/
theorem computeEphemeris_magnitude_of_star_at_rest :
    Double.gt refStarAtRest.parallax (.fin 0) ∧
    (refStarAtRest.computeEphemeris refEnv ⟨refEnv.kJ2000⟩).distance = .fin 1 ∧
    (refStarAtRest.computeEphemeris refEnv ⟨refEnv.kJ2000⟩).magnitude
      = .fin (5 * Real.logb 10 (326 / 100)) ∧
    refStarAtRest.Vmag + .fin 5 * Double.log10
        ((refStarAtRest.computeEphemeris refEnv ⟨refEnv.kJ2000⟩).distance * refEnv.kParsecPerLY)
      = .fin (-(5 * Real.logb 10 (326 / 100))) ∧
    (refStarAtRest.computeEphemeris refEnv ⟨refEnv.kJ2000⟩).magnitude
      ≠ refStarAtRest.Vmag + .fin 5 * Double.log10
          ((refStarAtRest.computeEphemeris refEnv ⟨refEnv.kJ2000⟩).distance
            * refEnv.kParsecPerLY) := by
  obtain ⟨e0, e1, -, -, -⟩ := Double.ofReal_units
  have hgt : Double.gt refStarAtRest.parallax (.fin 0) := by
    rw [refStarAtRest_parallax]
    show (0 : ℝ) < 326 / 100
    norm_num
  have hv : refStarAtRest.Vmag = .fin 0 := rfl
  have hk : refEnv.kParsecPerLY = .fin (100 / 326) := rfl
  -- the logarithm is of moderate size
  have hlog10 : 0 < Real.log 10 := Real.log_pos (by norm_num)
  have hlog10le : Real.log 10 ≤ 9 := by
    have := Real.log_le_sub_one_of_pos (by norm_num : (0 : ℝ) < 10)
    linarith
  have hlogx : 1 / 2 ≤ Real.log (326 / 100) := by
    have := Real.one_sub_inv_le_log_of_pos (by norm_num : (0 : ℝ) < 326 / 100)
    refine le_trans ?_ this
    norm_num
  have ha1 : 1 / 18 ≤ Real.logb 10 (326 / 100) := by
    unfold Real.logb
    rw [le_div_iff₀ hlog10]
    linarith
  have ha2 : Real.logb 10 (326 / 100) ≤ 1 := by
    have := Real.logb_le_logb_of_le (by norm_num : (1 : ℝ) < 10)
      (by norm_num : (0 : ℝ) < 326 / 100) (by norm_num : (326 / 100 : ℝ) ≤ 10)
    rwa [Real.logb_self_eq_one (by norm_num)] at this
  have hinv : Real.logb 10 (100 / 326) = -Real.logb 10 (326 / 100) := by
    rw [← Real.logb_inv]
    congr 1
    norm_num
  have h5 : Double.ofReal (5 * Real.logb 10 (326 / 100))
      = .fin (5 * Real.logb 10 (326 / 100)) :=
    Double.ofReal_of_pos (le_trans (by norm_num) (by linarith :
        (5 : ℝ) / 18 ≤ 5 * Real.logb 10 (326 / 100)))
      (lt_of_le_of_lt (by linarith : 5 * Real.logb 10 (326 / 100) ≤ 5) (by norm_num))
  have h5n : Double.ofReal (-(5 * Real.logb 10 (326 / 100)))
      = .fin (-(5 * Real.logb 10 (326 / 100))) := by
    have hpos : 0 < 5 * Real.logb 10 (326 / 100) := by linarith
    refine Double.ofReal_eq_fin ⟨?_, Or.inr ?_⟩
    · rw [abs_neg, abs_of_pos hpos]
      exact lt_of_le_of_lt (by linarith : 5 * Real.logb 10 (326 / 100) ≤ 5) (by norm_num)
    · rw [abs_neg, abs_of_pos hpos]
      exact le_trans (by norm_num) (by linarith : (5 : ℝ) / 18 ≤ 5 * Real.logb 10 (326 / 100))
  have hx : Double.ofReal (326 / 100) = .fin (326 / 100) :=
    Double.ofReal_of_pos (by norm_num) (by norm_num)
  have hy : Double.ofReal (100 / 326) = .fin (100 / 326) :=
    Double.ofReal_of_pos (by norm_num) (by norm_num)
  have hd : (refStarAtRest.computeEphemeris refEnv ⟨refEnv.kJ2000⟩).distance = .fin 1 := by
    unfold SSStar.computeEphemeris
    rw [if_pos hgt]
    dsimp only
    rw [refStarAtRest_projected]
    dsimp only [SSVector.magnitude]
    simp only [Double.mul_def, Double.add_def, mul_one, mul_zero, add_zero, e0, e1]
    rw [Double.sqrt_fin _ zero_le_one, Real.sqrt_one]
  have hm : (refStarAtRest.computeEphemeris refEnv ⟨refEnv.kJ2000⟩).magnitude
      = .fin (5 * Real.logb 10 (326 / 100)) := by
    have hd1 := hd
    unfold SSStar.computeEphemeris at hd1 ⊢
    rw [if_pos hgt] at hd1 ⊢
    dsimp only at hd1 ⊢
    rw [hd1, hv, refStarAtRest_parallax, Double.mul_def, one_mul, hx]
    show Double.fin 0 + Double.fin 5 * (if (0 : ℝ) < 326 / 100 then Double.fin
      (Real.logb 10 (326 / 100)) else if (326 / 100 : ℝ) = 0 then .ninf else .nan) = _
    rw [if_pos (by norm_num), Double.mul_def, h5, Double.add_def, zero_add, h5]
  have hc : refStarAtRest.Vmag + .fin 5 * Double.log10
        ((refStarAtRest.computeEphemeris refEnv ⟨refEnv.kJ2000⟩).distance * refEnv.kParsecPerLY)
      = .fin (-(5 * Real.logb 10 (326 / 100))) := by
    rw [hd, hv, hk, Double.mul_def, one_mul, hy]
    show Double.fin 0 + Double.fin 5 * (if (0 : ℝ) < 100 / 326 then Double.fin
      (Real.logb 10 (100 / 326)) else if (100 / 326 : ℝ) = 0 then .ninf else .nan) = _
    rw [if_pos (by norm_num), hinv, Double.mul_def, mul_neg, h5n, Double.add_def, zero_add, h5n]
  refine ⟨hgt, hd, hm, hc, ?_⟩
  rw [hm, hc]
  intro h
  have h1 := Double.fin.inj h
  linarith

/-! ### C15 -/

/-- Claim C15 as stated fails.  The reference star whose coordinates were set without a
motion has positive parallax and an unknown (`+inf`) velocity; one year after J2000 its
projected vector is `(+inf, +inf, +inf)`, its apparent distance `+inf`, and its apparent
direction `(NaN, NaN, NaN)`, whose magnitude is not 1.  The reference star at rest `1e200`
light years away has positive parallax and, at J2000, the finite projected vector
`(1e200, 0, 0)`; its apparent distance is computed as `+inf` and its apparent direction is
`(0, 0, 0)`, whose magnitude is not 1. -/
theorem computeEphemeris_direction_counterexample :
    Double.gt refStarNoMotion.parallax (.fin 0) ∧
    (refStarNoMotion.computeEphemeris refEnv ⟨.fin 2451546⟩).direction
      = ⟨.nan, .nan, .nan⟩ ∧
    (refStarNoMotion.computeEphemeris refEnv ⟨.fin 2451546⟩).direction.magnitude ≠ .fin 1 ∧
    Double.gt refStarFar.parallax (.fin 0) ∧
    refStarFar.position.add (refStarFar.velocity.multiplyBy (refEnv.kJ2000 - refEnv.kJ2000))
      = ⟨.fin ((10 : ℝ) ^ 200), .fin 0, .fin 0⟩ ∧
    (refStarFar.computeEphemeris refEnv ⟨refEnv.kJ2000⟩).distance = .pinf ∧
    (refStarFar.computeEphemeris refEnv ⟨refEnv.kJ2000⟩).direction
      = ⟨.fin 0, .fin 0, .fin 0⟩ ∧
    (refStarFar.computeEphemeris refEnv ⟨refEnv.kJ2000⟩).direction.magnitude ≠ .fin 1 := by
  obtain ⟨e0, e1, -, ec, es⟩ := Double.ofReal_units
  have refStarNoMotion_velocity :
      refStarNoMotion.velocity = ⟨.pinf, .pinf, .pinf⟩ := rfl
  have refStarNoMotion_position : refStarNoMotion.position = ⟨.fin 1, .fin 0, .fin 0⟩ := by
    have hp : ¬ (Double.le (if (Double.fin 1).isinf = true then Double.fin 0
        else refEnv.kLYPerParsec / Double.fin 1) (.fin 0) ∨ (Double.fin 1).isinf = true) := by
      rw [refEnv_parallax_one]
      intro h
      rcases h with h | h
      · exact Double.not_le_fin_zero_of_pos _ (by norm_num) h
      · exact absurd h (by decide)
    show (if Double.le (if (Double.fin 1).isinf = true then Double.fin 0
        else refEnv.kLYPerParsec / Double.fin 1) (.fin 0) ∨ (Double.fin 1).isinf = true
      then ({ (⟨.fin 0, .fin 0, .fin 1⟩ : SSSpherical) with rad := .fin 1 } : SSSpherical)
      else ⟨.fin 0, .fin 0, .fin 1⟩).toVectorPosition = _
    rw [if_neg hp]
    dsimp only [SSSpherical.toVectorPosition, SSVector.ofSpherical]
    simp only [ec, es, Double.mul_def, mul_one, mul_zero, e0, e1]
  have refStarNoMotion_parallax : refStarNoMotion.parallax = .fin (326 / 100) := by
    show (if (Double.fin 1).isinf = true then Double.fin 0
      else refEnv.kLYPerParsec / Double.fin 1) = _
    rw [refEnv_parallax_one]
    rfl
  have hgt : Double.gt refStarNoMotion.parallax (.fin 0) := by
    rw [refStarNoMotion_parallax]
    show (0 : ℝ) < 326 / 100
    norm_num
  have hj : refEnv.kJ2000 = .fin 2451545 := rfl
  have hdir : (refStarNoMotion.computeEphemeris refEnv ⟨.fin 2451546⟩).direction
      = ⟨.nan, .nan, .nan⟩ := by
    unfold SSStar.computeEphemeris
    rw [if_pos hgt]
    dsimp only [SSVector.multiplyBy, SSVector.add, SSVector.divideBy, SSVector.magnitude]
    simp only [refStarNoMotion_position, refStarNoMotion_velocity, hj, Double.sub_def]
    have h0 : ((2451546 : ℝ) - 2451545) = 1 := by norm_num
    have h1 : (Double.pinf * Double.fin 1 : Double) = .pinf := by
      show Double.signedInf 1 = .pinf
      unfold Double.signedInf
      rw [if_pos one_pos]
    rw [h0, e1, h1]
    rfl
  -- the star at rest `1e200` light years away
  have hbig : Double.ofReal ((10 : ℝ) ^ 200) = .fin ((10 : ℝ) ^ 200) :=
    Double.ofReal_of_pos (by norm_num) (by norm_num)
  have hpF : ¬ Double.le (if (Double.fin ((10 : ℝ) ^ 200)).isinf = true then Double.fin 0
      else refEnv.kLYPerParsec / Double.fin ((10 : ℝ) ^ 200)) (.fin 0) := by
    have e : (if (Double.fin ((10 : ℝ) ^ 200)).isinf = true then Double.fin 0
        else refEnv.kLYPerParsec / Double.fin ((10 : ℝ) ^ 200))
        = .fin (326 / 100 / (10 : ℝ) ^ 200) := refEnv_parallax_far
    rw [e]
    exact Double.not_le_fin_zero_of_pos _ (by positivity)
  have hgtF : Double.gt refStarFar.parallax (.fin 0) := by
    have e : refStarFar.parallax = .fin (326 / 100 / (10 : ℝ) ^ 200) := refEnv_parallax_far
    rw [e]
    show (0 : ℝ) < 326 / 100 / (10 : ℝ) ^ 200
    positivity
  have hposF : refStarFar.position = ⟨.fin ((10 : ℝ) ^ 200), .fin 0, .fin 0⟩ := by
    show (if Double.le (if (Double.fin ((10 : ℝ) ^ 200)).isinf = true then Double.fin 0
        else refEnv.kLYPerParsec / Double.fin ((10 : ℝ) ^ 200)) (.fin 0)
      then ({ (⟨.fin 0, .fin 0, .fin ((10 : ℝ) ^ 200)⟩ : SSSpherical) with
        rad := .fin 1 } : SSSpherical)
      else ⟨.fin 0, .fin 0, .fin ((10 : ℝ) ^ 200)⟩).toVectorPosition = _
    rw [if_neg hpF]
    dsimp only [SSSpherical.toVectorPosition, SSVector.ofSpherical]
    simp only [ec, es, Double.mul_def, mul_one, mul_zero, e0, hbig]
  have hvelF : refStarFar.velocity = ⟨.fin 0, .fin 0, .fin 0⟩ := by
    show (if Double.le (if (Double.fin ((10 : ℝ) ^ 200)).isinf = true then Double.fin 0
        else refEnv.kLYPerParsec / Double.fin ((10 : ℝ) ^ 200)) (.fin 0)
      then ({ (⟨.fin 0, .fin 0, .fin ((10 : ℝ) ^ 200)⟩ : SSSpherical) with
        rad := .fin 1 } : SSSpherical)
      else ⟨.fin 0, .fin 0, .fin ((10 : ℝ) ^ 200)⟩).toVectorVelocity _ = _
    rw [if_neg hpF]
    simp only [if_neg hpF]
    dsimp only [SSSpherical.toVectorVelocity, SSSphericalToVectorMotion, Double.isinf]
    simp only [ec, es, Double.neg_fin, Double.mul_def, Double.add_def, Double.sub_def, mul_zero,
      zero_mul, mul_one, sub_zero, add_zero, e0, e1, hbig, Bool.false_eq_true, if_false]
  have hprojF : refStarFar.position.add (refStarFar.velocity.multiplyBy
      (refEnv.kJ2000 - refEnv.kJ2000)) = ⟨.fin ((10 : ℝ) ^ 200), .fin 0, .fin 0⟩ := by
    rw [hposF, hvelF, hj]
    dsimp only [SSVector.multiplyBy, SSVector.add]
    simp only [Double.sub_def, Double.mul_def, Double.add_def, sub_self, mul_zero, add_zero, e0,
      hbig]
  have hdistF : (refStarFar.computeEphemeris refEnv ⟨refEnv.kJ2000⟩).distance = .pinf := by
    unfold SSStar.computeEphemeris
    rw [if_pos hgtF]
    dsimp only
    rw [hprojF]
    exact SSVector.magnitude_pinf (by norm_num)
  have hdirF : (refStarFar.computeEphemeris refEnv ⟨refEnv.kJ2000⟩).direction
      = ⟨.fin 0, .fin 0, .fin 0⟩ := by
    have hd1 := hdistF
    unfold SSStar.computeEphemeris at hd1 ⊢
    rw [if_pos hgtF] at hd1 ⊢
    dsimp only at hd1 ⊢
    rw [hd1, hprojF]
    rfl
  refine ⟨hgt, hdir, ?_, hgtF, hprojF, hdistF, hdirF, ?_⟩
  · rw [hdir]
    intro h
    exact Double.noConfusion (show Double.nan = Double.fin 1 from h)
  · rw [hdirF, SSVector.magnitude_fin_mid (by norm_num : 0 ≤ 510) (Double.Mid.zero 0)
      (Double.Mid.zero 0) (Double.Mid.zero 0), mul_zero, add_zero, add_zero, Real.sqrt_zero]
    intro h
    have h1 := Double.fin.inj h
    norm_num at h1

/-- Claim C15, amended. For every star with positive parallax and every epoch `jde`,
after `SSStar::computeEphemeris` the apparent distance equals the magnitude of the
projected vector `position + velocity * (jde - J2000)` and the apparent direction is that
vector divided by the apparent distance; when the projected vector is not the zero vector
and each of its components is finite and either zero or of magnitude between `2^(-250)`
and `2^250`, the direction has magnitude 1 (no square, sum or quotient overflows or
underflows in that range; the rounding of the significand is not modelled). -/
theorem computeEphemeris_distance_and_direction (env : Env) (s : SSStar) (dyn : SSDynamics)
    (h : Double.gt s.parallax (.fin 0)) :
    (s.computeEphemeris env dyn).distance
      = (s.position.add (s.velocity.multiplyBy (dyn.jde - env.kJ2000))).magnitude ∧
    (s.computeEphemeris env dyn).direction
      = (s.position.add (s.velocity.multiplyBy (dyn.jde - env.kJ2000))).divideBy
          (s.position.add (s.velocity.multiplyBy (dyn.jde - env.kJ2000))).magnitude ∧
    (∀ x y z : ℝ, s.position.add (s.velocity.multiplyBy (dyn.jde - env.kJ2000))
        = ⟨.fin x, .fin y, .fin z⟩ →
      Double.Mid 250 x → Double.Mid 250 y → Double.Mid 250 z → ¬ (x = 0 ∧ y = 0 ∧ z = 0) →
      (s.computeEphemeris env dyn).direction.magnitude = .fin 1) := by
  have hd : (s.computeEphemeris env dyn).direction
      = (s.position.add (s.velocity.multiplyBy (dyn.jde - env.kJ2000))).divideBy
          (s.position.add (s.velocity.multiplyBy (dyn.jde - env.kJ2000))).magnitude := by
    unfold SSStar.computeEphemeris
    rw [if_pos h]
  refine ⟨?_, hd, fun x y z hp hx hy hz hv => ?_⟩
  · unfold SSStar.computeEphemeris
    rw [if_pos h]
  · obtain ⟨hm, -, hu⟩ := SSVector.divideBy_magnitude_unit hx hy hz hv
    rw [hd, hp, hm]
    exact hu

/-- Witness for the amended C15: the reference star at rest at epoch J2000, whose
projected vector is `(1, 0, 0)`. -/
theorem computeEphemeris_distance_and_direction_witness :
    Double.gt refStarAtRest.parallax (.fin 0) ∧
    (refStarAtRest.computeEphemeris refEnv ⟨refEnv.kJ2000⟩).direction.magnitude = .fin 1 := by
  have h : Double.gt refStarAtRest.parallax (.fin 0) := by
    rw [refStarAtRest_parallax]
    show (0 : ℝ) < 326 / 100
    norm_num
  have h1 : Double.Mid 250 1 := Double.Mid.of_pos (by norm_num) (by norm_num)
  exact ⟨h, (computeEphemeris_distance_and_direction refEnv refStarAtRest ⟨refEnv.kJ2000⟩
    h).2.2 1 0 0 refStarAtRest_projected h1 (Double.Mid.zero 250) (Double.Mid.zero 250)
    (by norm_num)⟩

/-! ### Spherical and rectangular coordinates -/

namespace Double

end Double

/-- Claim C24. For every coordinates and every motion, the parallax and the position
vector that `setFundamentalMotion ( coords, motion )` stores are those that
`setFundamentalCoords ( coords )` stores, although the former forces the unit radius only
under `parallax <= 0` and the latter under `parallax <= 0 or radius infinite`: an
infinite radius gives parallax 0. -/
theorem setFundamentalMotion_agrees_with_setFundamentalCoords (env : Env) (s : SSStar)
    (coords motion : SSSpherical) :
    (s.setFundamentalMotion env coords motion).parallax
      = (s.setFundamentalCoords env coords).parallax ∧
    (s.setFundamentalMotion env coords motion).position
      = (s.setFundamentalCoords env coords).position := by
  refine ⟨rfl, ?_⟩
  show (if Double.le (if coords.rad.isinf = true then Double.fin 0
        else env.kLYPerParsec / coords.rad) (.fin 0)
      then ({ coords with rad := .fin 1 } : SSSpherical) else coords).toVectorPosition
    = (if Double.le (if coords.rad.isinf = true then Double.fin 0
        else env.kLYPerParsec / coords.rad) (.fin 0) ∨ coords.rad.isinf = true
      then ({ coords with rad := .fin 1 } : SSSpherical) else coords).toVectorPosition
  by_cases hi : coords.rad.isinf = true
  · have hle : Double.le (Double.fin 0) (.fin 0) := Or.inr (show (0 : ℝ) = 0 from rfl)
    simp only [hi, if_true, if_pos hle, or_true]
  · simp only [hi, Bool.false_eq_true, if_false, or_false]

/-! ### C23 -/

/-- Claim C23 as stated fails: the position `(1e-200, 0, 0)` has a square that underflows,
so its magnitude is computed as 0 while `x` is not 0; the guard is false, the other branch
runs and, with the velocity `(0, 1, 0)`, leaves the longitude `asin (0 / 0) = NaN` and the
longitude rate `1e-200 / 0 = +inf`. -/
theorem SSVectorToSphericalMotion_fallback_counterexample :
    (SSVector.mk (.fin (1 / (10 : ℝ) ^ 200)) (.fin 0) (.fin 0)).magnitude = .fin 0 ∧
    ¬ (Double.toBool (SSVector.mk (.fin (1 / (10 : ℝ) ^ 200)) (.fin 0) (.fin 0)).magnitude ∨
      (Double.eq (.fin (1 / (10 : ℝ) ^ 200)) (.fin 0) ∧ Double.eq (.fin 0) (.fin 0))) ∧
    (SSVectorToSphericalMotion ⟨.fin (1 / (10 : ℝ) ^ 200), .fin 0, .fin 0⟩
      ⟨.fin 0, .fin 1, .fin 0⟩).1.lon = .nan ∧
    (SSVectorToSphericalMotion ⟨.fin (1 / (10 : ℝ) ^ 200), .fin 0, .fin 0⟩
      ⟨.fin 0, .fin 1, .fin 0⟩).2.lon = .pinf ∧
    SSVectorToSphericalMotion ⟨.fin (1 / (10 : ℝ) ^ 200), .fin 0, .fin 0⟩
        ⟨.fin 0, .fin 1, .fin 0⟩
      ≠ (⟨.fin 0, .fin 0,
          (SSVector.mk (.fin (1 / (10 : ℝ) ^ 200)) (.fin 0) (.fin 0)).magnitude⟩,
        ⟨.fin 0, .fin 0, .fin 0⟩) := by
  obtain ⟨e0, e1, -, -, -⟩ := Double.ofReal_units
  have hpos : (0 : ℝ) < 1 / (10 : ℝ) ^ 200 := by positivity
  have hsmall : Double.ofReal (1 / (10 : ℝ) ^ 200 * (1 / (10 : ℝ) ^ 200)) = .fin 0 := by
    unfold Double.ofReal
    rw [if_neg (by norm_num), if_neg (by norm_num),
      if_pos (by rw [abs_of_pos (by positivity)]; norm_num)]
  have hε : Double.ofReal (1 / (10 : ℝ) ^ 200) = .fin (1 / (10 : ℝ) ^ 200) :=
    Double.ofReal_of_pos (by norm_num) (by norm_num)
  have hmag : (SSVector.mk (.fin (1 / (10 : ℝ) ^ 200)) (.fin 0) (.fin 0)).magnitude
      = .fin 0 := by
    dsimp only [SSVector.magnitude]
    simp only [Double.mul_def, Double.add_def, hsmall, mul_zero, add_zero, e0]
    rw [Double.sqrt_fin 0 le_rfl, Real.sqrt_zero]
  have hguard : ¬ (Double.toBool
      (SSVector.mk (.fin (1 / (10 : ℝ) ^ 200)) (.fin 0) (.fin 0)).magnitude ∨
      (Double.eq (.fin (1 / (10 : ℝ) ^ 200)) (.fin 0) ∧ Double.eq (.fin 0) (.fin 0))) := by
    rw [hmag]
    intro h
    rcases h with h | h
    · exact h (show (0 : ℝ) = 0 from rfl)
    · exact hpos.ne' (show 1 / (10 : ℝ) ^ 200 = 0 from h.1)
  have hdiv : (Double.fin 0 / Double.fin 0 : Double) = .nan := by
    show (if (0 : ℝ) = 0 then Double.signedInf 0 else Double.ofReal (0 / 0)) = _
    rw [if_pos rfl]
    unfold Double.signedInf
    rw [if_neg (lt_irrefl 0), if_neg (lt_irrefl 0)]
  have hlon : (SSVectorToSphericalMotion ⟨.fin (1 / (10 : ℝ) ^ 200), .fin 0, .fin 0⟩
      ⟨.fin 0, .fin 1, .fin 0⟩).1.lon = .nan := by
    unfold SSVectorToSphericalMotion
    simp only []
    rw [if_neg hguard, hmag, hdiv]
    rfl
  have hvlon : (SSVectorToSphericalMotion ⟨.fin (1 / (10 : ℝ) ^ 200), .fin 0, .fin 0⟩
      ⟨.fin 0, .fin 1, .fin 0⟩).2.lon = .pinf := by
    unfold SSVectorToSphericalMotion
    simp only []
    rw [if_neg hguard]
    simp only [Double.mul_def, Double.add_def, Double.sub_def, hsmall, mul_zero, mul_one,
      add_zero, sub_zero, zero_mul, e0, hε]
    show (if (0 : ℝ) = 0 then Double.signedInf (1 / (10 : ℝ) ^ 200)
      else Double.ofReal (1 / (10 : ℝ) ^ 200 / 0)) = _
    rw [if_pos rfl]
    unfold Double.signedInf
    rw [if_pos hpos]
  refine ⟨hmag, hguard, hlon, hvlon, ?_⟩
  intro h
  have h1 := congrArg (fun r : SSSpherical × SSSpherical => r.1.lon) h
  dsimp only at h1
  rw [hlon] at h1
  exact Double.noConfusion h1

/-- Claim C23, amended. For every velocity vector and every position vector, except the
finite position vectors whose three components all have a square below `2^(-1075)` (so
that the magnitude is computed as 0) while `x` or `y` is not 0, `SSVectorToSphericalMotion`
returns longitude 0, latitude 0 and all three spherical velocity components 0, with the
magnitude as radius: its guard holds for these vectors (an infinite or NaN magnitude
converts to `true`), so the result depends neither on the velocity nor on the direction of
the position. -/
theorem SSVectorToSphericalMotion_fallback (posVec velVec : SSVector)
    (h : ¬ ∃ a b c : ℝ, posVec = ⟨.fin a, .fin b, .fin c⟩ ∧
      a * a < 1 / (2 : ℝ) ^ 1075 ∧ b * b < 1 / (2 : ℝ) ^ 1075 ∧ c * c < 1 / (2 : ℝ) ^ 1075 ∧
      ¬ (a = 0 ∧ b = 0)) :
    SSVectorToSphericalMotion posVec velVec
      = (⟨.fin 0, .fin 0, posVec.magnitude⟩, ⟨.fin 0, .fin 0, .fin 0⟩) := by
  -- the square root of a value away from zero converts to `true`
  have hroot : ∀ d : Double, d.AwayFromZero → Double.toBool (Double.sqrt d) := by
    intro d hd
    rcases hd with rfl | rfl | ⟨u, rfl, hu⟩
    · exact fun h => h
    · exact fun h => h
    · have hpos : 0 < u := lt_of_lt_of_le (by positivity) hu
      rw [Double.sqrt_fin u hpos.le]
      intro he
      exact (Real.sqrt_pos.mpr hpos).ne' he
  have hof : ∀ w : ℝ, 1 / (2 : ℝ) ^ 1075 ≤ w → (Double.ofReal w).AwayFromZero := by
    intro w hw
    by_cases h1 : (2 : ℝ) ^ 1024 ≤ w
    · left
      unfold Double.ofReal
      rw [if_pos h1]
    · exact Or.inr (Or.inr ⟨w, Double.ofReal_of_pos hw (not_le.mp h1), hw⟩)
  -- a square is away from zero, or it is zero and the number finite with a small square
  have hsq : ∀ d : Double, (d * d).AwayFromZero ∨
      (d * d = .fin 0 ∧ ∃ r : ℝ, d = .fin r ∧ r * r < 1 / (2 : ℝ) ^ 1075) := by
    intro d
    cases d with
    | fin r =>
      by_cases h3 : r * r < 1 / (2 : ℝ) ^ 1075
      · right
        refine ⟨?_, r, rfl, h3⟩
        have hlt : r * r < (2 : ℝ) ^ 1024 := lt_trans h3 (by norm_num)
        have hneg : ¬ r * r ≤ -(2 : ℝ) ^ 1024 := by
          have := mul_self_nonneg r
          have hp : (0 : ℝ) < (2 : ℝ) ^ 1024 := by positivity
          intro h
          linarith
        show Double.ofReal (r * r) = _
        unfold Double.ofReal
        rw [if_neg (not_le.mpr hlt), if_neg hneg,
          if_pos (by rwa [abs_of_nonneg (mul_self_nonneg r)])]
      · exact Or.inl (hof _ (not_lt.mp h3))
    | pinf => exact Or.inl (Or.inl rfl)
    | ninf => exact Or.inl (Or.inl rfl)
    | nan => exact Or.inl (Or.inr (Or.inl rfl))
  -- adding a value away from zero to a square
  have hadd : ∀ a b : Double, a.AwayFromZero → (b.AwayFromZero ∨ b = .fin 0) →
      (a + b).AwayFromZero ∧ (b + a).AwayFromZero := by
    intro a b ha hb
    have hb1 : b = .pinf ∨ b = .nan ∨ ∃ v : ℝ, b = .fin v ∧ 0 ≤ v := by
      rcases hb with (hb | hb | ⟨v, hb, hv⟩) | hb
      · exact Or.inl hb
      · exact Or.inr (Or.inl hb)
      · exact Or.inr (Or.inr ⟨v, hb, le_trans (by positivity) hv⟩)
      · exact Or.inr (Or.inr ⟨0, hb, le_rfl⟩)
    rcases ha with rfl | rfl | ⟨u, rfl, hu⟩ <;> rcases hb1 with rfl | rfl | ⟨v, rfl, hv⟩
    · exact ⟨Or.inl rfl, Or.inl rfl⟩
    · exact ⟨Or.inr (Or.inl rfl), Or.inr (Or.inl rfl)⟩
    · exact ⟨Or.inl rfl, Or.inl rfl⟩
    · exact ⟨Or.inr (Or.inl rfl), Or.inr (Or.inl rfl)⟩
    · exact ⟨Or.inr (Or.inl rfl), Or.inr (Or.inl rfl)⟩
    · exact ⟨Or.inr (Or.inl rfl), Or.inr (Or.inl rfl)⟩
    · exact ⟨Or.inl rfl, Or.inl rfl⟩
    · exact ⟨Or.inr (Or.inl rfl), Or.inr (Or.inl rfl)⟩
    · exact ⟨hof (u + v) (by linarith), hof (v + u) (by linarith)⟩
  have hguard : Double.toBool posVec.magnitude ∨
      (Double.eq posVec.x (.fin 0) ∧ Double.eq posVec.y (.fin 0)) := by
    obtain ⟨x, y, z⟩ := posVec
    have hy1 : (y * y).AwayFromZero ∨ y * y = .fin 0 := (hsq y).imp id (fun h => h.1)
    have hz1 : (z * z).AwayFromZero ∨ z * z = .fin 0 := (hsq z).imp id (fun h => h.1)
    show Double.toBool (Double.sqrt (x * x + y * y + z * z)) ∨ _
    rcases hsq x with hx | ⟨hx0, a, rfl, ha⟩
    · exact Or.inl (hroot _ (hadd _ _ (hadd _ _ hx hy1).1 hz1).1)
    rcases hsq y with hy | ⟨hy0, b, rfl, hb⟩
    · exact Or.inl (hroot _ (hadd _ _ (hadd _ _ hy (Or.inr hx0)).2 hz1).1)
    have hxy : (Double.fin a * Double.fin a + Double.fin b * Double.fin b : Double)
        = .fin 0 := by
      rw [hx0, hy0]
      show Double.ofReal (0 + 0) = _
      rw [add_zero]
      exact Double.ofReal_zero
    rcases hsq z with hz | ⟨hz0, c, rfl, hc⟩
    · exact Or.inl (hroot _ (hadd _ _ hz (Or.inr hxy)).2)
    by_cases hab : a = 0 ∧ b = 0
    · exact Or.inr ⟨hab.1, hab.2⟩
    · exact absurd ⟨a, b, c, rfl, ha, hb, hc, hab⟩ h
  unfold SSVectorToSphericalMotion
  simp only []
  rw [if_pos hguard]

/-- Witness for the amended C23: the position `(3, 0, 4)` with the velocity `(1, 1, 1)`. -/
theorem SSVectorToSphericalMotion_fallback_witness :
    SSVectorToSphericalMotion ⟨.fin 3, .fin 0, .fin 4⟩ ⟨.fin 1, .fin 1, .fin 1⟩
      = (⟨.fin 0, .fin 0, (SSVector.mk (.fin 3) (.fin 0) (.fin 4)).magnitude⟩,
        ⟨.fin 0, .fin 0, .fin 0⟩) :=
  SSVectorToSphericalMotion_fallback ⟨.fin 3, .fin 0, .fin 4⟩ ⟨.fin 1, .fin 1, .fin 1⟩
    (fun ⟨a, _, _, he, ha, _⟩ => by
      have h3 : (3 : ℝ) = a := Double.fin.inj (congrArg SSVector.x he)
      rw [← h3] at ha
      norm_num at ha)

/-! ### C22 -/

/-- Claim C22. For every type code and every field list that has at least the number of
fixed fields of the type (the minimum-field-count check of `SSStar::fromCSV`), every
positional subscript that the function evaluates afterwards (1 to 9 for the base, 10 to 14
for the double-star fragment, `fv` to `fv + 4` for the variable-star fragment, 10 to 12
for the deep-sky fragment) is strictly less than the number of fields, so the subscript
denotes an element of the vector. -/
theorem fromCSV_subscripts_in_bounds (env : Env) (type : SSObjectType)
    (fields : List string) (hn : fromCSV.fid env type ≤ fields.length) :
    ∀ i ∈ fromCSV.subscripts env type,
      i < fields.length ∧ fields[i]? = some (fields.getD i []) := by
  have key : ∀ i ∈ fromCSV.subscripts env type, i < fromCSV.fid env type := by
    unfold fromCSV.subscripts fromCSV.fid SSNewObject
    intro i hi
    split_ifs at hi ⊢ <;>
      (dsimp only [SSGetDoubleStarPtr, SSGetVariableStarPtr, SSGetDeepSkyPtr, SSObject.newStar,
        SSObject.newDoubleStar, SSObject.newVariableStar, SSObject.newDoubleVariableStar,
        SSObject.newDeepSky] at hi; simp at hi) <;> omega
  intro i hi
  have hlt : i < fields.length := lt_of_lt_of_le (key i hi) hn
  refine ⟨hlt, ?_⟩
  rw [List.getD_eq_getElem?_getD, List.getElem?_eq_getElem hlt]
  rfl

/-- Witness for C22: the double-variable line of the reference environment has 23 fields,
its type needs 20, and the subscripts read are 1 to 19. -/
theorem fromCSV_subscripts_in_bounds_witness :
    fromCSV.fid refEnv (fromCSV.type refEnv refLineDoubleVariable) = 20 ∧
    (fromCSV.fields refLineDoubleVariable).length = 23 ∧
    fromCSV.subscripts refEnv (fromCSV.type refEnv refLineDoubleVariable)
      = [1, 2, 3, 4, 5, 6, 7, 8, 9, 10, 11, 12, 13, 14, 15, 16, 17, 18, 19] ∧
    ∀ i ∈ fromCSV.subscripts refEnv (fromCSV.type refEnv refLineDoubleVariable),
      i < (fromCSV.fields refLineDoubleVariable).length ∧
        (fromCSV.fields refLineDoubleVariable)[i]?
          = some ((fromCSV.fields refLineDoubleVariable).getD i []) :=
  ⟨by decide, by decide, by decide,
    fromCSV_subscripts_in_bounds refEnv (fromCSV.type refEnv refLineDoubleVariable)
      (fromCSV.fields refLineDoubleVariable) (by decide)⟩

/-! ### C21 -/

/-- Claim C21 fails on the code: `SSStar::fromCSV` collects the identifiers of the tail
with `push_back` and stores them with `setIdentifiers`, never through `addIdentifier`.  In
the reference environment the star line below carries the same identifier in both of its
tail fields, and decodes to an identifier list with two entries of one catalog. -/
theorem fromCSV_repeated_catalog :
    ∃ star, SSGetStarPtr (fromCSV refEnv refLineRepeatedIdentifier) = some star ∧
      star.idents = [⟨1⟩, ⟨1⟩] ∧ ¬ (star.idents.map refEnv.catalog).Nodup := by
  refine ⟨_, fromCSV_star_part refEnv refEnv_typesDistinct _ (by decide) (by decide), ?_, ?_⟩
  · rw [fromCSV.star_idents]; decide
  · rw [fromCSV.star_idents]; decide

/-! ### C25 -/

theorem getD_append_nil (l : List string) (i : Nat) :
    (l ++ [[]]).getD i [] = l.getD i [] := by
  rw [List.getD_eq_getElem?_getD, List.getD_eq_getElem?_getD]
  by_cases h : i < l.length
  · rw [List.getElem?_append_left h]
  · rw [List.getElem?_eq_none (not_lt.mp h)]
    rcases Nat.eq_or_lt_of_le (not_lt.mp h) with h' | h'
    · subst h'; simp
    · rw [List.getElem?_eq_none (by simp; omega)]

theorem splitOnP_append_sep {α : Type} (p : α → Bool) (xs : List α) (sep : α)
    (hsep : p sep = true) : (xs ++ [sep]).splitOnP p = xs.splitOnP p ++ [[]] := by
  induction xs with
  | nil => simp [List.splitOnP_cons, hsep]
  | cons x xs ih =>
    rw [List.cons_append, List.splitOnP_cons, List.splitOnP_cons, ih]
    by_cases hx : p x = true
    · rw [if_pos hx, if_pos hx]; rfl
    · rw [if_neg hx, if_neg hx]
      cases hs : xs.splitOnP p with
      | nil => exact absurd hs (List.splitOnP_ne_nil p xs)
      | cons hd tl => rfl

/-- A comma at the end of a line adds one empty field at the end of its fields. -/
theorem fromCSV.fields_append_comma (csv : string) :
    fromCSV.fields (csv ++ [',']) = fromCSV.fields csv ++ [[]] := by
  unfold fromCSV.fields split
  simp only [List.splitOn]
  rw [splitOnP_append_sep (· == ',') csv ',' (by simp), List.map_append]
  rfl

/-- Claim C25. For every line that `SSStar::fromCSV` decodes successfully, the decoded name
list contains no empty string: the fields beyond the fixed ones that are empty after
trimming are skipped, so the identifier and name lists are those of the tail with its
empty fields removed, and the line with a comma added at its end decodes to the same
object. -/
theorem fromCSV_names_have_no_empty_string (env : Env) (hd : env.TypesDistinct)
    (csv : string) (obj : SSObject) (h : fromCSV env csv = some obj) :
    ∃ star, SSGetStarPtr (some obj) = some star ∧
      [] ∉ star.names ∧
      star.idents = (fromCSV.scan env
        (((fromCSV.fields csv).drop (fromCSV.fid env (fromCSV.type env csv))).filter
          (fun f => !f.isEmpty)) [] []).1 ∧
      star.names = (fromCSV.scan env
        (((fromCSV.fields csv).drop (fromCSV.fid env (fromCSV.type env csv))).filter
          (fun f => !f.isEmpty)) [] []).2 ∧
      fromCSV env (csv ++ [',']) = some obj := by
  -- A line that passes both guards of `fromCSV` decodes to the same result with a comma
  -- added at its end.
  have fromCSV_append_comma (env : Env) (csv : string)
      (hr : env.kTypeStar ≤ fromCSV.type env csv ∧ fromCSV.type env csv ≤ env.kTypeGalaxy)
      (hn : fromCSV.fid env (fromCSV.type env csv) ≤ (fromCSV.fields csv).length) :
      fromCSV env (csv ++ [',']) = fromCSV env csv := by
    -- The construction part of `fromCSV` does not see an empty field added after the fixed
    -- fields.
    have build_append_nil (env : Env) (type : SSObjectType) (fields : List string)
        (hn : fromCSV.fid env type ≤ fields.length) :
        fromCSV.build env type (fields ++ [[]]) = fromCSV.build env type fields := by
      -- An empty field at the end of the tail leaves both vectors of the loop as they are.
      have scan_append_nil (env : Env) (tail : List string)
          (idents : List SSIdentifier) (names : List string) :
          fromCSV.scan env (tail ++ [[]]) idents names = fromCSV.scan env tail idents names := by
        rw [fromCSV.scan_eq, fromCSV.scan_eq]
        simp [List.filter_append]
      have hdrop : (fields ++ [[]]).drop (fromCSV.fid env type)
          = fields.drop (fromCSV.fid env type) ++ [[]] := List.drop_append_of_le_length hn
      have hstar : fromCSV.star env type (fields ++ [[]]) = fromCSV.star env type fields := by
        funext pStar
        unfold fromCSV.star
        simp only [getD_append_nil, hdrop, scan_append_nil]
      have hdouble : fromCSV.doubleStar env (fields ++ [[]]) = fromCSV.doubleStar env fields := by
        funext pDoubleStar
        unfold fromCSV.doubleStar
        simp only [getD_append_nil]
      have hvariable : fromCSV.variableStar env type (fields ++ [[]])
          = fromCSV.variableStar env type fields := by
        funext pVariableStar
        unfold fromCSV.variableStar
        simp only [getD_append_nil]
      have hdeep : fromCSV.deepSky env (fields ++ [[]]) = fromCSV.deepSky env fields := by
        funext pDeepSkyObject
        unfold fromCSV.deepSky
        simp only [getD_append_nil]
      unfold fromCSV.build
      rw [hstar, hdouble, hvariable, hdeep]
    have ht : fromCSV.type env (csv ++ [',']) = fromCSV.type env csv := by
      unfold fromCSV.type
      rw [fromCSV.fields_append_comma, getD_append_nil]
    have h1 : ¬ (fromCSV.type env csv < env.kTypeStar ∨ env.kTypeGalaxy < fromCSV.type env csv) := by
      simpa only [not_or, not_lt] using hr
    rw [fromCSV_eq, fromCSV_eq, ht, fromCSV.fields_append_comma, if_neg h1, if_neg h1,
      if_neg (not_lt.mpr hn),
      if_neg (not_lt.mpr (by rw [List.length_append]; exact Nat.le_add_right_of_le hn)),
      build_append_nil env _ _ hn]
  obtain ⟨hr, hn⟩ := fromCSV_some_guards env csv obj h
  have hs := fromCSV_star_part env hd csv hr hn
  rw [h] at hs
  have hff : ∀ l : List string,
      (l.filter (fun f => !f.isEmpty)).filter (fun f => !f.isEmpty)
        = l.filter (fun f => !f.isEmpty) := by
    intro l; simp [List.filter_filter]
  refine ⟨_, hs, ?_, ?_, ?_, ?_⟩
  · rw [fromCSV.star_names, fromCSV.scan_eq]
    intro hmem
    simp only [List.nil_append, List.mem_filter] at hmem
    exact absurd hmem.1.2 (by simp)
  · rw [fromCSV.star_idents, fromCSV.scan_eq, fromCSV.scan_eq, hff]
  · rw [fromCSV.star_names, fromCSV.scan_eq, fromCSV.scan_eq, hff]
  · rw [fromCSV_append_comma env csv hr hn, h]

/-- Witness for C25: the star line of the reference environment whose tail is an empty
field and `Sirius` decodes to the single name `Sirius`, with or without a comma at its
end. -/
theorem fromCSV_names_have_no_empty_string_witness :
    ∃ obj, fromCSV refEnv refLineEmptyTailField = some obj ∧
      ((fromCSV.fields refLineEmptyTailField).drop 10 = [[], "Sirius".toList]) ∧
      ∃ star, SSGetStarPtr (some obj) = some star ∧
        star.names = ["Sirius".toList] ∧ [] ∉ star.names ∧
        fromCSV refEnv (refLineEmptyTailField ++ [',']) = some obj := by
  obtain ⟨obj, e, _⟩ := fromCSV_some_type refEnv refEnv_typesDistinct refLineEmptyTailField
    (by decide) (by decide)
  obtain ⟨star, hs, hne, _, hnames, hcomma⟩ :=
    fromCSV_names_have_no_empty_string refEnv refEnv_typesDistinct refLineEmptyTailField obj e
  refine ⟨obj, e, by decide, star, hs, ?_, hne, hcomma⟩
  rw [hnames]; decide

end
